import Mathlib

/-!
# Brewken persistence layer: schema registry, whole-database operations and typed stores

A shallow embedding of `database/ObjectStoreTyped.cpp` and `database/ObjectStoreWrapper.h`.
The static table definitions are transcribed column by column; the functions that walk the
registry (`CreateAllDatabaseTables`, `WriteAllObjectStoresToNewDb`) are written as pure
functions that return their result together with the calls they made.
-/

namespace Brewken

/-! ## Entity types and table definitions -/

/-- The entity classes for which `ObjectStoreTyped.cpp` declares a store. -/
inductive EntityType where
  | BrewNote
  | Equipment
  | Fermentable
  | Hop
  | Instruction
  | InventoryFermentable
  | InventoryHop
  | InventoryMisc
  | InventoryYeast
  | Mash
  | MashStep
  | Misc
  | Recipe
  | Salt
  | Style
  | Water
  | Yeast
  deriving DecidableEq, Repr

/-- The semantic column types `ObjectStore::FieldType` used by the table definitions. -/
inductive FieldType where
  | Bool
  | Int
  | UInt
  | Double
  | String
  | Date
  | Enum
  deriving DecidableEq, Repr

/-- One column of a table definition: `{fieldType, columnName, propertyName, enumMapping,
foreignKeyTo}`.  Arguments left out in the source are `none`; an explicit `nullptr` enum
mapping is `none` as well.  `foreignKeyTo` names the entity type whose `PRIMARY_TABLE` the
column points at. -/
structure TableField where
  fieldType : FieldType
  columnName : String
  propertyName : Option String
  enumMapping : Option String
  foreignKeyTo : Option EntityType
  deriving DecidableEq, Repr

/-- A primary table: its name and its ordered columns. -/
structure TableDefinition where
  tableName : String
  tableFields : List TableField
  deriving DecidableEq, Repr

/-- The cardinality marker of a junction table: `MAX_ONE_ENTRY` when the definition gives it,
`MULTIPLE_ENTRIES_OK` when the definition leaves the third member out. -/
inductive AssumedNumEntries where
  | MULTIPLE_ENTRIES_OK
  | MAX_ONE_ENTRY
  deriving DecidableEq, Repr

/-- A junction table: name, ordered columns and cardinality marker. -/
structure JunctionTableDefinition where
  tableName : String
  tableFields : List TableField
  assumedNumEntries : AssumedNumEntries
  deriving DecidableEq, Repr

/-- The table definition PRIMARY_TABLE<Equipment> (ObjectStoreTyped.cpp, line 61). -/
def PRIMARY_TABLE_Equipment : TableDefinition :=
  TableDefinition.mk "equipment" [
    TableField.mk .Int "id" (some "PropertyNames::NamedEntity::key") none none,
    TableField.mk .String "name" (some "PropertyNames::NamedEntity::name") none none,
    TableField.mk .Bool "display" (some "PropertyNames::NamedEntity::display") none none,
    TableField.mk .Bool "deleted" (some "PropertyNames::NamedEntity::deleted") none none,
    TableField.mk .String "folder" (some "PropertyNames::NamedEntity::folder") none none,
    TableField.mk .Double "fermenter_batch_size_l" (some "PropertyNames::Equipment::fermenterBatchSize_l") none none,
    TableField.mk .Double "boiling_point" (some "PropertyNames::Equipment::boilingPoint_c") none none,
    TableField.mk .Double "kettle_boil_size_l" (some "PropertyNames::Equipment::kettleBoilSize_l") none none,
    TableField.mk .Double "boil_time" (some "PropertyNames::Equipment::boilTime_min") none none,
    TableField.mk .Bool "calc_boil_volume" (some "PropertyNames::Equipment::calcBoilVolume") none none,
    TableField.mk .Double "kettle_evaporation_per_hour_l" (some "PropertyNames::Equipment::kettleEvaporationPerHour_l") none none,
    TableField.mk .Double "evap_rate" (some "PropertyNames::Equipment::evapRate_pctHr") none none,
    TableField.mk .Double "mash_tun_grain_absorption_lkg" (some "PropertyNames::Equipment::mashTunGrainAbsorption_LKg") none none,
    TableField.mk .Double "hop_utilization" (some "PropertyNames::Equipment::hopUtilization_pct") none none,
    TableField.mk .Double "lauter_tun_deadspace_loss_l" (some "PropertyNames::Equipment::lauterTunDeadspaceLoss_l") none none,
    TableField.mk .String "kettle_notes" (some "PropertyNames::Equipment::kettleNotes") none none,
    TableField.mk .Double "top_up_kettle" (some "PropertyNames::Equipment::topUpKettle_l") none none,
    TableField.mk .Double "top_up_water" (some "PropertyNames::Equipment::topUpWater_l") none none,
    TableField.mk .Double "kettle_trub_chiller_loss_l" (some "PropertyNames::Equipment::kettleTrubChillerLoss_l") none none,
    TableField.mk .Double "mash_tun_specific_heat_calgc" (some "PropertyNames::Equipment::mashTunSpecificHeat_calGC") none none,
    TableField.mk .Double "mash_tun_volume_l" (some "PropertyNames::Equipment::mashTunVolume_l") none none,
    TableField.mk .Double "mash_tun_weight_kg" (some "PropertyNames::Equipment::mashTunWeight_kg") none none,
    TableField.mk .String "hlt_type" (some "PropertyNames::Equipment::hltType") none none,
    TableField.mk .String "mash_tun_type" (some "PropertyNames::Equipment::mashTunType") none none,
    TableField.mk .String "lauter_tun_type" (some "PropertyNames::Equipment::lauterTunType") none none,
    TableField.mk .String "kettle_type" (some "PropertyNames::Equipment::kettleType") none none,
    TableField.mk .String "fermenter_type" (some "PropertyNames::Equipment::fermenterType") none none,
    TableField.mk .String "agingvessel_type" (some "PropertyNames::Equipment::agingVesselType") none none,
    TableField.mk .String "packaging_vessel_type" (some "PropertyNames::Equipment::packagingVesselType") none none,
    TableField.mk .Double "hlt_volume_l" (some "PropertyNames::Equipment::hltVolume_l") none none,
    TableField.mk .Double "lauter_tun_volume_l" (some "PropertyNames::Equipment::lauterTunVolume_l") none none,
    TableField.mk .Double "aging_vessel_volume_l" (some "PropertyNames::Equipment::agingVesselVolume_l") none none,
    TableField.mk .Double "packaging_vessel_volume_l" (some "PropertyNames::Equipment::packagingVesselVolume_l") none none,
    TableField.mk .Double "hlt_loss_l" (some "PropertyNames::Equipment::hltLoss_l") none none,
    TableField.mk .Double "mash_tun_loss_l" (some "PropertyNames::Equipment::mashTunLoss_l") none none,
    TableField.mk .Double "fermenter_loss_l" (some "PropertyNames::Equipment::fermenterLoss_l") none none,
    TableField.mk .Double "aging_vessel_loss_l" (some "PropertyNames::Equipment::agingVesselLoss_l") none none,
    TableField.mk .Double "packaging_vessel_loss_l" (some "PropertyNames::Equipment::packagingVesselLoss_l") none none,
    TableField.mk .Double "kettle_outflow_per_minute_l" (some "PropertyNames::Equipment::kettleOutflowPerMinute_l") none none,
    TableField.mk .Double "hlt_weight_kg" (some "PropertyNames::Equipment::hltWeight_kg") none none,
    TableField.mk .Double "lauter_tun_weight_kg" (some "PropertyNames::Equipment::lauterTunWeight_kg") none none,
    TableField.mk .Double "kettle_weight_kg" (some "PropertyNames::Equipment::kettleWeight_kg") none none,
    TableField.mk .Double "hlt_specific_heat_calgc" (some "PropertyNames::Equipment::hltSpecificHeat_calGC") none none,
    TableField.mk .Double "lauter_tun_specific_heat_calgc" (some "PropertyNames::Equipment::lauterTunSpecificHeat_calGC") none none,
    TableField.mk .Double "kettle_specific_heat_calgc" (some "PropertyNames::Equipment::kettleSpecificHeat_calGC") none none,
    TableField.mk .String "hlt_notes" (some "PropertyNames::Equipment::hltNotes") none none,
    TableField.mk .String "mash_tun_notes" (some "PropertyNames::Equipment::mashTunNotes") none none,
    TableField.mk .String "lauter_tun_notes" (some "PropertyNames::Equipment::lauterTunNotes") none none,
    TableField.mk .String "fermenter_notes" (some "PropertyNames::Equipment::fermenterNotes") none none,
    TableField.mk .String "aging_vessel_notes" (some "PropertyNames::Equipment::agingVesselNotes") none none,
    TableField.mk .String "packaging_vessel_notes" (some "PropertyNames::Equipment::packagingVesselNotes") none none
  ]

/-- The junction tables JUNCTION_TABLES<Equipment> (ObjectStoreTyped.cpp, line 118). -/
def JUNCTION_TABLES_Equipment : List JunctionTableDefinition :=
  [
    JunctionTableDefinition.mk "equipment_children" [
      TableField.mk .Int "id" none none none,
      TableField.mk .Int "child_id" (some "PropertyNames::NamedEntity::key") none (some .Equipment),
      TableField.mk .Int "parent_id" (some "PropertyNames::NamedEntity::parentKey") none (some .Equipment)
    ] .MAX_ONE_ENTRY
  ]

/-- The table definition PRIMARY_TABLE<InventoryFermentable> (ObjectStoreTyped.cpp, line 134). -/
def PRIMARY_TABLE_InventoryFermentable : TableDefinition :=
  TableDefinition.mk "fermentable_in_inventory" [
    TableField.mk .Int "id" (some "PropertyNames::Inventory::id") none none,
    TableField.mk .Double "amount" (some "PropertyNames::Inventory::amount") none none
  ]

/-- The junction tables JUNCTION_TABLES<InventoryFermentable> (ObjectStoreTyped.cpp, line 141). -/
def JUNCTION_TABLES_InventoryFermentable : List JunctionTableDefinition :=
  []

/-- The table definition PRIMARY_TABLE<Fermentable> (ObjectStoreTyped.cpp, line 146). -/
def PRIMARY_TABLE_Fermentable : TableDefinition :=
  TableDefinition.mk "fermentable" [
    TableField.mk .Int "id" (some "PropertyNames::NamedEntity::key") none none,
    TableField.mk .String "name" (some "PropertyNames::NamedEntity::name") none none,
    TableField.mk .Bool "deleted" (some "PropertyNames::NamedEntity::deleted") none none,
    TableField.mk .Bool "display" (some "PropertyNames::NamedEntity::display") none none,
    TableField.mk .String "folder" (some "PropertyNames::NamedEntity::folder") none none,
    TableField.mk .Int "inventory_id" (some "PropertyNames::NamedEntityWithInventory::inventoryId") none (some .InventoryFermentable),
    TableField.mk .Bool "add_after_boil" (some "PropertyNames::Fermentable::addAfterBoil") none none,
    TableField.mk .Double "amount" (some "PropertyNames::Fermentable::amount") none none,
    TableField.mk .Bool "amount_is_weight" (some "PropertyNames::Fermentable::amountIsWeight") none none,
    TableField.mk .Double "coarse_fine_diff" (some "PropertyNames::Fermentable::coarseFineDiff_pct") none none,
    TableField.mk .Double "color" (some "PropertyNames::Fermentable::color_srm") none none,
    TableField.mk .Double "diastatic_power" (some "PropertyNames::Fermentable::diastaticPower_lintner") none none,
    TableField.mk .Enum "ftype" (some "PropertyNames::Fermentable::type") (some "Fermentable::typeStringMapping") none,
    TableField.mk .Bool "is_mashed" (some "PropertyNames::Fermentable::isMashed") none none,
    TableField.mk .Double "ibu_gal_per_lb" (some "PropertyNames::Fermentable::ibuGalPerLb") none none,
    TableField.mk .Double "max_in_batch" (some "PropertyNames::Fermentable::maxInBatch_pct") none none,
    TableField.mk .Double "moisture" (some "PropertyNames::Fermentable::moisture_pct") none none,
    TableField.mk .String "notes" (some "PropertyNames::Fermentable::notes") none none,
    TableField.mk .String "origin" (some "PropertyNames::Fermentable::origin") none none,
    TableField.mk .String "supplier" (some "PropertyNames::Fermentable::supplier") none none,
    TableField.mk .Double "protein" (some "PropertyNames::Fermentable::protein_pct") none none,
    TableField.mk .Bool "recommend_mash" (some "PropertyNames::Fermentable::recommendMash") none none,
    TableField.mk .Double "yield" (some "PropertyNames::Fermentable::yield_pct") none none,
    TableField.mk .Enum "grain_group" (some "PropertyNames::Fermentable::grainGroup") (some "Fermentable::grainGroupStringMapping") none,
    TableField.mk .String "producer" (some "PropertyNames::Fermentable::producer") none none,
    TableField.mk .String "productid" (some "PropertyNames::Fermentable::productId") none none,
    TableField.mk .Double "fine_grind_yield_pct" (some "PropertyNames::Fermentable::fineGrindYield_pct") none none,
    TableField.mk .Double "coarse_grind_yield_pct" (some "PropertyNames::Fermentable::coarseGrindYield_pct") none none,
    TableField.mk .Double "potential_yield_sg" (some "PropertyNames::Fermentable::potentialYield_sg") none none,
    TableField.mk .Double "alpha_amylase_dext_units" (some "PropertyNames::Fermentable::alphaAmylase_dextUnits") none none,
    TableField.mk .Double "kolbach_index_pct" (some "PropertyNames::Fermentable::kolbachIndex_pct") none none,
    TableField.mk .Double "hardness_prp_glassy_pct" (some "PropertyNames::Fermentable::hardnessPrpGlassy_pct") none none,
    TableField.mk .Double "hardness_prp_half_pct" (some "PropertyNames::Fermentable::hardnessPrpHalf_pct") none none,
    TableField.mk .Double "hardness_prp_mealy_pct" (some "PropertyNames::Fermentable::hardnessPrpMealy_pct") none none,
    TableField.mk .Double "kernel_size_prp_plump_pct" (some "PropertyNames::Fermentable::kernelSizePrpPlump_pct") none none,
    TableField.mk .Double "kernel_size_prp_thin_pct" (some "PropertyNames::Fermentable::kernelSizePrpThin_pct") none none,
    TableField.mk .Double "friability_pct" (some "PropertyNames::Fermentable::friability_pct") none none,
    TableField.mk .Double "di_ph" (some "PropertyNames::Fermentable::di_ph") none none,
    TableField.mk .Double "viscosity_cp" (some "PropertyNames::Fermentable::viscosity_cP") none none,
    TableField.mk .Double "dmsp" (some "PropertyNames::Fermentable::dmsP") none none,
    TableField.mk .Bool "dmsp_is_mass_per_volume" (some "PropertyNames::Fermentable::dmsPIsMassPerVolume") none none,
    TableField.mk .Double "fan" (some "PropertyNames::Fermentable::fan") none none,
    TableField.mk .Bool "fan_is_mass_per_volume" (some "PropertyNames::Fermentable::fanIsMassPerVolume") none none,
    TableField.mk .Double "fermentability_pct" (some "PropertyNames::Fermentable::fermentability_pct") none none,
    TableField.mk .Double "beta_glucan" (some "PropertyNames::Fermentable::betaGlucan") none none,
    TableField.mk .Bool "beta_glucan_is_mass_per_volume" (some "PropertyNames::Fermentable::betaGlucanIsMassPerVolume") none none
  ]

/-- The junction tables JUNCTION_TABLES<Fermentable> (ObjectStoreTyped.cpp, line 198). -/
def JUNCTION_TABLES_Fermentable : List JunctionTableDefinition :=
  [
    JunctionTableDefinition.mk "fermentable_children" [
      TableField.mk .Int "id" none none none,
      TableField.mk .Int "child_id" (some "PropertyNames::NamedEntity::key") none (some .Fermentable),
      TableField.mk .Int "parent_id" (some "PropertyNames::NamedEntity::parentKey") none (some .Fermentable)
    ] .MAX_ONE_ENTRY
  ]

/-- The table definition PRIMARY_TABLE<InventoryHop> (ObjectStoreTyped.cpp, line 213). -/
def PRIMARY_TABLE_InventoryHop : TableDefinition :=
  TableDefinition.mk "hop_in_inventory" [
    TableField.mk .Int "id" (some "PropertyNames::Inventory::id") none none,
    TableField.mk .Double "amount" (some "PropertyNames::Inventory::amount") none none
  ]

/-- The junction tables JUNCTION_TABLES<InventoryHop> (ObjectStoreTyped.cpp, line 220). -/
def JUNCTION_TABLES_InventoryHop : List JunctionTableDefinition :=
  []

/-- The table definition PRIMARY_TABLE<Hop> (ObjectStoreTyped.cpp, line 225). -/
def PRIMARY_TABLE_Hop : TableDefinition :=
  TableDefinition.mk "hop" [
    TableField.mk .Int "id" (some "PropertyNames::NamedEntity::key") none none,
    TableField.mk .String "name" (some "PropertyNames::NamedEntity::name") none none,
    TableField.mk .Bool "display" (some "PropertyNames::NamedEntity::display") none none,
    TableField.mk .Bool "deleted" (some "PropertyNames::NamedEntity::deleted") none none,
    TableField.mk .String "folder" (some "PropertyNames::NamedEntity::folder") none none,
    TableField.mk .Int "inventory_id" (some "PropertyNames::NamedEntityWithInventory::inventoryId") none (some .InventoryHop),
    TableField.mk .Double "alpha" (some "PropertyNames::Hop::alpha_pct") none none,
    TableField.mk .Double "amount" (some "PropertyNames::Hop::amount_kg") none none,
    TableField.mk .Double "beta" (some "PropertyNames::Hop::beta_pct") none none,
    TableField.mk .Double "caryophyllene" (some "PropertyNames::Hop::caryophyllene_pct") none none,
    TableField.mk .Double "cohumulone" (some "PropertyNames::Hop::cohumulone_pct") none none,
    TableField.mk .Enum "form" (some "PropertyNames::Hop::form") (some "Hop::formStringMapping") none,
    TableField.mk .Double "hsi" (some "PropertyNames::Hop::hsi_pct") none none,
    TableField.mk .Double "humulene" (some "PropertyNames::Hop::humulene_pct") none none,
    TableField.mk .Double "myrcene" (some "PropertyNames::Hop::myrcene_pct") none none,
    TableField.mk .String "notes" (some "PropertyNames::Hop::notes") none none,
    TableField.mk .String "origin" (some "PropertyNames::Hop::origin") none none,
    TableField.mk .String "substitutes" (some "PropertyNames::Hop::substitutes") none none,
    TableField.mk .Double "time" (some "PropertyNames::Hop::time_min") none none,
    TableField.mk .Enum "htype" (some "PropertyNames::Hop::type") (some "Hop::typeStringMapping") none,
    TableField.mk .Enum "use" (some "PropertyNames::Hop::use") (some "Hop::useStringMapping") none,
    TableField.mk .String "producer" (some "PropertyNames::Hop::producer") none none,
    TableField.mk .String "product_id" (some "PropertyNames::Hop::product_id") none none,
    TableField.mk .String "year" (some "PropertyNames::Hop::year") none none,
    TableField.mk .Double "total_oil_ml_per_100g" (some "PropertyNames::Hop::total_oil_ml_per_100g") none none,
    TableField.mk .Double "farnesene_pct" (some "PropertyNames::Hop::farnesene_pct") none none,
    TableField.mk .Double "geraniol_pct" (some "PropertyNames::Hop::geraniol_pct") none none,
    TableField.mk .Double "b_pinene_pct" (some "PropertyNames::Hop::b_pinene_pct") none none,
    TableField.mk .Double "linalool_pct" (some "PropertyNames::Hop::linalool_pct") none none,
    TableField.mk .Double "limonene_pct" (some "PropertyNames::Hop::limonene_pct") none none,
    TableField.mk .Double "nerol_pct" (some "PropertyNames::Hop::nerol_pct") none none,
    TableField.mk .Double "pinene_pct" (some "PropertyNames::Hop::pinene_pct") none none,
    TableField.mk .Double "polyphenols_pct" (some "PropertyNames::Hop::polyphenols_pct") none none,
    TableField.mk .Double "xanthohumol_pct" (some "PropertyNames::Hop::xanthohumol_pct") none none
  ]

/-- The junction tables JUNCTION_TABLES<Hop> (ObjectStoreTyped.cpp, line 265). -/
def JUNCTION_TABLES_Hop : List JunctionTableDefinition :=
  [
    JunctionTableDefinition.mk "hop_children" [
      TableField.mk .Int "id" none none none,
      TableField.mk .Int "child_id" (some "PropertyNames::NamedEntity::key") none (some .Hop),
      TableField.mk .Int "parent_id" (some "PropertyNames::NamedEntity::parentKey") none (some .Hop)
    ] .MAX_ONE_ENTRY
  ]

/-- The table definition PRIMARY_TABLE<Instruction> (ObjectStoreTyped.cpp, line 281). -/
def PRIMARY_TABLE_Instruction : TableDefinition :=
  TableDefinition.mk "instruction" [
    TableField.mk .Int "id" (some "PropertyNames::NamedEntity::key") none none,
    TableField.mk .String "name" (some "PropertyNames::NamedEntity::name") none none,
    TableField.mk .Bool "display" (some "PropertyNames::NamedEntity::display") none none,
    TableField.mk .Bool "deleted" (some "PropertyNames::NamedEntity::deleted") none none,
    TableField.mk .String "directions" (some "PropertyNames::Instruction::directions") none none,
    TableField.mk .Bool "hasTimer" (some "PropertyNames::Instruction::hasTimer") none none,
    TableField.mk .String "timervalue" (some "PropertyNames::Instruction::timerValue") none none,
    TableField.mk .Bool "completed" (some "PropertyNames::Instruction::completed") none none,
    TableField.mk .Double "interval" (some "PropertyNames::Instruction::interval") none none
  ]

/-- The junction tables JUNCTION_TABLES<Instruction> (ObjectStoreTyped.cpp, line 296). -/
def JUNCTION_TABLES_Instruction : List JunctionTableDefinition :=
  []

/-- The table definition PRIMARY_TABLE<Mash> (ObjectStoreTyped.cpp, line 301). -/
def PRIMARY_TABLE_Mash : TableDefinition :=
  TableDefinition.mk "mash" [
    TableField.mk .Int "id" (some "PropertyNames::NamedEntity::key") none none,
    TableField.mk .String "name" (some "PropertyNames::NamedEntity::name") none none,
    TableField.mk .Bool "deleted" (some "PropertyNames::NamedEntity::deleted") none none,
    TableField.mk .Bool "display" (some "PropertyNames::NamedEntity::display") none none,
    TableField.mk .String "folder" (some "PropertyNames::NamedEntity::folder") none none,
    TableField.mk .Bool "equip_adjust" (some "PropertyNames::Mash::equipAdjust") none none,
    TableField.mk .Double "grain_temp" (some "PropertyNames::Mash::grainTemp_c") none none,
    TableField.mk .String "notes" (some "PropertyNames::Mash::notes") none none,
    TableField.mk .Double "ph" (some "PropertyNames::Mash::ph") none none,
    TableField.mk .Double "sparge_temp" (some "PropertyNames::Mash::spargeTemp_c") none none,
    TableField.mk .Double "tun_specific_heat" (some "PropertyNames::Mash::mashTunSpecificHeat_calGC") none none,
    TableField.mk .Double "tun_temp" (some "PropertyNames::Mash::tunTemp_c") none none,
    TableField.mk .Double "tun_weight" (some "PropertyNames::Mash::mashTunWeight_kg") none none
  ]

/-- The junction tables JUNCTION_TABLES<Mash> (ObjectStoreTyped.cpp, line 320). -/
def JUNCTION_TABLES_Mash : List JunctionTableDefinition :=
  []

/-- The table definition PRIMARY_TABLE<MashStep> (ObjectStoreTyped.cpp, line 326). -/
def PRIMARY_TABLE_MashStep : TableDefinition :=
  TableDefinition.mk "mashstep" [
    TableField.mk .Int "id" (some "PropertyNames::NamedEntity::key") none none,
    TableField.mk .String "name" (some "PropertyNames::NamedEntity::name") none none,
    TableField.mk .Bool "deleted" (some "PropertyNames::NamedEntity::deleted") none none,
    TableField.mk .Bool "display" (some "PropertyNames::NamedEntity::display") none none,
    TableField.mk .Double "end_temp" (some "PropertyNames::MashStep::endTemp_c") none none,
    TableField.mk .Double "infuse_temp" (some "PropertyNames::MashStep::infuseTemp_c") none none,
    TableField.mk .Int "mash_id" (some "PropertyNames::MashStep::mashId") none (some .Mash),
    TableField.mk .Enum "mstype" (some "PropertyNames::MashStep::type") (some "MashStep::typeStringMapping") none,
    TableField.mk .Double "ramp_time" (some "PropertyNames::MashStep::rampTime_min") none none,
    TableField.mk .Int "step_number" (some "PropertyNames::MashStep::stepNumber") none none,
    TableField.mk .Double "step_temp" (some "PropertyNames::MashStep::stepTemp_c") none none,
    TableField.mk .Double "step_time" (some "PropertyNames::MashStep::stepTime_min") none none,
    TableField.mk .Double "amount_l" (some "PropertyNames::MashStep::amount_l") none none
  ]

/-- The junction tables JUNCTION_TABLES<MashStep> (ObjectStoreTyped.cpp, line 351). -/
def JUNCTION_TABLES_MashStep : List JunctionTableDefinition :=
  []

/-- The table definition PRIMARY_TABLE<InventoryMisc> (ObjectStoreTyped.cpp, line 356). -/
def PRIMARY_TABLE_InventoryMisc : TableDefinition :=
  TableDefinition.mk "misc_in_inventory" [
    TableField.mk .Int "id" (some "PropertyNames::Inventory::id") none none,
    TableField.mk .Double "amount" (some "PropertyNames::Inventory::amount") none none
  ]

/-- The junction tables JUNCTION_TABLES<InventoryMisc> (ObjectStoreTyped.cpp, line 363). -/
def JUNCTION_TABLES_InventoryMisc : List JunctionTableDefinition :=
  []

/-- The table definition PRIMARY_TABLE<Misc> (ObjectStoreTyped.cpp, line 368). -/
def PRIMARY_TABLE_Misc : TableDefinition :=
  TableDefinition.mk "misc" [
    TableField.mk .Int "id" (some "PropertyNames::NamedEntity::key") none none,
    TableField.mk .String "name" (some "PropertyNames::NamedEntity::name") none none,
    TableField.mk .Bool "deleted" (some "PropertyNames::NamedEntity::deleted") none none,
    TableField.mk .Bool "display" (some "PropertyNames::NamedEntity::display") none none,
    TableField.mk .String "folder" (some "PropertyNames::NamedEntity::folder") none none,
    TableField.mk .Int "inventory_id" (some "PropertyNames::NamedEntityWithInventory::inventoryId") none (some .InventoryMisc),
    TableField.mk .Enum "mtype" (some "PropertyNames::Misc::type") (some "Misc::typeStringMapping") none,
    TableField.mk .Enum "use" (some "PropertyNames::Misc::use") (some "Misc::useStringMapping") none,
    TableField.mk .Double "time" (some "PropertyNames::Misc::time_min") none none,
    TableField.mk .Double "amount" (some "PropertyNames::Misc::amount") none none,
    TableField.mk .Bool "amount_is_weight" (some "PropertyNames::Misc::amountIsWeight") none none,
    TableField.mk .String "use_for" (some "PropertyNames::Misc::useFor") none none,
    TableField.mk .String "notes" (some "PropertyNames::Misc::notes") none none,
    TableField.mk .String "producer" (some "PropertyNames::Misc::producer") none none,
    TableField.mk .String "product_id" (some "PropertyNames::Misc::productId") none none
  ]

/-- The junction tables JUNCTION_TABLES<Misc> (ObjectStoreTyped.cpp, line 389). -/
def JUNCTION_TABLES_Misc : List JunctionTableDefinition :=
  [
    JunctionTableDefinition.mk "misc_children" [
      TableField.mk .Int "id" none none none,
      TableField.mk .Int "child_id" (some "PropertyNames::NamedEntity::key") none (some .Misc),
      TableField.mk .Int "parent_id" (some "PropertyNames::NamedEntity::parentKey") none (some .Misc)
    ] .MAX_ONE_ENTRY
  ]

/-- The table definition PRIMARY_TABLE<Salt> (ObjectStoreTyped.cpp, line 404). -/
def PRIMARY_TABLE_Salt : TableDefinition :=
  TableDefinition.mk "salt" [
    TableField.mk .Int "id" (some "PropertyNames::NamedEntity::key") none none,
    TableField.mk .String "name" (some "PropertyNames::NamedEntity::name") none none,
    TableField.mk .Bool "deleted" (some "PropertyNames::NamedEntity::deleted") none none,
    TableField.mk .Bool "display" (some "PropertyNames::NamedEntity::display") none none,
    TableField.mk .String "folder" (some "PropertyNames::NamedEntity::folder") none none,
    TableField.mk .Int "addTo" (some "PropertyNames::Salt::whenToAdd") none none,
    TableField.mk .Double "amount" (some "PropertyNames::Salt::amount") none none,
    TableField.mk .Bool "amount_is_weight" (some "PropertyNames::Salt::amountIsWeight") none none,
    TableField.mk .Bool "is_acid" (some "PropertyNames::Salt::isAcid") none none,
    TableField.mk .Double "percent_acid" (some "PropertyNames::Salt::percentAcid") none none,
    TableField.mk .Int "stype" (some "PropertyNames::Salt::type") none none
  ]

/-- The junction tables JUNCTION_TABLES<Salt> (ObjectStoreTyped.cpp, line 421). -/
def JUNCTION_TABLES_Salt : List JunctionTableDefinition :=
  []

/-- The table definition PRIMARY_TABLE<Style> (ObjectStoreTyped.cpp, line 426). -/
def PRIMARY_TABLE_Style : TableDefinition :=
  TableDefinition.mk "style" [
    TableField.mk .Int "id" (some "PropertyNames::NamedEntity::key") none none,
    TableField.mk .String "name" (some "PropertyNames::NamedEntity::name") none none,
    TableField.mk .Bool "display" (some "PropertyNames::NamedEntity::display") none none,
    TableField.mk .Bool "deleted" (some "PropertyNames::NamedEntity::deleted") none none,
    TableField.mk .String "folder" (some "PropertyNames::NamedEntity::folder") none none,
    TableField.mk .Double "abv_max" (some "PropertyNames::Style::abvMax_pct") none none,
    TableField.mk .Double "abv_min" (some "PropertyNames::Style::abvMin_pct") none none,
    TableField.mk .Double "carb_max" (some "PropertyNames::Style::carbMax_vol") none none,
    TableField.mk .Double "carb_min" (some "PropertyNames::Style::carbMin_vol") none none,
    TableField.mk .String "category" (some "PropertyNames::Style::category") none none,
    TableField.mk .String "category_number" (some "PropertyNames::Style::categoryNumber") none none,
    TableField.mk .Double "color_max" (some "PropertyNames::Style::colorMax_srm") none none,
    TableField.mk .Double "color_min" (some "PropertyNames::Style::colorMin_srm") none none,
    TableField.mk .String "examples" (some "PropertyNames::Style::examples") none none,
    TableField.mk .Double "fg_max" (some "PropertyNames::Style::fgMax") none none,
    TableField.mk .Double "fg_min" (some "PropertyNames::Style::fgMin") none none,
    TableField.mk .Double "ibu_max" (some "PropertyNames::Style::ibuMax") none none,
    TableField.mk .Double "ibu_min" (some "PropertyNames::Style::ibuMin") none none,
    TableField.mk .String "ingredients" (some "PropertyNames::Style::ingredients") none none,
    TableField.mk .String "notes" (some "PropertyNames::Style::notes") none none,
    TableField.mk .Double "og_max" (some "PropertyNames::Style::ogMax") none none,
    TableField.mk .Double "og_min" (some "PropertyNames::Style::ogMin") none none,
    TableField.mk .String "style_guide" (some "PropertyNames::Style::styleGuide") none none,
    TableField.mk .String "style_letter" (some "PropertyNames::Style::styleLetter") none none,
    TableField.mk .Enum "stype" (some "PropertyNames::Style::type") (some "Style::typeStringMapping") none,
    TableField.mk .String "aroma" (some "PropertyNames::Style::aroma") none none,
    TableField.mk .String "appearance" (some "PropertyNames::Style::appearance") none none,
    TableField.mk .String "flavor" (some "PropertyNames::Style::flavor") none none,
    TableField.mk .String "mouthfeel" (some "PropertyNames::Style::mouthfeel") none none,
    TableField.mk .String "overall_impression" (some "PropertyNames::Style::overallImpression") none none
  ]

/-- The junction tables JUNCTION_TABLES<Style> (ObjectStoreTyped.cpp, line 463). -/
def JUNCTION_TABLES_Style : List JunctionTableDefinition :=
  [
    JunctionTableDefinition.mk "style_children" [
      TableField.mk .Int "id" none none none,
      TableField.mk .Int "child_id" (some "PropertyNames::NamedEntity::key") none (some .Style),
      TableField.mk .Int "parent_id" (some "PropertyNames::NamedEntity::parentKey") none (some .Style)
    ] .MAX_ONE_ENTRY
  ]

/-- The table definition PRIMARY_TABLE<Water> (ObjectStoreTyped.cpp, line 478). -/
def PRIMARY_TABLE_Water : TableDefinition :=
  TableDefinition.mk "water" [
    TableField.mk .Int "id" (some "PropertyNames::NamedEntity::key") none none,
    TableField.mk .String "name" (some "PropertyNames::NamedEntity::name") none none,
    TableField.mk .Bool "display" (some "PropertyNames::NamedEntity::display") none none,
    TableField.mk .Bool "deleted" (some "PropertyNames::NamedEntity::deleted") none none,
    TableField.mk .String "folder" (some "PropertyNames::NamedEntity::folder") none none,
    TableField.mk .String "notes" (some "PropertyNames::Water::notes") none none,
    TableField.mk .Double "amount" (some "PropertyNames::Water::amount") none none,
    TableField.mk .Double "calcium" (some "PropertyNames::Water::calcium_ppm") none none,
    TableField.mk .Double "bicarbonate" (some "PropertyNames::Water::bicarbonate_ppm") none none,
    TableField.mk .Double "sulfate" (some "PropertyNames::Water::sulfate_ppm") none none,
    TableField.mk .Double "sodium" (some "PropertyNames::Water::sodium_ppm") none none,
    TableField.mk .Double "chloride" (some "PropertyNames::Water::chloride_ppm") none none,
    TableField.mk .Double "magnesium" (some "PropertyNames::Water::magnesium_ppm") none none,
    TableField.mk .Double "ph" (some "PropertyNames::Water::ph") none none,
    TableField.mk .Double "alkalinity" (some "PropertyNames::Water::alkalinity_ppm") none none,
    TableField.mk .Int "wtype" (some "PropertyNames::Water::type") none none,
    TableField.mk .Double "mash_ro" (some "PropertyNames::Water::mashRo_pct") none none,
    TableField.mk .Double "sparge_ro" (some "PropertyNames::Water::spargeRo_pct") none none,
    TableField.mk .Bool "as_hco3" (some "PropertyNames::Water::alkalinityAsHCO3") none none
  ]

/-- The junction tables JUNCTION_TABLES<Water> (ObjectStoreTyped.cpp, line 502). -/
def JUNCTION_TABLES_Water : List JunctionTableDefinition :=
  [
    JunctionTableDefinition.mk "water_children" [
      TableField.mk .Int "id" none none none,
      TableField.mk .Int "child_id" (some "PropertyNames::NamedEntity::key") none (some .Water),
      TableField.mk .Int "parent_id" (some "PropertyNames::NamedEntity::parentKey") none (some .Water)
    ] .MAX_ONE_ENTRY
  ]

/-- The table definition PRIMARY_TABLE<InventoryYeast> (ObjectStoreTyped.cpp, line 517). -/
def PRIMARY_TABLE_InventoryYeast : TableDefinition :=
  TableDefinition.mk "yeast_in_inventory" [
    TableField.mk .Int "id" (some "PropertyNames::Inventory::id") none none,
    TableField.mk .Double "quanta" (some "PropertyNames::Inventory::amount") none none
  ]

/-- The junction tables JUNCTION_TABLES<InventoryYeast> (ObjectStoreTyped.cpp, line 525). -/
def JUNCTION_TABLES_InventoryYeast : List JunctionTableDefinition :=
  []

/-- The table definition PRIMARY_TABLE<Yeast> (ObjectStoreTyped.cpp, line 530). -/
def PRIMARY_TABLE_Yeast : TableDefinition :=
  TableDefinition.mk "yeast" [
    TableField.mk .Int "id" (some "PropertyNames::NamedEntity::key") none none,
    TableField.mk .String "name" (some "PropertyNames::NamedEntity::name") none none,
    TableField.mk .Bool "display" (some "PropertyNames::NamedEntity::display") none none,
    TableField.mk .Bool "deleted" (some "PropertyNames::NamedEntity::deleted") none none,
    TableField.mk .String "folder" (some "PropertyNames::NamedEntity::folder") none none,
    TableField.mk .Int "inventory_id" (some "PropertyNames::NamedEntityWithInventory::inventoryId") none (some .InventoryYeast),
    TableField.mk .Bool "add_to_secondary" (some "PropertyNames::Yeast::addToSecondary") none none,
    TableField.mk .Bool "amount_is_weight" (some "PropertyNames::Yeast::amountIsWeight") none none,
    TableField.mk .Double "amount" (some "PropertyNames::Yeast::amount") none none,
    TableField.mk .Double "attenuation" (some "PropertyNames::Yeast::attenuation_pct") none none,
    TableField.mk .Double "max_temperature" (some "PropertyNames::Yeast::maxTemperature_c") none none,
    TableField.mk .Double "min_temperature" (some "PropertyNames::Yeast::minTemperature_c") none none,
    TableField.mk .Enum "flocculation" (some "PropertyNames::Yeast::flocculation") (some "Yeast::flocculationStringMapping") none,
    TableField.mk .Enum "form" (some "PropertyNames::Yeast::form") (some "Yeast::formStringMapping") none,
    TableField.mk .Enum "ytype" (some "PropertyNames::Yeast::type") (some "Yeast::typeStringMapping") none,
    TableField.mk .Int "max_reuse" (some "PropertyNames::Yeast::maxReuse") none none,
    TableField.mk .Int "times_cultured" (some "PropertyNames::Yeast::timesCultured") none none,
    TableField.mk .String "best_for" (some "PropertyNames::Yeast::bestFor") none none,
    TableField.mk .String "laboratory" (some "PropertyNames::Yeast::laboratory") none none,
    TableField.mk .String "notes" (some "PropertyNames::Yeast::notes") none none,
    TableField.mk .String "product_id" (some "PropertyNames::Yeast::productID") none none,
    TableField.mk .Double "alcohol_tolerance_pct" (some "PropertyNames::Yeast::alcoholTolerance_pct") none none,
    TableField.mk .Double "attenuation_min_pct" (some "PropertyNames::Yeast::attenuationMin_pct") none none,
    TableField.mk .Double "attenuation_max_pct" (some "PropertyNames::Yeast::attenuationMax_pct") none none,
    TableField.mk .Bool "phenolic_off_flavor_positive" (some "PropertyNames::Yeast::phenolicOffFlavorPositive") none none,
    TableField.mk .Bool "glucoamylase_positive" (some "PropertyNames::Yeast::glucoamylasePositive") none none,
    TableField.mk .Bool "killer_producing_k1_toxin" (some "PropertyNames::Yeast::killerProducingK1Toxin") none none,
    TableField.mk .Bool "killer_producing_k2_toxin" (some "PropertyNames::Yeast::killerProducingK2Toxin") none none,
    TableField.mk .Bool "killer_producing_k28_toxin" (some "PropertyNames::Yeast::killerProducingK28Toxin") none none,
    TableField.mk .Bool "killer_producing_klus_toxin" (some "PropertyNames::Yeast::killerProducingKlusToxin") none none,
    TableField.mk .Bool "killer_neutral" (some "PropertyNames::Yeast::killerNeutral") none none
  ]

/-- The junction tables JUNCTION_TABLES<Yeast> (ObjectStoreTyped.cpp, line 567). -/
def JUNCTION_TABLES_Yeast : List JunctionTableDefinition :=
  [
    JunctionTableDefinition.mk "yeast_children" [
      TableField.mk .Int "id" none none none,
      TableField.mk .Int "child_id" (some "PropertyNames::NamedEntity::key") none (some .Yeast),
      TableField.mk .Int "parent_id" (some "PropertyNames::NamedEntity::parentKey") none (some .Yeast)
    ] .MAX_ONE_ENTRY
  ]

/-- The table definition PRIMARY_TABLE<Recipe> (ObjectStoreTyped.cpp, line 587). -/
def PRIMARY_TABLE_Recipe : TableDefinition :=
  TableDefinition.mk "recipe" [
    TableField.mk .Int "id" (some "PropertyNames::NamedEntity::key") none none,
    TableField.mk .String "name" (some "PropertyNames::NamedEntity::name") none none,
    TableField.mk .Bool "deleted" (some "PropertyNames::NamedEntity::deleted") none none,
    TableField.mk .Bool "display" (some "PropertyNames::NamedEntity::display") none none,
    TableField.mk .String "folder" (some "PropertyNames::NamedEntity::folder") none none,
    TableField.mk .Double "age" (some "PropertyNames::Recipe::age_days") none none,
    TableField.mk .Double "age_temp" (some "PropertyNames::Recipe::ageTemp_c") none none,
    TableField.mk .String "assistant_brewer" (some "PropertyNames::Recipe::asstBrewer") none none,
    TableField.mk .Double "batch_size" (some "PropertyNames::Recipe::batchSize_l") none none,
    TableField.mk .Double "boil_size" (some "PropertyNames::Recipe::boilSize_l") none none,
    TableField.mk .Double "boil_time" (some "PropertyNames::Recipe::boilTime_min") none none,
    TableField.mk .String "brewer" (some "PropertyNames::Recipe::brewer") none none,
    TableField.mk .Double "carb_volume" (some "PropertyNames::Recipe::carbonation_vols") none none,
    TableField.mk .Double "carbonationtemp_c" (some "PropertyNames::Recipe::carbonationTemp_c") none none,
    TableField.mk .Date "date" (some "PropertyNames::Recipe::date") none none,
    TableField.mk .Double "efficiency" (some "PropertyNames::Recipe::efficiency_pct") none none,
    TableField.mk .Int "equipment_id" (some "PropertyNames::Recipe::equipmentId") none (some .Equipment),
    TableField.mk .UInt "fermentation_stages" (some "PropertyNames::Recipe::fermentationStages") none none,
    TableField.mk .Double "fg" (some "PropertyNames::Recipe::fg") none none,
    TableField.mk .Bool "forced_carb" (some "PropertyNames::Recipe::forcedCarbonation") none none,
    TableField.mk .Double "keg_priming_factor" (some "PropertyNames::Recipe::kegPrimingFactor") none none,
    TableField.mk .Int "mash_id" (some "PropertyNames::Recipe::mashId") none (some .Mash),
    TableField.mk .String "notes" (some "PropertyNames::Recipe::notes") none none,
    TableField.mk .Double "og" (some "PropertyNames::Recipe::og") none none,
    TableField.mk .Double "primary_age" (some "PropertyNames::Recipe::primaryAge_days") none none,
    TableField.mk .Double "primary_temp" (some "PropertyNames::Recipe::primaryTemp_c") none none,
    TableField.mk .Double "priming_sugar_equiv" (some "PropertyNames::Recipe::primingSugarEquiv") none none,
    TableField.mk .String "priming_sugar_name" (some "PropertyNames::Recipe::primingSugarName") none none,
    TableField.mk .Double "secondary_age" (some "PropertyNames::Recipe::secondaryAge_days") none none,
    TableField.mk .Double "secondary_temp" (some "PropertyNames::Recipe::secondaryTemp_c") none none,
    TableField.mk .Int "style_id" (some "PropertyNames::Recipe::styleId") none (some .Style),
    TableField.mk .String "taste_notes" (some "PropertyNames::Recipe::tasteNotes") none none,
    TableField.mk .Double "taste_rating" (some "PropertyNames::Recipe::tasteRating") none none,
    TableField.mk .Double "tertiary_age" (some "PropertyNames::Recipe::tertiaryAge_days") none none,
    TableField.mk .Double "tertiary_temp" (some "PropertyNames::Recipe::tertiaryTemp_c") none none,
    TableField.mk .Enum "type" (some "PropertyNames::Recipe::type") (some "RECIPE_STEP_TYPE_ENUM") none,
    TableField.mk .Int "ancestor_id" (some "PropertyNames::Recipe::ancestorId") none (some .Recipe),
    TableField.mk .Bool "locked" (some "PropertyNames::Recipe::locked") none none
  ]

/-- The junction tables JUNCTION_TABLES<Recipe> (ObjectStoreTyped.cpp, line 630). -/
def JUNCTION_TABLES_Recipe : List JunctionTableDefinition :=
  [
    JunctionTableDefinition.mk "fermentable_in_recipe" [
      TableField.mk .Int "id" none none none,
      TableField.mk .Int "recipe_id" (some "PropertyNames::NamedEntity::key") none (some .Recipe),
      TableField.mk .Int "fermentable_id" (some "PropertyNames::Recipe::fermentableIds") none (some .Fermentable)
    ] .MULTIPLE_ENTRIES_OK,
    JunctionTableDefinition.mk "hop_in_recipe" [
      TableField.mk .Int "id" none none none,
      TableField.mk .Int "recipe_id" (some "PropertyNames::NamedEntity::key") none (some .Recipe),
      TableField.mk .Int "hop_id" (some "PropertyNames::Recipe::hopIds") none (some .Hop)
    ] .MULTIPLE_ENTRIES_OK,
    JunctionTableDefinition.mk "instruction_in_recipe" [
      TableField.mk .Int "id" none none none,
      TableField.mk .Int "recipe_id" (some "PropertyNames::NamedEntity::key") none (some .Recipe),
      TableField.mk .Int "instruction_id" (some "PropertyNames::Recipe::instructionIds") none (some .Instruction),
      TableField.mk .Int "instruction_number" none none none
    ] .MULTIPLE_ENTRIES_OK,
    JunctionTableDefinition.mk "misc_in_recipe" [
      TableField.mk .Int "id" none none none,
      TableField.mk .Int "recipe_id" (some "PropertyNames::NamedEntity::key") none (some .Recipe),
      TableField.mk .Int "misc_id" (some "PropertyNames::Recipe::miscIds") none (some .Misc)
    ] .MULTIPLE_ENTRIES_OK,
    JunctionTableDefinition.mk "salt_in_recipe" [
      TableField.mk .Int "id" none none none,
      TableField.mk .Int "recipe_id" (some "PropertyNames::NamedEntity::key") none (some .Recipe),
      TableField.mk .Int "salt_id" (some "PropertyNames::Recipe::saltIds") none (some .Salt)
    ] .MULTIPLE_ENTRIES_OK,
    JunctionTableDefinition.mk "water_in_recipe" [
      TableField.mk .Int "id" none none none,
      TableField.mk .Int "recipe_id" (some "PropertyNames::NamedEntity::key") none (some .Recipe),
      TableField.mk .Int "water_id" (some "PropertyNames::Recipe::waterIds") none (some .Water)
    ] .MULTIPLE_ENTRIES_OK,
    JunctionTableDefinition.mk "yeast_in_recipe" [
      TableField.mk .Int "id" none none none,
      TableField.mk .Int "recipe_id" (some "PropertyNames::NamedEntity::key") none (some .Recipe),
      TableField.mk .Int "yeast_id" (some "PropertyNames::Recipe::yeastIds") none (some .Yeast)
    ] .MULTIPLE_ENTRIES_OK
  ]

/-- The table definition PRIMARY_TABLE<BrewNote> (ObjectStoreTyped.cpp, line 696). -/
def PRIMARY_TABLE_BrewNote : TableDefinition :=
  TableDefinition.mk "brewnote" [
    TableField.mk .Int "id" (some "PropertyNames::NamedEntity::key") none none,
    TableField.mk .Bool "display" (some "PropertyNames::NamedEntity::display") none none,
    TableField.mk .Bool "deleted" (some "PropertyNames::NamedEntity::deleted") none none,
    TableField.mk .String "folder" (some "PropertyNames::NamedEntity::folder") none none,
    TableField.mk .Double "abv" (some "PropertyNames::BrewNote::abv") none none,
    TableField.mk .Double "attenuation" (some "PropertyNames::BrewNote::attenuation") none none,
    TableField.mk .Double "boil_off" (some "PropertyNames::BrewNote::boilOff_l") none none,
    TableField.mk .Date "brewdate" (some "PropertyNames::BrewNote::brewDate") none none,
    TableField.mk .Double "brewhouse_eff" (some "PropertyNames::BrewNote::brewhouseEff_pct") none none,
    TableField.mk .Double "eff_into_bk" (some "PropertyNames::BrewNote::effIntoBK_pct") none none,
    TableField.mk .Date "fermentdate" (some "PropertyNames::BrewNote::fermentDate") none none,
    TableField.mk .Double "fg" (some "PropertyNames::BrewNote::fg") none none,
    TableField.mk .Double "final_volume" (some "PropertyNames::BrewNote::finalVolume_l") none none,
    TableField.mk .Double "mash_final_temp" (some "PropertyNames::BrewNote::mashFinTemp_c") none none,
    TableField.mk .String "notes" (some "PropertyNames::BrewNote::notes") none none,
    TableField.mk .Double "og" (some "PropertyNames::BrewNote::og") none none,
    TableField.mk .Double "pitch_temp" (some "PropertyNames::BrewNote::pitchTemp_c") none none,
    TableField.mk .Double "post_boil_volume" (some "PropertyNames::BrewNote::postBoilVolume_l") none none,
    TableField.mk .Double "projected_abv" (some "PropertyNames::BrewNote::projABV_pct") none none,
    TableField.mk .Double "projected_atten" (some "PropertyNames::BrewNote::projAtten") none none,
    TableField.mk .Double "projected_boil_grav" (some "PropertyNames::BrewNote::projBoilGrav") none none,
    TableField.mk .Double "projected_eff" (some "PropertyNames::BrewNote::projEff_pct") none none,
    TableField.mk .Double "projected_ferm_points" (some "PropertyNames::BrewNote::projFermPoints") none none,
    TableField.mk .Double "projected_fg" (some "PropertyNames::BrewNote::projFg") none none,
    TableField.mk .Double "projected_mash_fin_temp" (some "PropertyNames::BrewNote::projMashFinTemp_c") none none,
    TableField.mk .Double "projected_og" (some "PropertyNames::BrewNote::projOg") none none,
    TableField.mk .Double "projected_points" (some "PropertyNames::BrewNote::projPoints") none none,
    TableField.mk .Double "projected_strike_temp" (some "PropertyNames::BrewNote::projStrikeTemp_c") none none,
    TableField.mk .Double "projected_vol_into_bk" (some "PropertyNames::BrewNote::projVolIntoBK_l") none none,
    TableField.mk .Double "projected_vol_into_ferm" (some "PropertyNames::BrewNote::projVolIntoFerm_l") none none,
    TableField.mk .Double "sg" (some "PropertyNames::BrewNote::sg") none none,
    TableField.mk .Double "strike_temp" (some "PropertyNames::BrewNote::strikeTemp_c") none none,
    TableField.mk .Double "volume_into_bk" (some "PropertyNames::BrewNote::volumeIntoBK_l") none none,
    TableField.mk .Double "volume_into_fermenter" (some "PropertyNames::BrewNote::volumeIntoFerm_l") none none,
    TableField.mk .Int "recipe_id" (some "PropertyNames::BrewNote::recipeId") none (some .Recipe)
  ]

/-- The junction tables JUNCTION_TABLES<BrewNote> (ObjectStoreTyped.cpp, line 739). -/
def JUNCTION_TABLES_BrewNote : List JunctionTableDefinition :=
  []

/-- The variable template `PRIMARY_TABLE<NE>`, by entity type. -/
def PRIMARY_TABLE : EntityType → TableDefinition
  | .BrewNote => PRIMARY_TABLE_BrewNote
  | .Equipment => PRIMARY_TABLE_Equipment
  | .Fermentable => PRIMARY_TABLE_Fermentable
  | .Hop => PRIMARY_TABLE_Hop
  | .Instruction => PRIMARY_TABLE_Instruction
  | .InventoryFermentable => PRIMARY_TABLE_InventoryFermentable
  | .InventoryHop => PRIMARY_TABLE_InventoryHop
  | .InventoryMisc => PRIMARY_TABLE_InventoryMisc
  | .InventoryYeast => PRIMARY_TABLE_InventoryYeast
  | .Mash => PRIMARY_TABLE_Mash
  | .MashStep => PRIMARY_TABLE_MashStep
  | .Misc => PRIMARY_TABLE_Misc
  | .Recipe => PRIMARY_TABLE_Recipe
  | .Salt => PRIMARY_TABLE_Salt
  | .Style => PRIMARY_TABLE_Style
  | .Water => PRIMARY_TABLE_Water
  | .Yeast => PRIMARY_TABLE_Yeast

/-- The variable template `JUNCTION_TABLES<NE>`, by entity type. -/
def JUNCTION_TABLES : EntityType → List JunctionTableDefinition
  | .BrewNote => JUNCTION_TABLES_BrewNote
  | .Equipment => JUNCTION_TABLES_Equipment
  | .Fermentable => JUNCTION_TABLES_Fermentable
  | .Hop => JUNCTION_TABLES_Hop
  | .Instruction => JUNCTION_TABLES_Instruction
  | .InventoryFermentable => JUNCTION_TABLES_InventoryFermentable
  | .InventoryHop => JUNCTION_TABLES_InventoryHop
  | .InventoryMisc => JUNCTION_TABLES_InventoryMisc
  | .InventoryYeast => JUNCTION_TABLES_InventoryYeast
  | .Mash => JUNCTION_TABLES_Mash
  | .MashStep => JUNCTION_TABLES_MashStep
  | .Misc => JUNCTION_TABLES_Misc
  | .Recipe => JUNCTION_TABLES_Recipe
  | .Salt => JUNCTION_TABLES_Salt
  | .Style => JUNCTION_TABLES_Style
  | .Water => JUNCTION_TABLES_Water
  | .Yeast => JUNCTION_TABLES_Yeast

/-- The entity types with a `PRIMARY_TABLE<NE>` specialisation, in the order in which the
specialisations appear in the file (lines 61 to 696). -/
def primaryTableSpecialisations : List EntityType :=
  [.Equipment, .InventoryFermentable, .Fermentable, .InventoryHop, .Hop, .Instruction, .Mash,
   .MashStep, .InventoryMisc, .Misc, .Salt, .Style, .Water, .InventoryYeast, .Yeast, .Recipe,
   .BrewNote]

/-- The entity types with a `JUNCTION_TABLES<NE>` specialisation, in file order (lines 118 to
739). -/
def junctionTablesSpecialisations : List EntityType :=
  [.Equipment, .InventoryFermentable, .Fermentable, .InventoryHop, .Hop, .Instruction, .Mash,
   .MashStep, .InventoryMisc, .Misc, .Salt, .Style, .Water, .InventoryYeast, .Yeast, .Recipe,
   .BrewNote]

/-- The explicit instantiations of `ObjectStoreTyped<NE>::getInstance()` (lines 763 to 779). -/
def getInstanceInstantiations : List EntityType :=
  [.BrewNote, .Equipment, .Fermentable, .Hop, .Instruction, .InventoryFermentable, .InventoryHop,
   .InventoryMisc, .InventoryYeast, .Mash, .MashStep, .Misc, .Recipe, .Salt, .Style, .Water,
   .Yeast]

/-- The registry `AllObjectStores` (lines 781 to 801): the singleton of each listed entity
type, in the order of the initialiser list. -/
def AllObjectStores : List EntityType :=
  [.BrewNote, .Equipment, .Fermentable, .Hop, .Instruction, .InventoryFermentable, .InventoryHop,
   .InventoryMisc, .InventoryYeast, .Mash, .MashStep, .Misc, .Recipe, .Salt, .Style, .Water,
   .Yeast]

/-- The entity types a column list points at through foreign keys. -/
def foreignKeyTargets (fields : List TableField) : List EntityType :=
  fields.filterMap TableField.foreignKeyTo

/-- Foreign-key targets of the primary table of `T`. -/
def primaryForeignKeys (T : EntityType) : List EntityType :=
  foreignKeyTargets (PRIMARY_TABLE T).tableFields

/-- Foreign-key targets of all junction tables of `T`. -/
def junctionForeignKeys (T : EntityType) : List EntityType :=
  (JUNCTION_TABLES T).flatMap fun j => foreignKeyTargets j.tableFields

/-- Foreign-key targets of the primary and junction tables of the store of `T`. -/
def storeForeignKeys (T : EntityType) : List EntityType :=
  primaryForeignKeys T ++ junctionForeignKeys T

/-! ## Walking the registry: `CreateAllDatabaseTables` and `WriteAllObjectStoresToNewDb`

The member functions `createTables`, `addTableConstraints` and `writeAllToNewDb` live in
`ObjectStore.cpp`; here each is a parameter giving the `bool` the call on a given store
returns.  Every store is visited at most once per loop, so a function of the store covers
every possible run. -/

/-- A call made on a store of the registry by `CreateAllDatabaseTables`. -/
inductive StoreCall where
  | createTables (store : EntityType)
  | addTableConstraints (store : EntityType)
  deriving DecidableEq, Repr

/-- The shape shared by the range-for loops over `AllObjectStores`:
`for (auto ii : stores) { if (!ii->call(...)) { return false; } }`.
The result is `false` when the loop left the function early, `true` when it fell through,
together with the stores on which the member function was called, in order. -/
def callUntilFailure (call : EntityType → Bool) : List EntityType → Bool × List EntityType
  | [] => (true, [])
  | ii :: rest =>
    if !call ii then
      (false, [ii])
    else
      ((callUntilFailure call rest).1, ii :: (callUntilFailure call rest).2)

/-- The value returned by a run of `CreateAllDatabaseTables` and the calls it made. -/
structure CreateAllRun where
  result : Bool
  calls : List StoreCall
  deriving DecidableEq, Repr

/-- `CreateAllDatabaseTables` (lines 803 to 816): a loop calling `createTables` on every
store, then a loop calling `addTableConstraints` on every store, each returning `false` from
the function at the first call that fails. -/
def CreateAllDatabaseTables (createTables addTableConstraints : EntityType → Bool) :
    CreateAllRun :=
  let first := callUntilFailure createTables AllObjectStores
  if !first.1 then
    ⟨false, first.2.map StoreCall.createTables⟩
  else
    let second := callUntilFailure addTableConstraints AllObjectStores
    if !second.1 then
      ⟨false, first.2.map StoreCall.createTables ++ second.2.map StoreCall.addTableConstraints⟩
    else
      ⟨true, first.2.map StoreCall.createTables ++ second.2.map StoreCall.addTableConstraints⟩

/-- What happens on the connection to the new database during
`WriteAllObjectStoresToNewDb`. -/
inductive DbEvent where
  | beginTransaction (disableForeignKeys : Bool)
  | writeAllToNewDb (store : EntityType)
  | commit
  | rollback
  deriving DecidableEq, Repr

/-- The value returned by a run of `WriteAllObjectStoresToNewDb` and what it did on the
connection. -/
structure WriteAllRun where
  result : Bool
  events : List DbEvent
  deriving DecidableEq, Repr

/-- Modelled from the spec: the destructor of `DbTransaction` (`database/DbTransaction.h` is
not among the sources).  If `commit()` has not been called by the time the scope holding the
transaction ends, the transaction rolls back; after a commit the destructor does nothing to
the data. -/
def DbTransaction.onScopeExit (committed : Bool) : List DbEvent :=
  if committed then [] else [DbEvent.rollback]

/-- `WriteAllObjectStoresToNewDb` (lines 818 to 835): construct the scoped transaction with
`DISABLE_FOREIGN_KEYS`, call `writeAllToNewDb` on each store, returning `false` at the first
failure, else commit and return `true`.  The scope exit of `dbTransaction` follows either
return. -/
def WriteAllObjectStoresToNewDb (writeAllToNewDb : EntityType → Bool) : WriteAllRun :=
  let loop := callUntilFailure writeAllToNewDb AllObjectStores
  if !loop.1 then
    ⟨false, DbEvent.beginTransaction true :: loop.2.map DbEvent.writeAllToNewDb
              ++ DbTransaction.onScopeExit false⟩
  else
    ⟨true, DbEvent.beginTransaction true :: loop.2.map DbEvent.writeAllToNewDb
              ++ [DbEvent.commit] ++ DbTransaction.onScopeExit true⟩

/-- The contents of the new database as far as the copy is concerned: the stores whose rows
are durably in it, and the stores written inside a transaction that is still open. -/
structure TargetDb where
  durable : List EntityType
  pending : List EntityType
  deriving DecidableEq, Repr

/-- Modelled from the spec: the effect of one event on the target database (section 4.2,
Transaction).  Writes inside the transaction are pending (a call that fails may have written
some rows before failing, so its store counts as written); `commit` makes the pending writes
durable; `rollback` discards them. -/
def TargetDb.apply (db : TargetDb) : DbEvent → TargetDb
  | .beginTransaction _ => ⟨db.durable, []⟩
  | .writeAllToNewDb s => ⟨db.durable, db.pending ++ [s]⟩
  | .commit => ⟨db.durable ++ db.pending, []⟩
  | .rollback => ⟨db.durable, []⟩

/-- The target database after a sequence of events. -/
def TargetDb.run (db : TargetDb) (events : List DbEvent) : TargetDb :=
  events.foldl TargetDb.apply db

/-- The stores up to and including the first one on which `call` fails (all of them when
none fails). -/
def throughFirstFailure (call : EntityType → Bool) (stores : List EntityType) :
    List EntityType :=
  stores.takeWhile call ++ ((stores.dropWhile call).head?).toList

/-- The store an event writes, if the event is a `writeAllToNewDb` call. -/
def DbEvent.writtenStore : DbEvent → Option EntityType
  | .writeAllToNewDb s => some s
  | _ => none

/-- Position of a store in the registry `AllObjectStores` (its length if absent). -/
def registryIndex (T : EntityType) : Nat :=
  AllObjectStores.indexOf T

/-- Position of the `PRIMARY_TABLE<T>` specialisation among the definitions in the file. -/
def definitionIndex (T : EntityType) : Nat :=
  primaryTableSpecialisations.indexOf T

/-- The foreign-key dependency graph on primary tables: an edge from `T` to `U` when a column
of `PRIMARY_TABLE<T>` is a foreign key to `PRIMARY_TABLE<U>`. -/
def primaryTableReferences (T U : EntityType) : Prop :=
  U ∈ primaryForeignKeys T

instance (T U : EntityType) : Decidable (primaryTableReferences T U) := by
  unfold primaryTableReferences
  infer_instance

/-- The dependency graph without the edges from a type to itself. -/
def referencesOther (T U : EntityType) : Prop :=
  primaryTableReferences T U ∧ U ≠ T

instance (T U : EntityType) : Decidable (referencesOther T U) := by
  unfold referencesOther
  infer_instance

/-! ## The typed store, its singleton and the `ObjectStoreWrapper` functions

`ObjectStoreWrapper.h` forwards every call to `ObjectStoreTyped<NE>::getInstance()`, which is
in `ObjectStoreTyped.cpp`.  The member functions of the store itself (`ObjectStore.cpp`,
`ObjectStoreTyped.h`) are not among the sources; they are modelled from the specification. -/

/-- Modelled from the spec: an entity as the store sees it (section 3; `model/NamedEntity.h`
is not among the sources): the integer id (`key()`), the two flags every entity
carries, and the remaining mapped fields by property name. -/
structure Entity where
  key : Int
  deleted : Bool
  display : Bool
  fields : List (String × Int)
  deriving DecidableEq, Repr

/-- Modelled from the spec: the failures named for store operations (section 7). -/
inductive StoreError where
  | DuplicateKey
  | NotFound
  deriving DecidableEq, Repr

/-- Modelled from the spec: the state of the store of one entity type (section 3 and 4.3).
`cache` holds the live entities in cache iteration order, `rows` the rows of the primary
table, `lastId` the highest id ever handed out and `hardDeleted` the ids that were hard
deleted (kept to express that such an id is never used again). -/
structure ObjectStoreTyped where
  cache : List Entity
  rows : List Entity
  lastId : Int
  hardDeleted : List Int
  deriving DecidableEq, Repr

/-- The same entity under another id. -/
def Entity.withKey (e : Entity) (id : Int) : Entity :=
  ⟨id, e.deleted, e.display, e.fields⟩

/-- The same entity with the `deleted` field set. -/
def Entity.markDeleted (e : Entity) : Entity :=
  ⟨e.key, true, e.display, e.fields⟩

/-- Modelled from the spec: `loadAll()` reads every row of the primary table into the cache,
keyed by id. -/
def ObjectStoreTyped.loadAll (s : ObjectStoreTyped) : ObjectStoreTyped :=
  ⟨s.rows, s.rows, s.lastId, s.hardDeleted⟩

/-- Modelled from the spec: `getById(id)` returns the cached entity with that id, or "not
found"; it never touches the rows. -/
def ObjectStoreTyped.getById (s : ObjectStoreTyped) (id : Int) : Option Entity :=
  s.cache.find? fun e => decide (e.key = id)

/-- Modelled from the spec: `insert(entity)` fails with `DuplicateKey` on an entity that
already has a valid id; otherwise it allocates a new id, writes a new row, adds the entity to
the cache and returns it. -/
def ObjectStoreTyped.insert (s : ObjectStoreTyped) (e : Entity) :
    Except StoreError (ObjectStoreTyped × Entity) :=
  if 0 < e.key then
    .error .DuplicateKey
  else
    .ok (⟨s.cache ++ [e.withKey (s.lastId + 1)], s.rows ++ [e.withKey (s.lastId + 1)],
          s.lastId + 1, s.hardDeleted⟩, e.withKey (s.lastId + 1))

/-- Replace the entries with the id of `e` by `e`. -/
def replaceByKey (e : Entity) (l : List Entity) : List Entity :=
  l.map fun r => if r.key = e.key then e else r

/-- Modelled from the spec: `insertOrUpdate(entity)` inserts if `id <= 0`, else updates all
mapped columns of the existing row (and the cached object); it returns the final id.  An
update for which no row exists is reported as `NotFound` and changes nothing. -/
def ObjectStoreTyped.insertOrUpdate (s : ObjectStoreTyped) (e : Entity) :
    Except StoreError (ObjectStoreTyped × Int) :=
  if e.key ≤ 0 then
    match s.insert e with
    | .ok (s1, e1) => .ok (s1, e1.key)
    | .error err => .error err
  else if s.rows.any (fun r => decide (r.key = e.key)) then
    .ok (⟨replaceByKey e s.cache, replaceByKey e s.rows, s.lastId, s.hardDeleted⟩, e.key)
  else
    .error .NotFound

/-- Set the `deleted` field of the entries with the given id. -/
def markDeletedByKey (id : Int) (l : List Entity) : List Entity :=
  l.map fun r => if r.key = id then r.markDeleted else r

/-- Modelled from the spec: `softDelete(id)` sets the `deleted` field true, both in cache and
storage; the entity stays in the cache. -/
def ObjectStoreTyped.softDelete (s : ObjectStoreTyped) (id : Int) : ObjectStoreTyped :=
  ⟨markDeletedByKey id s.cache, markDeletedByKey id s.rows, s.lastId, s.hardDeleted⟩

/-- Modelled from the spec: `hardDelete(id)` removes the row from storage and evicts the
entity from the cache; on an id that is not in the cache it does nothing. -/
def ObjectStoreTyped.hardDelete (s : ObjectStoreTyped) (id : Int) : ObjectStoreTyped :=
  if (s.getById id).isSome then
    ⟨s.cache.filter (fun e => decide (e.key ≠ id)), s.rows.filter (fun e => decide (e.key ≠ id)),
      s.lastId, id :: s.hardDeleted⟩
  else
    s

/-- The invariant of a store: `lastId` is not negative, ids are positive and at most `lastId`, unique among the cached
entities and among the rows, and a hard-deleted id belongs to no cached entity and no row. -/
def ObjectStoreTyped.WellFormed (s : ObjectStoreTyped) : Prop :=
  0 ≤ s.lastId ∧
  (∀ e ∈ s.cache, 0 < e.key ∧ e.key ≤ s.lastId) ∧
  (∀ e ∈ s.rows, 0 < e.key ∧ e.key ≤ s.lastId) ∧
  (∀ id ∈ s.hardDeleted, 0 < id ∧ id ≤ s.lastId) ∧
  (s.cache.map Entity.key).Nodup ∧
  (s.rows.map Entity.key).Nodup ∧
  (∀ e ∈ s.cache, e.key ∉ s.hardDeleted) ∧
  (∀ e ∈ s.rows, e.key ∉ s.hardDeleted)

instance (s : ObjectStoreTyped) : Decidable s.WellFormed := by
  unfold ObjectStoreTyped.WellFormed
  infer_instance

/-- The variable `ostSingleton<NE>` together with the function-local `static std::once_flag
initFlag` of `getInstance()`; `loadAllCalls` counts the invocations of `loadAll` on it. -/
structure Singleton where
  initFlag : Bool
  loadAllCalls : Nat
  store : ObjectStoreTyped
  deriving DecidableEq, Repr

/-- The singleton before the first call of `getInstance()`. -/
def Singleton.initial (store : ObjectStoreTyped) : Singleton :=
  ⟨false, 0, store⟩

/-- `ObjectStoreTyped<NE>::getInstance()` (lines 750 to 760):
`std::call_once(initFlag, &loadAll, &ostSingleton<NE>, nullptr); return ostSingleton<NE>;`.
`std::call_once` runs `loadAll` when the flag is not set and sets the flag once `loadAll` has
returned; `loadAll` is taken to return.  The result is the singleton as the call leaves it,
which is what the caller gets a reference to. -/
def getInstance (g : Singleton) : Singleton :=
  if g.initFlag then g else ⟨true, g.loadAllCalls + 1, g.store.loadAll⟩

/-- A sequence of uses of the singleton: each element stands for one call of `getInstance()`
followed by whatever the caller does to the store it was handed. -/
def useSingleton : List (ObjectStoreTyped → ObjectStoreTyped) → Singleton → Singleton
  | [], g => g
  | f :: rest, g =>
    useSingleton rest
      ⟨(getInstance g).initFlag, (getInstance g).loadAllCalls, f (getInstance g).store⟩

/-- The value of `loadAllCalls` right after each `getInstance()` call of a sequence. -/
def loadAllCallsAfterEach : List (ObjectStoreTyped → ObjectStoreTyped) → Singleton → List Nat
  | [], _ => []
  | f :: rest, g =>
    (getInstance g).loadAllCalls ::
      loadAllCallsAfterEach rest
        ⟨(getInstance g).initFlag, (getInstance g).loadAllCalls, f (getInstance g).store⟩

/-- The store each `getInstance()` call of a sequence hands to its caller. -/
def storesReturned : List (ObjectStoreTyped → ObjectStoreTyped) → Singleton →
    List ObjectStoreTyped
  | [], _ => []
  | f :: rest, g =>
    (getInstance g).store ::
      storesReturned rest
        ⟨(getInstance g).initFlag, (getInstance g).loadAllCalls, f (getInstance g).store⟩

/-- The stores one object goes through when the callers act on it in turn, starting from
`s`: the state each caller finds. -/
def statesFound : List (ObjectStoreTyped → ObjectStoreTyped) → ObjectStoreTyped →
    List ObjectStoreTyped
  | [], _ => []
  | f :: rest, s => s :: statesFound rest (f s)

namespace ObjectStoreWrapper

/-- `ObjectStoreWrapper::getById<NE>(id)`:
`return ObjectStoreTyped<NE>::getInstance().getById(id);`. -/
def getById (g : Singleton) (id : Int) : Singleton × Option Entity :=
  (getInstance g, (getInstance g).store.getById id)

/-- `ObjectStoreWrapper::insert(ne)`:
`return ObjectStoreTyped<NE>::getInstance().insert(ne);`. -/
def insert (g : Singleton) (ne : Entity) : Singleton × Except StoreError Entity :=
  match (getInstance g).store.insert ne with
  | .ok (s1, e1) => (⟨(getInstance g).initFlag, (getInstance g).loadAllCalls, s1⟩, .ok e1)
  | .error err => (getInstance g, .error err)

/-- `ObjectStoreWrapper::insertOrUpdate(ne)`:
`return ObjectStoreTyped<NE>::getInstance().insertOrUpdate(ne);`. -/
def insertOrUpdate (g : Singleton) (ne : Entity) : Singleton × Except StoreError Int :=
  match (getInstance g).store.insertOrUpdate ne with
  | .ok (s1, id) => (⟨(getInstance g).initFlag, (getInstance g).loadAllCalls, s1⟩, .ok id)
  | .error err => (getInstance g, .error err)

/-- `ObjectStoreWrapper::softDelete(ne)`:
`ObjectStoreTyped<NE>::getInstance().softDelete(ne.key());`. -/
def softDelete (g : Singleton) (ne : Entity) : Singleton :=
  ⟨(getInstance g).initFlag, (getInstance g).loadAllCalls,
    (getInstance g).store.softDelete ne.key⟩

/-- `ObjectStoreWrapper::hardDelete(ne)`:
`ObjectStoreTyped<NE>::getInstance().hardDelete(ne.key());`. -/
def hardDelete (g : Singleton) (ne : Entity) : Singleton :=
  ⟨(getInstance g).initFlag, (getInstance g).loadAllCalls,
    (getInstance g).store.hardDelete ne.key⟩

end ObjectStoreWrapper

/-- A store with two persisted entities, ids 1 and 2, after id 3 was hard deleted. -/
def sampleStore : ObjectStoreTyped :=
  ⟨[], [⟨1, false, true, [("color", 3)]⟩, ⟨2, false, true, [("color", 5)]⟩], 3, [3]⟩

/-- An entity that has not been persisted yet. -/
def sampleNewEntity : Entity :=
  ⟨-1, false, true, [("color", 7)]⟩

/-- A persisted entity of `sampleStore` with a changed field. -/
def sampleChangedEntity : Entity :=
  ⟨2, false, true, [("color", 6)]⟩

/-! ## Searching the cache and comparing by id -/

/-- A linear scan that stops at the first element the match function accepts. -/
def firstMatch (matchFunction : Entity → Bool) : List Entity → Option Entity
  | [] => none
  | e :: rest => if matchFunction e then some e else firstMatch matchFunction rest

/-- A linear scan that collects every element the match function accepts. -/
def allMatches (matchFunction : Entity → Bool) : List Entity → List Entity
  | [] => []
  | e :: rest =>
    if matchFunction e then e :: allMatches matchFunction rest
    else allMatches matchFunction rest

/-- Modelled from the spec: `findFirstMatching(predicate)` is a linear scan of the cache (not
of the rows) that returns the first match. -/
def ObjectStoreTyped.findFirstMatching (s : ObjectStoreTyped) (matchFunction : Entity → Bool) :
    Option Entity :=
  firstMatch matchFunction s.cache

/-- Modelled from the spec: `findAllMatching(predicate)` is a linear scan of the cache that
returns all matches, preserving cache iteration order. -/
def ObjectStoreTyped.findAllMatching (s : ObjectStoreTyped) (matchFunction : Entity → Bool) :
    List Entity :=
  allMatches matchFunction s.cache

namespace ObjectStoreWrapper

/-- `ObjectStoreWrapper::getByIdRaw<NE>(id)`:
`return ObjectStoreTyped<NE>::getInstance().getById(id).get();`; a null pointer is `none`. -/
def getByIdRaw (g : Singleton) (id : Int) : Singleton × Option Entity :=
  (getInstance g, (getInstance g).store.getById id)

/-- `ObjectStoreWrapper::findFirstMatching` on shared pointers (lines 84 to 88):
`return ObjectStoreTyped<NE>::getInstance().findFirstMatching(matchFunction);`;
`std::nullopt` is `none`. -/
def findFirstMatching (g : Singleton) (matchFunction : Entity → Bool) :
    Singleton × Option Entity :=
  (getInstance g, (getInstance g).store.findFirstMatching matchFunction)

/-- `ObjectStoreWrapper::findFirstMatching` on raw pointers (lines 96 to 100), the same
forwarding call; `nullptr` is `none`. -/
def findFirstMatchingRaw (g : Singleton) (matchFunction : Entity → Bool) :
    Singleton × Option Entity :=
  (getInstance g, (getInstance g).store.findFirstMatching matchFunction)

/-- `ObjectStoreWrapper::findAllMatching` (lines 102 to 106):
`return ObjectStoreTyped<NE>::getInstance().findAllMatching(matchFunction);`. -/
def findAllMatching (g : Singleton) (matchFunction : Entity → Bool) :
    Singleton × List Entity :=
  (getInstance g, (getInstance g).store.findAllMatching matchFunction)

/-- `ObjectStoreWrapper::compareById<NE>(lhsId, rhsId)` (lines 112 to 130).  `equal` stands
for `operator==` of the entity class (`*lhs == *rhs`), which is not among the sources. -/
def compareById (equal : Entity → Entity → Bool) (g : Singleton) (lhsId rhsId : Int) :
    Singleton × Bool :=
  if lhsId ≤ 0 ∧ rhsId ≤ 0 then
    (g, true)
  else
    match (getByIdRaw g lhsId).2, (getByIdRaw (getByIdRaw g lhsId).1 rhsId).2 with
    | none, none => ((getByIdRaw (getByIdRaw g lhsId).1 rhsId).1, true)
    | none, some _ => ((getByIdRaw (getByIdRaw g lhsId).1 rhsId).1, false)
    | some _, none => ((getByIdRaw (getByIdRaw g lhsId).1 rhsId).1, false)
    | some lhs, some rhs => ((getByIdRaw (getByIdRaw g lhsId).1 rhsId).1, equal lhs rhs)

end ObjectStoreWrapper

/-! ## Enum string mappings -/

/-- The enumerators of `Hop::Form` named in `Hop.cpp`. -/
inductive HopForm where
  | Leaf
  | Pellet
  | Plug
  | Extract
  | WetLeaf
  | Powder
  deriving DecidableEq, Repr

/-- The enumerators of `Hop::Type` named in `Hop.cpp`. -/
inductive HopType where
  | Bittering
  | Aroma
  | AromaAndBittering
  | Flavor
  | BitteringAndFlavor
  | AromaAndFlavor
  | AromaBitteringAndFlavor
  deriving DecidableEq, Repr

/-- The enumerators of `Water::Type` named in `Water.cpp`. -/
inductive WaterType where
  | Base
  | Target
  deriving DecidableEq, Repr

/-- The enumerators of `Water::Ion` named in `Water.cpp`. -/
inductive WaterIon where
  | Ca
  | Cl
  | HCO3
  | Mg
  | Na
  | SO4
  deriving DecidableEq, Repr

/-- The enumerators of `Recipe::Type` named in `ObjectStoreTyped.cpp`. -/
inductive RecipeType where
  | Extract
  | PartialMash
  | AllGrain
  deriving DecidableEq, Repr

/-- Modelled from the spec: an enum string mapping (`utils/EnumStringMapping.h` is not among
the sources) is an explicit, ordered list of (enum value, canonical string) pairs. -/
abbrev EnumStringMapping (α : Type) := List (α × String)

/-- Modelled from the spec: the two failures of an enum string mapping (section 4.1). -/
inductive EnumMappingError where
  | UnmappedEnumValue
  | UnknownEnumString
  deriving DecidableEq, Repr

/-- Modelled from the spec: encoding an enum value gives the string of its entry and fails
with `UnmappedEnumValue` if the value has no entry. -/
def EnumStringMapping.enumToString {α : Type} [DecidableEq α] (m : EnumStringMapping α)
    (v : α) : Except EnumMappingError String :=
  match m.find? (fun p => decide (p.1 = v)) with
  | some p => .ok p.2
  | none => .error .UnmappedEnumValue

/-- Modelled from the spec: decoding a string gives the enum value of its entry and fails with
`UnknownEnumString` if the string is not recognised. -/
def EnumStringMapping.stringToEnum {α : Type} (m : EnumStringMapping α) (s : String) :
    Except EnumMappingError α :=
  match m.find? (fun p => decide (p.2 = s)) with
  | some p => .ok p.1
  | none => .error .UnknownEnumString

/-- A mapping is bidirectional when no two pairs share an enum value, no two pairs share a
string, decoding the encoding of a listed enum value gives the value back and encoding the
decoding of a listed string gives the string back. -/
def EnumStringMapping.Bidirectional {α : Type} [DecidableEq α] (m : EnumStringMapping α) :
    Prop :=
  (m.map Prod.fst).Nodup ∧ (m.map Prod.snd).Nodup ∧
  (∀ v ∈ m.map Prod.fst, (m.enumToString v).bind m.stringToEnum = .ok v) ∧
  (∀ s ∈ m.map Prod.snd, (m.stringToEnum s).bind m.enumToString = .ok s)

/-- `Hop::formStringMapping` (Hop.cpp, lines 36 to 43). -/
def Hop.formStringMapping : EnumStringMapping HopForm :=
  [(.Leaf, "leaf"), (.Pellet, "pellet"), (.Plug, "plug"), (.Extract, "extract"),
   (.WetLeaf, "leaf (wet)"), (.Powder, "powder")]

/-- `Hop::typeStringMapping` (Hop.cpp, lines 54 to 62). -/
def Hop.typeStringMapping : EnumStringMapping HopType :=
  [(.Bittering, "bittering"), (.Aroma, "aroma"), (.AromaAndBittering, "aroma/bittering"),
   (.Flavor, "flavor"), (.BitteringAndFlavor, "bittering/flavor"),
   (.AromaAndFlavor, "aroma/flavor"), (.AromaBitteringAndFlavor, "aroma/bittering/flavor")]

/-- `Water::typeStringMapping` (Water.cpp, lines 27 to 30). -/
def Water.typeStringMapping : EnumStringMapping WaterType :=
  [(.Base, "base"), (.Target, "target")]

/-- `Water::ionStringMapping` (Water.cpp, lines 37 to 44). -/
def Water.ionStringMapping : EnumStringMapping WaterIon :=
  [(.Ca, "Ca"), (.Cl, "Cl"), (.HCO3, "HCO3"), (.Mg, "Mg"), (.Na, "Na"), (.SO4, "SO4")]

/-- `RECIPE_STEP_TYPE_ENUM` (ObjectStoreTyped.cpp, lines 582 to 586). -/
def RECIPE_STEP_TYPE_ENUM : EnumStringMapping RecipeType :=
  [(.Extract, "Extract"), (.PartialMash, "Partial Mash"), (.AllGrain, "All Grain")]

/-! ## Reading the table definitions -/

/-- A column carries an enum string mapping exactly when its field type is `Enum`. -/
def TableField.mappingIffEnum (f : TableField) : Prop :=
  f.enumMapping.isSome = true ↔ f.fieldType = FieldType.Enum

instance (f : TableField) : Decidable f.mappingIffEnum := by
  unfold TableField.mappingIffEnum
  infer_instance

/-- What a column says about storage: field type, column name and foreign-key target. -/
def TableField.shape (f : TableField) : FieldType × String × Option EntityType :=
  (f.fieldType, f.columnName, f.foreignKeyTo)

/-- Whether a junction table is a parent/child table, going by its name `..._children`. -/
def JunctionTableDefinition.isChildrenTable (j : JunctionTableDefinition) : Bool :=
  "_children".toList.isSuffixOf j.tableName.toList

/-- Whether a junction table is a recipe association table, going by its name
`..._in_recipe`. -/
def JunctionTableDefinition.isInRecipeTable (j : JunctionTableDefinition) : Bool :=
  "_in_recipe".toList.isSuffixOf j.tableName.toList

/-- The entity types the claim about parent/child tables lists. -/
def parentChildTypes : List EntityType :=
  [.Equipment, .Fermentable, .Hop, .Misc, .Style, .Water, .Yeast]

/-- The entity types associated with recipes through a junction table, in the order of the
tables of `JUNCTION_TABLES<Recipe>`. -/
def recipeAssociationTypes : List EntityType :=
  [.Fermentable, .Hop, .Instruction, .Misc, .Salt, .Water, .Yeast]

/-- The four inventory entity types. -/
def inventoryTypes : List EntityType :=
  [.InventoryFermentable, .InventoryHop, .InventoryMisc, .InventoryYeast]

/-- Whether a table has a column of the given type and name. -/
def TableDefinition.hasColumn (t : TableDefinition) (fieldType : FieldType) (name : String) :
    Bool :=
  t.tableFields.any fun f => decide (f.fieldType = fieldType ∧ f.columnName = name)

/-- Whether a table has a column of the given name, of whatever type. -/
def TableDefinition.hasColumnNamed (t : TableDefinition) (name : String) : Bool :=
  t.tableFields.any fun f => decide (f.columnName = name)

/-- Whether a call of `CreateAllDatabaseTables` succeeded, given what `createTables` and
`addTableConstraints` return on each store. -/
def StoreCall.succeeds (createTables addTableConstraints : EntityType → Bool) :
    StoreCall → Bool
  | .createTables s => createTables s
  | .addTableConstraints s => addTableConstraints s

/-! ## `Hop`: getters and setters

`double` values are rationals here: the setters and getters only store a value and compare it
with the bounds. -/

/-- Modelled from the spec: `enforceMinAndMax(value, name, min, max)` on a `double`
(`model/NamedEntity.h` is not among the sources) gives the value clamped to the declared
bounds; `name` only serves a log message. -/
def enforceMinAndMax (value : ℚ) (_name : String) (minValue maxValue : ℚ) : ℚ :=
  if value < minValue then minValue
  else if value > maxValue then maxValue
  else value

/-- Modelled from the spec: `enforceMinAndMax` on a `std::optional<double>`: an absent value
stays absent, a present one is clamped. -/
def enforceMinAndMaxOpt (value : Option ℚ) (name : String) (minValue maxValue : ℚ) :
    Option ℚ :=
  value.map fun v => enforceMinAndMax v name minValue maxValue

/-- The member variables of `Hop` that `Hop.cpp` initialises, in the order of its
constructors, preceded by the id of the entity (`key()`) and followed by what the setters did
besides storing: the properties written to the database and the change notifications
emitted. -/
structure Hop where
  key : Int
  m_alpha_pct : ℚ
  m_form : Option HopForm
  m_beta_pct : Option ℚ
  m_origin : String
  m_type : Option HopType
  m_notes : String
  m_hsi_pct : Option ℚ
  m_substitutes : String
  m_humulene_pct : Option ℚ
  m_caryophyllene_pct : Option ℚ
  m_cohumulone_pct : Option ℚ
  m_myrcene_pct : Option ℚ
  m_total_oil_ml_per_100g : Option ℚ
  m_farnesene_pct : Option ℚ
  m_geraniol_pct : Option ℚ
  m_b_pinene_pct : Option ℚ
  m_linalool_pct : Option ℚ
  m_limonene_pct : Option ℚ
  m_nerol_pct : Option ℚ
  m_pinene_pct : Option ℚ
  m_polyphenols_pct : Option ℚ
  m_xanthohumol_pct : Option ℚ
  m_producer : String
  m_product_id : String
  m_year : String
  dbUpdates : List String
  propertyChanges : List String
  deriving DecidableEq, Repr

/-- Modelled from the spec: `setAndNotify(propertyName, member, newValue)`
(`model/NamedEntity.h` is not among the sources).  The member gets the new value (`assign`);
for an entity that is already stored (`key() > 0`) the property is written to the database;
and a change notification for the property is emitted. -/
def Hop.setAndNotify (h : Hop) (propertyName : String) (assign : Hop → Hop) : Hop :=
  { assign h with
    dbUpdates :=
      if 0 < (assign h).key then (assign h).dbUpdates ++ [propertyName]
      else (assign h).dbUpdates
    propertyChanges := (assign h).propertyChanges ++ [propertyName] }

/-- `Hop::alpha_pct()`: `return this->m_alpha_pct;`. -/
def Hop.alpha_pct (h : Hop) : ℚ :=
  h.m_alpha_pct

/-- `Hop::form()`: `return this->m_form;`. -/
def Hop.form (h : Hop) : Option HopForm :=
  h.m_form

/-- `Hop::beta_pct()`: `return this->m_beta_pct;`. -/
def Hop.beta_pct (h : Hop) : Option ℚ :=
  h.m_beta_pct

/-- `Hop::origin()`: `return this->m_origin;`. -/
def Hop.origin (h : Hop) : String :=
  h.m_origin

/-- `Hop::notes()`: `return this->m_notes;`. -/
def Hop.notes (h : Hop) : String :=
  h.m_notes

/-- `Hop::type()`: `return this->m_type;`. -/
def Hop.type (h : Hop) : Option HopType :=
  h.m_type

/-- `Hop::hsi_pct()`: `return this->m_hsi_pct;`. -/
def Hop.hsi_pct (h : Hop) : Option ℚ :=
  h.m_hsi_pct

/-- `Hop::substitutes()`: `return this->m_substitutes;`. -/
def Hop.substitutes (h : Hop) : String :=
  h.m_substitutes

/-- `Hop::humulene_pct()`: `return this->m_humulene_pct;`. -/
def Hop.humulene_pct (h : Hop) : Option ℚ :=
  h.m_humulene_pct

/-- `Hop::caryophyllene_pct()`: `return this->m_caryophyllene_pct;`. -/
def Hop.caryophyllene_pct (h : Hop) : Option ℚ :=
  h.m_caryophyllene_pct

/-- `Hop::cohumulone_pct()`: `return this->m_cohumulone_pct;`. -/
def Hop.cohumulone_pct (h : Hop) : Option ℚ :=
  h.m_cohumulone_pct

/-- `Hop::myrcene_pct()`: `return this->m_myrcene_pct;`. -/
def Hop.myrcene_pct (h : Hop) : Option ℚ :=
  h.m_myrcene_pct

/-- `Hop::total_oil_ml_per_100g()`: `return this->m_total_oil_ml_per_100g;`. -/
def Hop.total_oil_ml_per_100g (h : Hop) : Option ℚ :=
  h.m_total_oil_ml_per_100g

/-- `Hop::farnesene_pct()`: `return this->m_farnesene_pct;`. -/
def Hop.farnesene_pct (h : Hop) : Option ℚ :=
  h.m_farnesene_pct

/-- `Hop::geraniol_pct()`: `return this->m_geraniol_pct;`. -/
def Hop.geraniol_pct (h : Hop) : Option ℚ :=
  h.m_geraniol_pct

/-- `Hop::b_pinene_pct()`: `return this->m_b_pinene_pct;`. -/
def Hop.b_pinene_pct (h : Hop) : Option ℚ :=
  h.m_b_pinene_pct

/-- `Hop::linalool_pct()`: `return this->m_linalool_pct;`. -/
def Hop.linalool_pct (h : Hop) : Option ℚ :=
  h.m_linalool_pct

/-- `Hop::limonene_pct()`: `return this->m_limonene_pct;`. -/
def Hop.limonene_pct (h : Hop) : Option ℚ :=
  h.m_limonene_pct

/-- `Hop::nerol_pct()`: `return this->m_nerol_pct;`. -/
def Hop.nerol_pct (h : Hop) : Option ℚ :=
  h.m_nerol_pct

/-- `Hop::pinene_pct()`: `return this->m_pinene_pct;`. -/
def Hop.pinene_pct (h : Hop) : Option ℚ :=
  h.m_pinene_pct

/-- `Hop::polyphenols_pct()`: `return this->m_polyphenols_pct;`. -/
def Hop.polyphenols_pct (h : Hop) : Option ℚ :=
  h.m_polyphenols_pct

/-- `Hop::xanthohumol_pct()`: `return this->m_xanthohumol_pct;`. -/
def Hop.xanthohumol_pct (h : Hop) : Option ℚ :=
  h.m_xanthohumol_pct

/-- `Hop::producer()`: `return this->m_producer;`. -/
def Hop.producer (h : Hop) : String :=
  h.m_producer

/-- `Hop::product_id()`: `return this->m_product_id;`. -/
def Hop.product_id (h : Hop) : String :=
  h.m_product_id

/-- `Hop::year()`: `return this->m_year;`. -/
def Hop.year (h : Hop) : String :=
  h.m_year

/-- `Hop::setAlpha_pct(val)`:
`this->setAndNotify(PropertyNames::Hop::alpha_pct, this->m_alpha_pct, this->enforceMinAndMax(val, "alpha", 0.0, 100.0));`. -/
def Hop.setAlpha_pct (h : Hop) (val : ℚ) : Hop :=
  h.setAndNotify "PropertyNames::Hop::alpha_pct" fun x => { x with m_alpha_pct := enforceMinAndMax val "alpha" 0 100 }

/-- `Hop::setForm(val)`:
`this->setAndNotify(PropertyNames::Hop::form, this->m_form, val);`. -/
def Hop.setForm (h : Hop) (val : Option HopForm) : Hop :=
  h.setAndNotify "PropertyNames::Hop::form" fun x => { x with m_form := val }

/-- `Hop::setBeta_pct(val)`:
`this->setAndNotify(PropertyNames::Hop::beta_pct, this->m_beta_pct, this->enforceMinAndMax(val, "beta", 0.0, 100.0));`. -/
def Hop.setBeta_pct (h : Hop) (val : Option ℚ) : Hop :=
  h.setAndNotify "PropertyNames::Hop::beta_pct" fun x => { x with m_beta_pct := enforceMinAndMaxOpt val "beta" 0 100 }

/-- `Hop::setOrigin(val)`:
`this->setAndNotify(PropertyNames::Hop::origin, this->m_origin, val);`. -/
def Hop.setOrigin (h : Hop) (val : String) : Hop :=
  h.setAndNotify "PropertyNames::Hop::origin" fun x => { x with m_origin := val }

/-- `Hop::setNotes(val)`:
`this->setAndNotify(PropertyNames::Hop::notes, this->m_notes, val);`. -/
def Hop.setNotes (h : Hop) (val : String) : Hop :=
  h.setAndNotify "PropertyNames::Hop::notes" fun x => { x with m_notes := val }

/-- `Hop::setType(val)`:
`this->setAndNotify(PropertyNames::Hop::type, this->m_type, val);`. -/
def Hop.setType (h : Hop) (val : Option HopType) : Hop :=
  h.setAndNotify "PropertyNames::Hop::type" fun x => { x with m_type := val }

/-- `Hop::setHsi_pct(val)`:
`this->setAndNotify(PropertyNames::Hop::hsi_pct, this->m_hsi_pct, this->enforceMinAndMax(val, "hsi", 0.0, 100.0));`. -/
def Hop.setHsi_pct (h : Hop) (val : Option ℚ) : Hop :=
  h.setAndNotify "PropertyNames::Hop::hsi_pct" fun x => { x with m_hsi_pct := enforceMinAndMaxOpt val "hsi" 0 100 }

/-- `Hop::setSubstitutes(val)`:
`this->setAndNotify(PropertyNames::Hop::substitutes, this->m_substitutes, val);`. -/
def Hop.setSubstitutes (h : Hop) (val : String) : Hop :=
  h.setAndNotify "PropertyNames::Hop::substitutes" fun x => { x with m_substitutes := val }

/-- `Hop::setHumulene_pct(val)`:
`this->setAndNotify(PropertyNames::Hop::humulene_pct, this->m_humulene_pct, this->enforceMinAndMax(val, "humulene", 0.0, 100.0));`. -/
def Hop.setHumulene_pct (h : Hop) (val : Option ℚ) : Hop :=
  h.setAndNotify "PropertyNames::Hop::humulene_pct" fun x => { x with m_humulene_pct := enforceMinAndMaxOpt val "humulene" 0 100 }

/-- `Hop::setCaryophyllene_pct(val)`:
`this->setAndNotify(PropertyNames::Hop::caryophyllene_pct, this->m_caryophyllene_pct, this->enforceMinAndMax(val, "caryophyllene", 0.0, 100.0));`. -/
def Hop.setCaryophyllene_pct (h : Hop) (val : Option ℚ) : Hop :=
  h.setAndNotify "PropertyNames::Hop::caryophyllene_pct" fun x => { x with m_caryophyllene_pct := enforceMinAndMaxOpt val "caryophyllene" 0 100 }

/-- `Hop::setCohumulone_pct(val)`:
`this->setAndNotify(PropertyNames::Hop::cohumulone_pct, this->m_cohumulone_pct, this->enforceMinAndMax(val, "cohumulone", 0.0, 100.0));`. -/
def Hop.setCohumulone_pct (h : Hop) (val : Option ℚ) : Hop :=
  h.setAndNotify "PropertyNames::Hop::cohumulone_pct" fun x => { x with m_cohumulone_pct := enforceMinAndMaxOpt val "cohumulone" 0 100 }

/-- `Hop::setMyrcene_pct(val)`:
`this->setAndNotify(PropertyNames::Hop::myrcene_pct, this->m_myrcene_pct, this->enforceMinAndMax(val, "myrcene", 0.0, 100.0));`. -/
def Hop.setMyrcene_pct (h : Hop) (val : Option ℚ) : Hop :=
  h.setAndNotify "PropertyNames::Hop::myrcene_pct" fun x => { x with m_myrcene_pct := enforceMinAndMaxOpt val "myrcene" 0 100 }

/-- `Hop::setTotal_oil_ml_per_100g(val)`:
`this->setAndNotify(PropertyNames::Hop::total_oil_ml_per_100g, this->m_total_oil_ml_per_100g, this->enforceMinAndMax(val, "total_oil_ml_per_100g", 0.0, 100.0));`. -/
def Hop.setTotal_oil_ml_per_100g (h : Hop) (val : Option ℚ) : Hop :=
  h.setAndNotify "PropertyNames::Hop::total_oil_ml_per_100g" fun x => { x with m_total_oil_ml_per_100g := enforceMinAndMaxOpt val "total_oil_ml_per_100g" 0 100 }

/-- `Hop::setFarnesene_pct(val)`:
`this->setAndNotify(PropertyNames::Hop::farnesene_pct, this->m_farnesene_pct, this->enforceMinAndMax(val, "farnesene_pct", 0.0, 100.0));`. -/
def Hop.setFarnesene_pct (h : Hop) (val : Option ℚ) : Hop :=
  h.setAndNotify "PropertyNames::Hop::farnesene_pct" fun x => { x with m_farnesene_pct := enforceMinAndMaxOpt val "farnesene_pct" 0 100 }

/-- `Hop::setGeraniol_pct(val)`:
`this->setAndNotify(PropertyNames::Hop::geraniol_pct, this->m_geraniol_pct, this->enforceMinAndMax(val, "geraniol_pct", 0.0, 100.0));`. -/
def Hop.setGeraniol_pct (h : Hop) (val : Option ℚ) : Hop :=
  h.setAndNotify "PropertyNames::Hop::geraniol_pct" fun x => { x with m_geraniol_pct := enforceMinAndMaxOpt val "geraniol_pct" 0 100 }

/-- `Hop::setB_pinene_pct(val)`:
`this->setAndNotify(PropertyNames::Hop::b_pinene_pct, this->m_b_pinene_pct, this->enforceMinAndMax(val, "b_pinene_pct", 0.0, 100.0));`. -/
def Hop.setB_pinene_pct (h : Hop) (val : Option ℚ) : Hop :=
  h.setAndNotify "PropertyNames::Hop::b_pinene_pct" fun x => { x with m_b_pinene_pct := enforceMinAndMaxOpt val "b_pinene_pct" 0 100 }

/-- `Hop::setLinalool_pct(val)`:
`this->setAndNotify(PropertyNames::Hop::linalool_pct, this->m_linalool_pct, this->enforceMinAndMax(val, "linalool_pct", 0.0, 100.0));`. -/
def Hop.setLinalool_pct (h : Hop) (val : Option ℚ) : Hop :=
  h.setAndNotify "PropertyNames::Hop::linalool_pct" fun x => { x with m_linalool_pct := enforceMinAndMaxOpt val "linalool_pct" 0 100 }

/-- `Hop::setLimonene_pct(val)`:
`this->setAndNotify(PropertyNames::Hop::limonene_pct, this->m_limonene_pct, this->enforceMinAndMax(val, "limonene_pct", 0.0, 100.0));`. -/
def Hop.setLimonene_pct (h : Hop) (val : Option ℚ) : Hop :=
  h.setAndNotify "PropertyNames::Hop::limonene_pct" fun x => { x with m_limonene_pct := enforceMinAndMaxOpt val "limonene_pct" 0 100 }

/-- `Hop::setNerol_pct(val)`:
`this->setAndNotify(PropertyNames::Hop::nerol_pct, this->m_nerol_pct, this->enforceMinAndMax(val, "nerol_pct", 0.0, 100.0));`. -/
def Hop.setNerol_pct (h : Hop) (val : Option ℚ) : Hop :=
  h.setAndNotify "PropertyNames::Hop::nerol_pct" fun x => { x with m_nerol_pct := enforceMinAndMaxOpt val "nerol_pct" 0 100 }

/-- `Hop::setPinene_pct(val)`:
`this->setAndNotify(PropertyNames::Hop::pinene_pct, this->m_pinene_pct, this->enforceMinAndMax(val, "pinene_pct", 0.0, 100.0));`. -/
def Hop.setPinene_pct (h : Hop) (val : Option ℚ) : Hop :=
  h.setAndNotify "PropertyNames::Hop::pinene_pct" fun x => { x with m_pinene_pct := enforceMinAndMaxOpt val "pinene_pct" 0 100 }

/-- `Hop::setPolyphenols_pct(val)`:
`this->setAndNotify(PropertyNames::Hop::polyphenols_pct, this->m_polyphenols_pct, this->enforceMinAndMax(val, "polyphenols_pct", 0.0, 100.0));`. -/
def Hop.setPolyphenols_pct (h : Hop) (val : Option ℚ) : Hop :=
  h.setAndNotify "PropertyNames::Hop::polyphenols_pct" fun x => { x with m_polyphenols_pct := enforceMinAndMaxOpt val "polyphenols_pct" 0 100 }

/-- `Hop::setXanthohumol_pct(val)`:
`this->setAndNotify(PropertyNames::Hop::xanthohumol_pct, this->m_xanthohumol_pct, this->enforceMinAndMax(val, "xanthohumol_pct", 0.0, 100.0));`. -/
def Hop.setXanthohumol_pct (h : Hop) (val : Option ℚ) : Hop :=
  h.setAndNotify "PropertyNames::Hop::xanthohumol_pct" fun x => { x with m_xanthohumol_pct := enforceMinAndMaxOpt val "xanthohumol_pct" 0 100 }

/-- `Hop::setProducer(val)`:
`this->setAndNotify(PropertyNames::Hop::producer, this->m_producer, val);`. -/
def Hop.setProducer (h : Hop) (val : String) : Hop :=
  h.setAndNotify "PropertyNames::Hop::producer" fun x => { x with m_producer := val }

/-- `Hop::setProduct_id(val)`:
`this->setAndNotify(PropertyNames::Hop::product_id, this->m_product_id, val);`. -/
def Hop.setProduct_id (h : Hop) (val : String) : Hop :=
  h.setAndNotify "PropertyNames::Hop::product_id" fun x => { x with m_product_id := val }

/-- `Hop::setYear(val)`:
`this->setAndNotify(PropertyNames::Hop::year, this->m_year, val);`. -/
def Hop.setYear (h : Hop) (val : String) : Hop :=
  h.setAndNotify "PropertyNames::Hop::year" fun x => { x with m_year := val }

/-! ## Where the table definitions stand in the file, and the declared properties -/

/-- The line of `ObjectStoreTyped.cpp` on which the definition of `PRIMARY_TABLE<T>` starts. -/
def primaryTableLine : EntityType → Nat
  | .BrewNote => 696
  | .Equipment => 61
  | .Fermentable => 146
  | .Hop => 225
  | .Instruction => 281
  | .InventoryFermentable => 134
  | .InventoryHop => 213
  | .InventoryMisc => 356
  | .InventoryYeast => 517
  | .Mash => 301
  | .MashStep => 326
  | .Misc => 368
  | .Recipe => 587
  | .Salt => 404
  | .Style => 426
  | .Water => 478
  | .Yeast => 530

/-- The line of `ObjectStoreTyped.cpp` on which the definition of `JUNCTION_TABLES<T>`
starts. -/
def junctionTablesLine : EntityType → Nat
  | .BrewNote => 739
  | .Equipment => 118
  | .Fermentable => 198
  | .Hop => 265
  | .Instruction => 296
  | .InventoryFermentable => 141
  | .InventoryHop => 220
  | .InventoryMisc => 363
  | .InventoryYeast => 525
  | .Mash => 320
  | .MashStep => 351
  | .Misc => 389
  | .Recipe => 630
  | .Salt => 421
  | .Style => 463
  | .Water => 502
  | .Yeast => 567

/-- The property names for which `Hop::typeLookup` has an entry (Hop.cpp, lines 111 to 147;
the entries for `use`, `amount`, `amountIsWeight` and `time_min` are commented out). -/
def Hop.typeLookup : List String :=
  ["PropertyNames::Hop::alpha_pct", "PropertyNames::Hop::form", "PropertyNames::Hop::beta_pct",
   "PropertyNames::Hop::origin", "PropertyNames::Hop::type", "PropertyNames::Hop::notes",
   "PropertyNames::Hop::hsi_pct", "PropertyNames::Hop::substitutes",
   "PropertyNames::Hop::humulene_pct", "PropertyNames::Hop::caryophyllene_pct",
   "PropertyNames::Hop::cohumulone_pct", "PropertyNames::Hop::myrcene_pct",
   "PropertyNames::Hop::total_oil_ml_per_100g", "PropertyNames::Hop::farnesene_pct",
   "PropertyNames::Hop::geraniol_pct", "PropertyNames::Hop::b_pinene_pct",
   "PropertyNames::Hop::linalool_pct", "PropertyNames::Hop::limonene_pct",
   "PropertyNames::Hop::nerol_pct", "PropertyNames::Hop::pinene_pct",
   "PropertyNames::Hop::polyphenols_pct", "PropertyNames::Hop::xanthohumol_pct",
   "PropertyNames::Hop::producer", "PropertyNames::Hop::product_id", "PropertyNames::Hop::year"]

/-- The property names for which `Water::typeLookup` has an entry (Water.cpp, lines 96 to
124; the entry for `amount` is commented out). -/
def Water.typeLookup : List String :=
  ["PropertyNames::Water::calcium_ppm", "PropertyNames::Water::bicarbonate_ppm",
   "PropertyNames::Water::sulfate_ppm", "PropertyNames::Water::chloride_ppm",
   "PropertyNames::Water::sodium_ppm", "PropertyNames::Water::magnesium_ppm",
   "PropertyNames::Water::ph", "PropertyNames::Water::alkalinity_ppm",
   "PropertyNames::Water::notes", "PropertyNames::Water::type",
   "PropertyNames::Water::mashRo_pct", "PropertyNames::Water::spargeRo_pct",
   "PropertyNames::Water::alkalinityAsHCO3", "PropertyNames::Water::carbonate_ppm",
   "PropertyNames::Water::potassium_ppm", "PropertyNames::Water::iron_ppm",
   "PropertyNames::Water::nitrate_ppm", "PropertyNames::Water::nitrite_ppm",
   "PropertyNames::Water::flouride_ppm"]

/-- Whether a property name is in the given `PropertyNames::...::` scope. -/
def inScope (scope : String) (propertyName : String) : Bool :=
  scope.toList.isPrefixOf propertyName.toList

/-- The columns of a table that map to a property of the given scope for which the given type
lookup has no entry. -/
def columnsWithoutDeclaredProperty (t : TableDefinition) (scope : String)
    (typeLookup : List String) : List TableField :=
  t.tableFields.filter fun f =>
    match f.propertyName with
    | some p => inScope scope p && !decide (p ∈ typeLookup)
    | none => false

/-- The names of the columns of a column list. -/
def columnNames (fields : List TableField) : List String :=
  fields.map TableField.columnName

/-- The property names the columns of a column list map to (columns without one left out). -/
def mappedPropertyNames (fields : List TableField) : List String :=
  fields.filterMap TableField.propertyName

/-- The names of all tables, primary and junction, of all stores of the registry. -/
def allTableNames : List String :=
  AllObjectStores.flatMap fun T =>
    (PRIMARY_TABLE T).tableName :: (JUNCTION_TABLES T).map JunctionTableDefinition.tableName

/-! ## `PropertySchema` -/

/-- The enumerators of `Database::DbType` that `PropertySchema.cpp` names, as the integers
they convert to (`Database.h` is not among the sources, so the values are left open). -/
structure DbTypeValues where
  SQLITE : Nat
  ALLDB : Nat
  deriving DecidableEq, Repr

/-- `DatabaseConstants::DbTableId`: `NOTABLE`, the only enumerator `PropertySchema.cpp` names,
or some other table id. -/
inductive DbTableId where
  | NOTABLE
  | table (id : Nat)
  deriving DecidableEq, Repr

/-- The members of a `dbProp` that `PropertySchema.cpp` assigns.  A `QVariant` is a string or
the invalid `QVariant()` (`none`). -/
structure dbProp where
  m_propName : String
  m_colName : String
  m_xmlName : String
  m_constraint : String
  m_colType : String
  m_defaultValue : Option String
  m_colSize : Int
  m_ftable : DbTableId
  deriving DecidableEq, Repr

/-- A `PropertySchema`: the `dbProp` objects it has created with `new`, by address, and the
vector `m_properties` of pointers to them, one slot per database type (`none` is
`nullptr`). -/
structure PropertySchema where
  objects : List dbProp
  m_properties : List (Option Nat)
  deriving DecidableEq, Repr

/-- `PropertySchema::PropertySchema()` (lines 25 to 29): `1 + ALLDB` null slots. -/
def PropertySchema.default (db : DbTypeValues) : PropertySchema :=
  ⟨[], List.replicate (1 + db.ALLDB) none⟩

/-- The loop of the two full constructors,
`while ( i <= ALLDB ) { m_properties[i] = tmp; i++; }`, with `n` the number of values of `i`
still to come. -/
def constructorLoop (tmp ALLDB : Nat) : Nat → Nat → List (Option Nat) → List (Option Nat)
  | 0, _, props => props
  | n + 1, i, props =>
    if i ≤ ALLDB then constructorLoop tmp ALLDB n (i + 1) (props.set i (some tmp))
    else props

/-- The normal property initialiser (lines 32 to 54): sets every slot from `SQLITE` up to and
including `ALLDB` to the one new definition. -/
def PropertySchema.withProperty (db : DbTypeValues) (propName colName xmlName colType : String)
    (defaultValue : Option String) (constraint : String) (colSize : Int) : PropertySchema :=
  ⟨[⟨propName, colName, xmlName, constraint, colType, defaultValue, colSize, DbTableId.NOTABLE⟩],
    constructorLoop 0 db.ALLDB (db.ALLDB + 1 - db.SQLITE) db.SQLITE
      (List.replicate (1 + db.ALLDB) none)⟩

/-- The loop of `addProperty` for `ALLDB`,
`while ( i < ALLDB ) { if ( m_properties[i] == nullptr ) { m_properties[i] = tmp; } i++; }`,
with `n` the number of values of `i` still to come. -/
def addPropertyLoop (tmp ALLDB : Nat) : Nat → Nat → List (Option Nat) → List (Option Nat)
  | 0, _, props => props
  | n + 1, i, props =>
    if i < ALLDB then
      addPropertyLoop tmp ALLDB n (i + 1)
        (if props[i]? = some none then props.set i (some tmp) else props)
    else props

/-- `PropertySchema::addProperty` (lines 83 to 110): create the new definition, then for
`dbType == ALLDB` run the loop from `SQLITE`, else set the slot of `dbType`. -/
def PropertySchema.addProperty (db : DbTypeValues) (s : PropertySchema) (propName : String)
    (dbType : Nat) (colName xmlName colType : String) (defaultValue : Option String)
    (colSize : Int) (constraint : String) : PropertySchema :=
  if dbType = db.ALLDB then
    ⟨s.objects ++ [⟨propName, colName, xmlName, constraint, colType, defaultValue, colSize,
        DbTableId.NOTABLE⟩],
      addPropertyLoop s.objects.length db.ALLDB (db.ALLDB - db.SQLITE) db.SQLITE s.m_properties⟩
  else
    ⟨s.objects ++ [⟨propName, colName, xmlName, constraint, colType, defaultValue, colSize,
        DbTableId.NOTABLE⟩],
      s.m_properties.set dbType (some s.objects.length)⟩

/-- The definition a slot points to: `m_properties[dbType]` dereferenced.  There is none for a
null slot. -/
def PropertySchema.definition (s : PropertySchema) (dbType : Nat) : Option dbProp :=
  match s.m_properties[dbType]? with
  | some (some address) => s.objects[address]?
  | _ => none

/-- `PropertySchema::colName(dbType)`: `return m_properties[dbType]->m_colName;`. -/
def PropertySchema.colName (s : PropertySchema) (dbType : Nat) : Option String :=
  (s.definition dbType).map dbProp.m_colName

/-- `PropertySchema::colType(dbType)`: `return m_properties[dbType]->m_colType;`. -/
def PropertySchema.colType (s : PropertySchema) (dbType : Nat) : Option String :=
  (s.definition dbType).map dbProp.m_colType

/-- `PropertySchema::defaultValue(dbType)`:
`return m_properties[dbType]->m_defaultValue;`. -/
def PropertySchema.defaultValue (s : PropertySchema) (dbType : Nat) : Option (Option String) :=
  (s.definition dbType).map dbProp.m_defaultValue

/-- `PropertySchema::fTable(dbType)`: `return m_properties[dbType]->m_ftable;`. -/
def PropertySchema.fTable (s : PropertySchema) (dbType : Nat) : Option DbTableId :=
  (s.definition dbType).map dbProp.m_ftable

/-! ## `Water`: comparison and assignment

`double` values are rationals here: the functions below only copy and compare them. -/

/-- What a `Water` has from its base classes, as far as `Water.cpp` reads it: the id
(`key()`), the name and the outline flag `m_outline`. -/
structure WaterBase where
  key : Int
  name : String
  m_outline : Bool
  deriving DecidableEq, Repr

/-- The member variables of `Water` that `Water.cpp` initialises, in the order of its
constructors, preceded by the base-class part. -/
structure Water where
  base : WaterBase
  m_calcium_ppm : ℚ
  m_bicarbonate_ppm : ℚ
  m_sulfate_ppm : ℚ
  m_chloride_ppm : ℚ
  m_sodium_ppm : ℚ
  m_magnesium_ppm : ℚ
  m_ph : ℚ
  m_alkalinity_ppm : ℚ
  m_notes : String
  m_type : Option WaterType
  m_mashRo_pct : ℚ
  m_spargeRo_pct : ℚ
  m_alkalinity_as_hco3 : Bool
  m_carbonate_ppm : Option ℚ
  m_potassium_ppm : Option ℚ
  m_iron_ppm : Option ℚ
  m_nitrate_ppm : Option ℚ
  m_nitrite_ppm : Option ℚ
  m_flouride_ppm : Option ℚ
  deriving DecidableEq, Repr

/-- `Water::isEqualTo` (lines 58 to 90): `outlinesAreEqual` is the conjunction of the twelve
ion comparisons; it is the result if either object is an outline, else the result also needs
`m_ph` and `m_notes` to be equal. -/
def Water.isEqualTo (self rhs : Water) : Bool :=
  let outlinesAreEqual : Bool :=
    decide (self.m_calcium_ppm = rhs.m_calcium_ppm) &&
    decide (self.m_bicarbonate_ppm = rhs.m_bicarbonate_ppm) &&
    decide (self.m_carbonate_ppm = rhs.m_carbonate_ppm) &&
    decide (self.m_potassium_ppm = rhs.m_potassium_ppm) &&
    decide (self.m_iron_ppm = rhs.m_iron_ppm) &&
    decide (self.m_nitrate_ppm = rhs.m_nitrate_ppm) &&
    decide (self.m_nitrite_ppm = rhs.m_nitrite_ppm) &&
    decide (self.m_flouride_ppm = rhs.m_flouride_ppm) &&
    decide (self.m_sulfate_ppm = rhs.m_sulfate_ppm) &&
    decide (self.m_chloride_ppm = rhs.m_chloride_ppm) &&
    decide (self.m_sodium_ppm = rhs.m_sodium_ppm) &&
    decide (self.m_magnesium_ppm = rhs.m_magnesium_ppm)
  if self.base.m_outline || rhs.base.m_outline then
    outlinesAreEqual
  else
    outlinesAreEqual && decide (self.m_ph = rhs.m_ph) && decide (self.m_notes = rhs.m_notes)

/-- The twelve ion concentration fields of a `Water`, in the order `isEqualTo` compares
them. -/
def Water.ions (w : Water) :
    ℚ × ℚ × Option ℚ × Option ℚ × Option ℚ × Option ℚ × Option ℚ × Option ℚ × ℚ × ℚ × ℚ × ℚ :=
  (w.m_calcium_ppm, w.m_bicarbonate_ppm, w.m_carbonate_ppm, w.m_potassium_ppm, w.m_iron_ppm, w.m_nitrate_ppm, w.m_nitrite_ppm, w.m_flouride_ppm, w.m_sulfate_ppm, w.m_chloride_ppm, w.m_sodium_ppm, w.m_magnesium_ppm)

/-- `Water::Water(Water const & other)` (lines 181 to 206): the base-class part is made by
the copy constructors of the base classes (`copyBase`, not among the sources), every member
is copied. -/
def Water.copy (copyBase : WaterBase → WaterBase) (other : Water) : Water :=
  ⟨copyBase other.base, other.m_calcium_ppm, other.m_bicarbonate_ppm, other.m_sulfate_ppm, other.m_chloride_ppm, other.m_sodium_ppm, other.m_magnesium_ppm, other.m_ph, other.m_alkalinity_ppm, other.m_notes, other.m_type, other.m_mashRo_pct, other.m_spargeRo_pct, other.m_alkalinity_as_hco3, other.m_carbonate_ppm, other.m_potassium_ppm, other.m_iron_ppm, other.m_nitrate_ppm, other.m_nitrite_ppm, other.m_flouride_ppm⟩

/-- `Water::swap` (lines 208 to 232): `NamedEntity::swap` on the base-class part (`swapBase`,
not among the sources), then `std::swap` on every member.  The result is the pair of the two
objects after the swap. -/
def Water.swap (swapBase : WaterBase → WaterBase → WaterBase × WaterBase)
    (self other : Water) : Water × Water :=
  (⟨(swapBase self.base other.base).1, other.m_calcium_ppm, other.m_bicarbonate_ppm, other.m_sulfate_ppm, other.m_chloride_ppm, other.m_sodium_ppm, other.m_magnesium_ppm, other.m_ph, other.m_alkalinity_ppm, other.m_notes, other.m_type, other.m_mashRo_pct, other.m_spargeRo_pct, other.m_alkalinity_as_hco3, other.m_carbonate_ppm, other.m_potassium_ppm, other.m_iron_ppm, other.m_nitrate_ppm, other.m_nitrite_ppm, other.m_flouride_ppm⟩,
   ⟨(swapBase self.base other.base).2, self.m_calcium_ppm, self.m_bicarbonate_ppm, self.m_sulfate_ppm, self.m_chloride_ppm, self.m_sodium_ppm, self.m_magnesium_ppm, self.m_ph, self.m_alkalinity_ppm, self.m_notes, self.m_type, self.m_mashRo_pct, self.m_spargeRo_pct, self.m_alkalinity_as_hco3, self.m_carbonate_ppm, self.m_potassium_ppm, self.m_iron_ppm, self.m_nitrate_ppm, self.m_nitrite_ppm, self.m_flouride_ppm⟩)

/-- What `Water::operator=` does besides changing the object: whether it called
`ObjectStoreWrapper::update(*this)`, and the properties it passed to
`propagatePropertyChange`, in order. -/
structure AssignmentEffects where
  dbUpdate : Bool
  notifications : List String
  deriving DecidableEq, Repr

/-- The statement `if (changed) { this->propagatePropertyChange(name); }`. -/
def notifyIf (changed : Bool) (name : String) : List String :=
  if changed then [name] else []

/-- `Water::operator=(Water other)` (lines 242 to 285): `other` is a copy of the right-hand
side; swap with it; update the database if `key() > 0`; then one `propagatePropertyChange`
for each member that differs between `this` and `other` after the swap.  The result is the
object assigned to and what was done. -/
def Water.assign (copyBase : WaterBase → WaterBase)
    (swapBase : WaterBase → WaterBase → WaterBase × WaterBase) (self rhs : Water) :
    Water × AssignmentEffects :=
  let swapped := Water.swap swapBase self (Water.copy copyBase rhs)
  (swapped.1,
   ⟨decide (0 < swapped.1.base.key),
    notifyIf (decide (swapped.1.m_calcium_ppm ≠ swapped.2.m_calcium_ppm)) "PropertyNames::Water::calcium_ppm" ++
    notifyIf (decide (swapped.1.m_bicarbonate_ppm ≠ swapped.2.m_bicarbonate_ppm)) "PropertyNames::Water::bicarbonate_ppm" ++
    notifyIf (decide (swapped.1.m_sulfate_ppm ≠ swapped.2.m_sulfate_ppm)) "PropertyNames::Water::sulfate_ppm" ++
    notifyIf (decide (swapped.1.m_chloride_ppm ≠ swapped.2.m_chloride_ppm)) "PropertyNames::Water::chloride_ppm" ++
    notifyIf (decide (swapped.1.m_sodium_ppm ≠ swapped.2.m_sodium_ppm)) "PropertyNames::Water::sodium_ppm" ++
    notifyIf (decide (swapped.1.m_magnesium_ppm ≠ swapped.2.m_magnesium_ppm)) "PropertyNames::Water::magnesium_ppm" ++
    notifyIf (decide (swapped.1.m_ph ≠ swapped.2.m_ph)) "PropertyNames::Water::ph" ++
    notifyIf (decide (swapped.1.m_alkalinity_ppm ≠ swapped.2.m_alkalinity_ppm)) "PropertyNames::Water::alkalinity_ppm" ++
    notifyIf (decide (swapped.1.m_notes ≠ swapped.2.m_notes)) "PropertyNames::Water::notes" ++
    notifyIf (decide (swapped.1.m_type ≠ swapped.2.m_type)) "PropertyNames::Water::type" ++
    notifyIf (decide (swapped.1.m_mashRo_pct ≠ swapped.2.m_mashRo_pct)) "PropertyNames::Water::mashRo_pct" ++
    notifyIf (decide (swapped.1.m_spargeRo_pct ≠ swapped.2.m_spargeRo_pct)) "PropertyNames::Water::spargeRo_pct" ++
    notifyIf (decide (swapped.1.m_alkalinity_as_hco3 ≠ swapped.2.m_alkalinity_as_hco3)) "PropertyNames::Water::alkalinityAsHCO3" ++
    notifyIf (decide (swapped.1.m_carbonate_ppm ≠ swapped.2.m_carbonate_ppm)) "PropertyNames::Water::carbonate_ppm" ++
    notifyIf (decide (swapped.1.m_potassium_ppm ≠ swapped.2.m_potassium_ppm)) "PropertyNames::Water::potassium_ppm" ++
    notifyIf (decide (swapped.1.m_iron_ppm ≠ swapped.2.m_iron_ppm)) "PropertyNames::Water::iron_ppm" ++
    notifyIf (decide (swapped.1.m_nitrate_ppm ≠ swapped.2.m_nitrate_ppm)) "PropertyNames::Water::nitrate_ppm" ++
    notifyIf (decide (swapped.1.m_nitrite_ppm ≠ swapped.2.m_nitrite_ppm)) "PropertyNames::Water::nitrite_ppm" ++
    notifyIf (decide (swapped.1.m_flouride_ppm ≠ swapped.2.m_flouride_ppm)) "PropertyNames::Water::flouride_ppm"⟩)

/-- The property names of the nineteen members `Water::operator=` looks at. -/
def Water.assignedProperties : List String :=
  ["PropertyNames::Water::calcium_ppm", "PropertyNames::Water::bicarbonate_ppm",
   "PropertyNames::Water::sulfate_ppm", "PropertyNames::Water::chloride_ppm",
   "PropertyNames::Water::sodium_ppm", "PropertyNames::Water::magnesium_ppm",
   "PropertyNames::Water::ph", "PropertyNames::Water::alkalinity_ppm",
   "PropertyNames::Water::notes", "PropertyNames::Water::type",
   "PropertyNames::Water::mashRo_pct", "PropertyNames::Water::spargeRo_pct",
   "PropertyNames::Water::alkalinityAsHCO3", "PropertyNames::Water::carbonate_ppm",
   "PropertyNames::Water::potassium_ppm", "PropertyNames::Water::iron_ppm",
   "PropertyNames::Water::nitrate_ppm", "PropertyNames::Water::nitrite_ppm",
   "PropertyNames::Water::flouride_ppm"]

/-- Three waters with the same ion concentrations: `sampleWaterA` and `sampleWaterC` are not
outlines and differ in `m_ph`, `sampleWaterB` is an outline. -/
def sampleWaterA : Water :=
  ⟨⟨1, "a", false⟩, 10, 20, 30, 40, 50, 60, 7, 0, "", none, 0, 0, true,
    none, none, none, none, none, none⟩

/-- See `sampleWaterA`. -/
def sampleWaterB : Water :=
  ⟨⟨2, "a", true⟩, 10, 20, 30, 40, 50, 60, 0, 0, "", none, 0, 0, true,
    none, none, none, none, none, none⟩

/-- See `sampleWaterA`. -/
def sampleWaterC : Water :=
  ⟨⟨3, "a", false⟩, 10, 20, 30, 40, 50, 60, 8, 0, "", none, 0, 0, true,
    none, none, none, none, none, none⟩


/-! ## Theorems -/

theorem callUntilFailure_calls (call : EntityType → Bool) (stores : List EntityType) :
    (callUntilFailure call stores).2 = throughFirstFailure call stores := by
  induction stores with
  | nil => simp [callUntilFailure, throughFirstFailure]
  | cons ii rest ih =>
    unfold callUntilFailure
    by_cases h : call ii = true
    · simp [h, ih, throughFirstFailure]
    · simp [h, throughFirstFailure]

theorem callUntilFailure_result (call : EntityType → Bool) (stores : List EntityType) :
    (callUntilFailure call stores).1 = true ↔ ∀ s ∈ stores, call s = true := by
  induction stores with
  | nil => simp [callUntilFailure]
  | cons ii rest ih =>
    unfold callUntilFailure
    by_cases h : call ii = true
    · simp [h, ih]
    · simp [h]

theorem throughFirstFailure_of_all (call : EntityType → Bool) (stores : List EntityType)
    (h : ∀ s ∈ stores, call s = true) : throughFirstFailure call stores = stores := by
  induction stores with
  | nil => simp [throughFirstFailure]
  | cons ii rest ih =>
    have h1 : call ii = true := h ii (by simp)
    have h2 := ih (fun s hs => h s (by simp [hs]))
    simp only [throughFirstFailure] at h2 ⊢
    simp [h1, h2]

theorem throughFirstFailure_initial (call : EntityType → Bool) (stores : List EntityType) :
    throughFirstFailure call stores <+: stores := by
  induction stores with
  | nil => simp [throughFirstFailure]
  | cons ii rest ih =>
    by_cases h : call ii = true
    · simp only [throughFirstFailure] at ih ⊢
      simpa [h] using ih
    · simp [throughFirstFailure, h]

theorem throughFirstFailure_of_failure (call : EntityType → Bool) (pre post : List EntityType)
    (s : EntityType) (hs : call s = false) :
    throughFirstFailure call (pre ++ s :: post) <+: pre ++ [s] := by
  induction pre with
  | nil => simp [throughFirstFailure, hs]
  | cons ii rest ih =>
    by_cases h : call ii = true
    · simp only [throughFirstFailure] at ih ⊢
      simpa [h] using ih
    · simp [throughFirstFailure, h]

theorem TargetDb_run_writes (durable pending stores : List EntityType) :
    TargetDb.run ⟨durable, pending⟩ (stores.map DbEvent.writeAllToNewDb)
      = ⟨durable, pending ++ stores⟩ := by
  induction stores generalizing pending with
  | nil => simp [TargetDb.run]
  | cons s rest ih =>
    have := ih (pending ++ [s])
    simp only [TargetDb.run] at this
    simp [TargetDb.run, TargetDb.apply, this]

theorem AllObjectStores_nodup : AllObjectStores.Nodup := by decide

theorem mem_AllObjectStores (T : EntityType) : T ∈ AllObjectStores := by
  cases T <;> decide

theorem writtenStore_events (stores : List EntityType) :
    (stores.map DbEvent.writeAllToNewDb).filterMap DbEvent.writtenStore = stores := by
  induction stores with
  | nil => rfl
  | cons s rest ih => simp [DbEvent.writtenStore, List.filterMap_cons, ih]

/-- C1: `WriteAllObjectStoresToNewDb` is all-or-nothing.  For every outcome of the per-store
`writeAllToNewDb` calls: the function commits exactly when every store reported success, and
returns `true` exactly then; the stores written are those up to and including the first
failing one, so once a store has failed no later store of the registry is written; and when
the function returns `false` there is no commit, the run ends with the rollback of the scoped
transaction, and a target database holding `durable` before the run holds exactly `durable`
after it (when it returns `true` the target holds in addition every store of the registry). -/
theorem WriteAllObjectStoresToNewDb_all_or_nothing (writeAllToNewDb : EntityType → Bool)
    (durable : List EntityType) :
    (DbEvent.commit ∈ (WriteAllObjectStoresToNewDb writeAllToNewDb).events
        ↔ ∀ s ∈ AllObjectStores, writeAllToNewDb s = true) ∧
    ((WriteAllObjectStoresToNewDb writeAllToNewDb).result = true
        ↔ ∀ s ∈ AllObjectStores, writeAllToNewDb s = true) ∧
    ((WriteAllObjectStoresToNewDb writeAllToNewDb).events.filterMap DbEvent.writtenStore
        = throughFirstFailure writeAllToNewDb AllObjectStores) ∧
    (∀ pre s post, AllObjectStores = pre ++ s :: post → writeAllToNewDb s = false →
        (WriteAllObjectStoresToNewDb writeAllToNewDb).result = false ∧
        ∀ t ∈ post, DbEvent.writeAllToNewDb t
          ∉ (WriteAllObjectStoresToNewDb writeAllToNewDb).events) ∧
    (((WriteAllObjectStoresToNewDb writeAllToNewDb).result = true ∧
        TargetDb.run ⟨durable, []⟩ (WriteAllObjectStoresToNewDb writeAllToNewDb).events
          = ⟨durable ++ AllObjectStores, []⟩) ∨
     ((WriteAllObjectStoresToNewDb writeAllToNewDb).result = false ∧
        DbEvent.commit ∉ (WriteAllObjectStoresToNewDb writeAllToNewDb).events ∧
        (WriteAllObjectStoresToNewDb writeAllToNewDb).events.getLast? = some DbEvent.rollback ∧
        TargetDb.run ⟨durable, []⟩ (WriteAllObjectStoresToNewDb writeAllToNewDb).events
          = ⟨durable, []⟩)) := by
  have hres := callUntilFailure_result writeAllToNewDb AllObjectStores
  have hcalls := callUntilFailure_calls writeAllToNewDb AllObjectStores
  by_cases hall : ∀ s ∈ AllObjectStores, writeAllToNewDb s = true
  · have h1 : (callUntilFailure writeAllToNewDb AllObjectStores).1 = true := hres.mpr hall
    have h2 : (callUntilFailure writeAllToNewDb AllObjectStores).2 = AllObjectStores := by
      rw [hcalls]; exact throughFirstFailure_of_all _ _ hall
    have hev : WriteAllObjectStoresToNewDb writeAllToNewDb
        = ⟨true, DbEvent.beginTransaction true :: AllObjectStores.map DbEvent.writeAllToNewDb
              ++ [DbEvent.commit]⟩ := by
      simp [WriteAllObjectStoresToNewDb, h1, h2, DbTransaction.onScopeExit]
    rw [hev]
    refine ⟨?_, ?_, ?_, ?_, ?_⟩
    · exact ⟨fun _ => hall, fun _ => by simp⟩
    · exact ⟨fun _ => hall, fun _ => rfl⟩
    · simp only [List.cons_append, List.filterMap_cons, List.filterMap_append,
        DbEvent.writtenStore, writtenStore_events]
      simp [throughFirstFailure_of_all _ _ hall]
    · intro pre s post hsplit hs
      have := hall s (by rw [hsplit]; simp)
      simp [hs] at this
    · left
      refine ⟨rfl, ?_⟩
      have := TargetDb_run_writes durable [] AllObjectStores
      simp only [TargetDb.run] at this
      simp [TargetDb.run, TargetDb.apply, List.foldl_append, this]
  · have h1 : (callUntilFailure writeAllToNewDb AllObjectStores).1 = false := by
      cases h : (callUntilFailure writeAllToNewDb AllObjectStores).1
      · rfl
      · exact absurd (hres.mp h) hall
    have hev : WriteAllObjectStoresToNewDb writeAllToNewDb
        = ⟨false, DbEvent.beginTransaction true ::
              (throughFirstFailure writeAllToNewDb AllObjectStores).map DbEvent.writeAllToNewDb
              ++ [DbEvent.rollback]⟩ := by
      simp [WriteAllObjectStoresToNewDb, h1, hcalls, DbTransaction.onScopeExit]
    rw [hev]
    refine ⟨?_, ?_, ?_, ?_, ?_⟩
    · simp [hall]
    · simp [hall]
    · simp only [List.cons_append, List.filterMap_cons, List.filterMap_append,
        DbEvent.writtenStore, writtenStore_events]
      simp
    · intro pre s post hsplit hs
      refine ⟨rfl, ?_⟩
      intro t ht hmem
      have hpre := throughFirstFailure_of_failure writeAllToNewDb pre post s hs
      rw [← hsplit] at hpre
      have ht' : t ∈ throughFirstFailure writeAllToNewDb AllObjectStores := by
        simpa using hmem
      have ht'' : t ∈ pre ++ [s] := hpre.subset ht'
      have hnd := AllObjectStores_nodup
      rw [hsplit] at hnd
      have hdisj : t ∉ pre ++ [s] := by
        intro hin
        rw [show pre ++ s :: post = (pre ++ [s]) ++ post by simp] at hnd
        exact (List.nodup_append.mp hnd).2.2 hin ht
      exact hdisj ht''
    · right
      refine ⟨rfl, by simp, ?_, ?_⟩
      · exact List.getLast?_concat _
      have := TargetDb_run_writes durable []
        (throughFirstFailure writeAllToNewDb AllObjectStores)
      simp only [TargetDb.run] at this
      simp [TargetDb.run, TargetDb.apply, List.foldl_append, this]

theorem CreateAllDatabaseTables_calls (createTables addTableConstraints : EntityType → Bool) :
    (CreateAllDatabaseTables createTables addTableConstraints).calls =
      if (∀ s ∈ AllObjectStores, createTables s = true) then
        AllObjectStores.map StoreCall.createTables ++
          (throughFirstFailure addTableConstraints AllObjectStores).map
            StoreCall.addTableConstraints
      else
        (throughFirstFailure createTables AllObjectStores).map StoreCall.createTables := by
  have hres := callUntilFailure_result createTables AllObjectStores
  have hcalls := callUntilFailure_calls createTables AllObjectStores
  have hcalls2 := callUntilFailure_calls addTableConstraints AllObjectStores
  by_cases hall : ∀ s ∈ AllObjectStores, createTables s = true
  · have h1 : (callUntilFailure createTables AllObjectStores).1 = true := hres.mpr hall
    have h2 : (callUntilFailure createTables AllObjectStores).2 = AllObjectStores := by
      rw [hcalls]; exact throughFirstFailure_of_all _ _ hall
    rw [if_pos hall]
    unfold CreateAllDatabaseTables
    simp only [h1, h2, hcalls2, Bool.not_true, Bool.false_eq_true, if_false]
    split <;> rfl
  · have h1 : (callUntilFailure createTables AllObjectStores).1 = false := by
      cases h : (callUntilFailure createTables AllObjectStores).1
      · rfl
      · exact absurd (hres.mp h) hall
    rw [if_neg hall]
    unfold CreateAllDatabaseTables
    simp [h1, hcalls]

/-- C2: `CreateAllDatabaseTables` works in two passes over the same registry order.  In every
run the calls made are `createTables` on a prefix of `AllObjectStores` (in that order)
followed by `addTableConstraints` on a prefix of `AllObjectStores` (in that order), and the
second prefix is non-empty only when the first is the whole registry and `createTables`
succeeded on every store. -/
theorem CreateAllDatabaseTables_two_passes
    (createTables addTableConstraints : EntityType → Bool) :
    ∃ created constrained : List EntityType,
      created <+: AllObjectStores ∧ constrained <+: AllObjectStores ∧
      (CreateAllDatabaseTables createTables addTableConstraints).calls
        = created.map StoreCall.createTables
            ++ constrained.map StoreCall.addTableConstraints ∧
      (constrained = [] ∨
        (created = AllObjectStores ∧ ∀ s ∈ AllObjectStores, createTables s = true)) := by
  rw [CreateAllDatabaseTables_calls]
  by_cases hall : ∀ s ∈ AllObjectStores, createTables s = true
  · refine ⟨AllObjectStores, throughFirstFailure addTableConstraints AllObjectStores,
      List.prefix_refl _, throughFirstFailure_initial _ _, ?_, Or.inr ⟨rfl, hall⟩⟩
    rw [if_pos hall]
  · refine ⟨throughFirstFailure createTables AllObjectStores, [],
      throughFirstFailure_initial _ _, List.nil_prefix, ?_, Or.inl rfl⟩
    rw [if_neg hall]
    simp

/-- C3 (as stated, refuted): the registry order is not a topological sort of the foreign-key
dependencies.  `PRIMARY_TABLE<BrewNote>` has a foreign key to `PRIMARY_TABLE<Recipe>`, yet
the BrewNote store is first in `AllObjectStores` (index 0) and the Recipe store is at
index 12. -/
theorem registry_order_not_topological :
    EntityType.Recipe ∈ storeForeignKeys EntityType.BrewNote ∧
    EntityType.Recipe ≠ EntityType.BrewNote ∧
    registryIndex EntityType.BrewNote = 0 ∧
    registryIndex EntityType.Recipe = 12 ∧
    ¬ (registryIndex EntityType.Recipe < registryIndex EntityType.BrewNote) := by
  decide

theorem storeForeignKeys_defined_earlier (T U : EntityType) (hU : U ∈ storeForeignKeys T)
    (hne : U ≠ T) : definitionIndex U < definitionIndex T := by
  revert hU hne
  cases T <;> cases U <;> decide

theorem createTables_before_addTableConstraints
    (createTables addTableConstraints : EntityType → Bool) (T U : EntityType) (i : Nat)
    (hi : (CreateAllDatabaseTables createTables addTableConstraints).calls[i]?
            = some (StoreCall.addTableConstraints T)) :
    ∃ j, j < i ∧
      (CreateAllDatabaseTables createTables addTableConstraints).calls[j]?
        = some (StoreCall.createTables U) ∧
      createTables U = true := by
  have hUmem : U ∈ AllObjectStores := mem_AllObjectStores U
  rw [CreateAllDatabaseTables_calls] at hi ⊢
  by_cases hall : ∀ s ∈ AllObjectStores, createTables s = true
  · rw [if_pos hall] at hi ⊢
    have hlen : (AllObjectStores.map StoreCall.createTables).length ≤ i := by
      by_contra hlt
      push_neg at hlt
      rw [List.getElem?_append_left hlt] at hi
      rw [List.getElem?_map] at hi
      cases h : AllObjectStores[i]? with
      | none => simp [h] at hi
      | some x => simp [h] at hi
    obtain ⟨j, hj⟩ := List.getElem?_of_mem hUmem
    have hjlt : j < AllObjectStores.length := by
      by_contra hge
      push_neg at hge
      rw [List.getElem?_eq_none hge] at hj
      exact Option.noConfusion hj
    refine ⟨j, ?_, ?_, hall U hUmem⟩
    · have : j < (AllObjectStores.map StoreCall.createTables).length := by simpa using hjlt
      omega
    · rw [List.getElem?_append_left (by simpa using hjlt), List.getElem?_map, hj]
      rfl
  · rw [if_neg hall] at hi
    rw [List.getElem?_map] at hi
    cases h : (throughFirstFailure createTables AllObjectStores)[i]? with
    | none => simp [h] at hi
    | some x => simp [h] at hi

/-- C3 (amended): it is the order of the table definitions in the file, not the registry
order, that is a topological sort of the foreign-key dependencies, and table creation does not
depend on the registry order.  For every foreign-key column in the primary or junction tables
of a store `T` that references the primary table of a type `U`: if `U` is another type, then
`PRIMARY_TABLE<U>` is defined earlier in the file than `PRIMARY_TABLE<T>`; `U` has a store in
`AllObjectStores`; and in every run of `CreateAllDatabaseTables`, whenever
`addTableConstraints` is called on the store of `T` (as the `i`-th call), `createTables` was
called earlier in that run, successfully, on the store of `U`. -/
theorem referenced_table_created_before_constraint
    (createTables addTableConstraints : EntityType → Bool) (T U : EntityType)
    (hU : U ∈ storeForeignKeys T) :
    (U ≠ T → definitionIndex U < definitionIndex T) ∧
    U ∈ AllObjectStores ∧
    ∀ i : Nat, (CreateAllDatabaseTables createTables addTableConstraints).calls[i]?
            = some (StoreCall.addTableConstraints T) →
      ∃ j : Nat, j < i ∧
        (CreateAllDatabaseTables createTables addTableConstraints).calls[j]?
          = some (StoreCall.createTables U) ∧
        createTables U = true :=
  ⟨storeForeignKeys_defined_earlier T U hU, mem_AllObjectStores U,
   fun i hi => createTables_before_addTableConstraints createTables addTableConstraints T U i hi⟩

theorem referenced_table_created_before_constraint_witness :
    (EntityType.Recipe ≠ EntityType.BrewNote →
      definitionIndex EntityType.Recipe < definitionIndex EntityType.BrewNote) ∧
    EntityType.Recipe ∈ AllObjectStores ∧
    ∀ i : Nat, (CreateAllDatabaseTables (fun _ => true) (fun _ => true)).calls[i]?
            = some (StoreCall.addTableConstraints EntityType.BrewNote) →
      ∃ j : Nat, j < i ∧
        (CreateAllDatabaseTables (fun _ => true) (fun _ => true)).calls[j]?
          = some (StoreCall.createTables EntityType.Recipe) ∧
        (fun _ => true) EntityType.Recipe = true :=
  referenced_table_created_before_constraint (fun _ => true) (fun _ => true)
    EntityType.BrewNote EntityType.Recipe (by decide)

/-- C4 (as stated, refuted): `PRIMARY_TABLE<Recipe>` has the column `ancestor_id`, a foreign
key to `PRIMARY_TABLE<Recipe>` itself, so Recipe reaches itself along one edge. -/
theorem recipe_references_itself :
    Relation.TransGen primaryTableReferences EntityType.Recipe EntityType.Recipe :=
  Relation.TransGen.single (by decide)

theorem referencesOther_definitionIndex (T U : EntityType) (h : referencesOther T U) :
    definitionIndex U < definitionIndex T := by
  revert h
  cases T <;> cases U <;> decide

theorem transGen_referencesOther_definitionIndex (T U : EntityType)
    (h : Relation.TransGen referencesOther T U) :
    definitionIndex U < definitionIndex T := by
  induction h with
  | single h => exact referencesOther_definitionIndex _ _ h
  | tail _ h ih => exact lt_trans (referencesOther_definitionIndex _ _ h) ih

/-- C4 (amended): apart from the reference of Recipe to itself (`ancestor_id`), the
foreign-key graph on primary tables is acyclic.  Recipe is the only entity type whose primary
table references itself, and along edges between distinct types no entity type can reach
itself. -/
theorem foreign_key_graph_acyclic_apart_from_recipe :
    (∀ T : EntityType, primaryTableReferences T T ↔ T = EntityType.Recipe) ∧
    (∀ T : EntityType, ¬ Relation.TransGen referencesOther T T) := by
  refine ⟨?_, ?_⟩
  · intro T
    cases T <;> decide
  · intro T h
    exact lt_irrefl _ (transGen_referencesOther_definitionIndex T T h)

/-- C5: the registry holds every typed store exactly once.  `AllObjectStores` has 17 entries,
pairwise distinct; an entity type is in it exactly when it has a `PRIMARY_TABLE`
specialisation, exactly when it has a `JUNCTION_TABLES` specialisation, and exactly when
`getInstance()` is explicitly instantiated for it; and none of those three lists names a
type twice. -/
theorem AllObjectStores_every_store_once :
    AllObjectStores.Nodup ∧ AllObjectStores.length = 17 ∧
    (∀ T : EntityType, T ∈ AllObjectStores ↔ T ∈ primaryTableSpecialisations) ∧
    (∀ T : EntityType, T ∈ AllObjectStores ↔ T ∈ junctionTablesSpecialisations) ∧
    (∀ T : EntityType, T ∈ AllObjectStores ↔ T ∈ getInstanceInstantiations) ∧
    primaryTableSpecialisations.Nodup ∧ junctionTablesSpecialisations.Nodup ∧
    getInstanceInstantiations.Nodup := by
  refine ⟨by decide, by decide, ?_, ?_, ?_, by decide, by decide, by decide⟩
  · intro T; cases T <;> decide
  · intro T; cases T <;> decide
  · intro T; cases T <;> decide

theorem getInstance_of_initFlag (g : Singleton) (h : g.initFlag = true) : getInstance g = g := by
  simp [getInstance, h]

theorem getInstance_initFlag (g : Singleton) : (getInstance g).initFlag = true := by
  unfold getInstance
  by_cases h : g.initFlag = true
  · simp [h]
  · simp [h]

theorem loadAllCallsAfterEach_of_initFlag (fs : List (ObjectStoreTyped → ObjectStoreTyped))
    (g : Singleton) (h : g.initFlag = true) :
    loadAllCallsAfterEach fs g = List.replicate fs.length g.loadAllCalls := by
  induction fs generalizing g with
  | nil => rfl
  | cons f rest ih =>
    simp only [loadAllCallsAfterEach, getInstance_of_initFlag g h, List.length_cons,
      List.replicate_succ]
    rw [ih ⟨g.initFlag, g.loadAllCalls, f g.store⟩ h]

theorem storesReturned_of_initFlag (fs : List (ObjectStoreTyped → ObjectStoreTyped))
    (g : Singleton) (h : g.initFlag = true) :
    storesReturned fs g = statesFound fs g.store := by
  induction fs generalizing g with
  | nil => rfl
  | cons f rest ih =>
    simp only [storesReturned, statesFound, getInstance_of_initFlag g h]
    rw [ih ⟨g.initFlag, g.loadAllCalls, f g.store⟩ h]

theorem useSingleton_of_initFlag (fs : List (ObjectStoreTyped → ObjectStoreTyped))
    (g : Singleton) (h : g.initFlag = true) :
    (useSingleton fs g).loadAllCalls = g.loadAllCalls ∧ (useSingleton fs g).initFlag = true := by
  induction fs generalizing g with
  | nil => exact ⟨rfl, h⟩
  | cons f rest ih =>
    simp only [useSingleton, getInstance_of_initFlag g h]
    exact ih ⟨g.initFlag, g.loadAllCalls, f g.store⟩ h

/-- C6: in any sequence of calls of `getInstance()` for one entity type, whatever the callers
do to the store between the calls, `loadAll()` is invoked exactly once, during the first call
and never again (the count of `loadAll` invocations is 1 right after the first call and
after every later call, and 1 at the end), and every call hands out the one singleton store:
the first call the store as `loadAll` filled it, each later call that same store in the state
the earlier callers left it, never reloaded. -/
theorem getInstance_loadAll_exactly_once (store : ObjectStoreTyped)
    (f : ObjectStoreTyped → ObjectStoreTyped)
    (fs : List (ObjectStoreTyped → ObjectStoreTyped)) :
    (getInstance (Singleton.initial store)).loadAllCalls = 1 ∧
    loadAllCallsAfterEach (f :: fs) (Singleton.initial store)
      = List.replicate (f :: fs).length 1 ∧
    (useSingleton (f :: fs) (Singleton.initial store)).loadAllCalls = 1 ∧
    storesReturned (f :: fs) (Singleton.initial store)
      = statesFound (f :: fs) store.loadAll := by
  have h0 : getInstance (Singleton.initial store) = ⟨true, 1, store.loadAll⟩ := by
    simp [getInstance, Singleton.initial]
  refine ⟨by rw [h0], ?_, ?_, ?_⟩
  · simp only [loadAllCallsAfterEach, h0, List.length_cons, List.replicate_succ]
    rw [loadAllCallsAfterEach_of_initFlag fs ⟨true, 1, f store.loadAll⟩ rfl]
  · simp only [useSingleton, h0]
    exact (useSingleton_of_initFlag fs ⟨true, 1, f store.loadAll⟩ rfl).1
  · simp only [storesReturned, statesFound, h0]
    rw [storesReturned_of_initFlag fs ⟨true, 1, f store.loadAll⟩ rfl]

/-! ### The typed store -/

theorem wellFormed_loadAll (s : ObjectStoreTyped) (h : s.WellFormed) : s.loadAll.WellFormed := by
  obtain ⟨h0, _, hr, hd, _, hrn, _, hrd⟩ := h
  exact ⟨h0, hr, hr, hd, hrn, hrn, hrd, hrd⟩

theorem wellFormed_getInstance (g : Singleton) (h : g.store.WellFormed) :
    (getInstance g).store.WellFormed := by
  unfold getInstance
  by_cases hf : g.initFlag = true
  · simpa [hf] using h
  · simpa [hf] using wellFormed_loadAll _ h

theorem getInstance_rows (g : Singleton) : (getInstance g).store.rows = g.store.rows := by
  unfold getInstance
  by_cases hf : g.initFlag = true
  · simp [hf]
  · simp [hf, ObjectStoreTyped.loadAll]

theorem getInstance_hardDeleted (g : Singleton) :
    (getInstance g).store.hardDeleted = g.store.hardDeleted := by
  unfold getInstance
  by_cases hf : g.initFlag = true
  · simp [hf]
  · simp [hf, ObjectStoreTyped.loadAll]

theorem getInstance_lastId (g : Singleton) : (getInstance g).store.lastId = g.store.lastId := by
  unfold getInstance
  by_cases hf : g.initFlag = true
  · simp [hf]
  · simp [hf, ObjectStoreTyped.loadAll]

theorem find?_key_eq_none (l : List Entity) (id : Int) (h : ∀ e ∈ l, e.key ≠ id) :
    l.find? (fun e => decide (e.key = id)) = none := by
  rw [List.find?_eq_none]
  intro e he
  simpa using h e he

theorem keys_nodup_append_fresh (l : List Entity) (e : Entity)
    (hn : (l.map Entity.key).Nodup) (hf : ∀ x ∈ l, x.key ≠ e.key) :
    ((l ++ [e]).map Entity.key).Nodup := by
  rw [List.map_append, List.nodup_append]
  refine ⟨hn, by simp, ?_⟩
  intro a ha hb
  simp only [List.map_cons, List.map_nil, List.mem_singleton] at hb
  obtain ⟨x, hx, rfl⟩ := List.mem_map.mp ha
  exact hf x hx hb

theorem store_insert_fresh (s : ObjectStoreTyped) (e : Entity) (hwf : s.WellFormed)
    (hkey : e.key ≤ 0) :
    s.insert e = .ok (⟨s.cache ++ [e.withKey (s.lastId + 1)],
        s.rows ++ [e.withKey (s.lastId + 1)], s.lastId + 1, s.hardDeleted⟩,
        e.withKey (s.lastId + 1)) ∧
    0 < s.lastId + 1 ∧
    (∀ x ∈ s.cache, x.key ≠ s.lastId + 1) ∧
    (∀ x ∈ s.rows, x.key ≠ s.lastId + 1) ∧
    s.lastId + 1 ∉ s.hardDeleted ∧
    ObjectStoreTyped.WellFormed ⟨s.cache ++ [e.withKey (s.lastId + 1)],
        s.rows ++ [e.withKey (s.lastId + 1)], s.lastId + 1, s.hardDeleted⟩ := by
  obtain ⟨h0, hc, hr, hd, hcn, hrn, hcd, hrd⟩ := hwf
  have hcf : ∀ x ∈ s.cache, x.key ≠ s.lastId + 1 := fun x hx => by
    have := (hc x hx).2; omega
  have hrf : ∀ x ∈ s.rows, x.key ≠ s.lastId + 1 := fun x hx => by
    have := (hr x hx).2; omega
  have hdf : s.lastId + 1 ∉ s.hardDeleted := fun hin => by
    have := (hd _ hin).2; omega
  refine ⟨?_, by omega, hcf, hrf, hdf, ?_⟩
  · have : ¬ 0 < e.key := by omega
    simp [ObjectStoreTyped.insert, this]
  · refine ⟨by simp only; omega, ?_, ?_, ?_, ?_, ?_, ?_, ?_⟩
    · intro x hx
      simp only [List.mem_append, List.mem_singleton] at hx
      rcases hx with hx | rfl
      · have := hc x hx
        simp only; omega
      · simp only [Entity.withKey]; omega
    · intro x hx
      simp only [List.mem_append, List.mem_singleton] at hx
      rcases hx with hx | rfl
      · have := hr x hx
        simp only; omega
      · simp only [Entity.withKey]; omega
    · intro id hid
      have := hd id hid
      simp only; omega
    · exact keys_nodup_append_fresh _ _ hcn hcf
    · exact keys_nodup_append_fresh _ _ hrn hrf
    · intro x hx
      simp only [List.mem_append, List.mem_singleton] at hx
      rcases hx with hx | rfl
      · exact hcd x hx
      · exact hdf
    · intro x hx
      simp only [List.mem_append, List.mem_singleton] at hx
      rcases hx with hx | rfl
      · exact hrd x hx
      · exact hdf

/-- C7: for every well-formed store and every entity `e` whose id is `<= 0`, `insert(e)`
succeeds and gives `e` a strictly positive id that no cached entity and no row of that type
has and that is not the id of any hard-deleted entity; the entity returned is `e` under that
id, a subsequent `getById(newId)` returns it, and the store stays well-formed. -/
theorem insert_assigns_fresh_positive_id (g : Singleton) (e : Entity)
    (hwf : g.store.WellFormed) (hkey : e.key ≤ 0) :
    ∃ g1 e1, ObjectStoreWrapper.insert g e = (g1, Except.ok e1) ∧
      e1 = e.withKey e1.key ∧ 0 < e1.key ∧
      (∀ x ∈ (getInstance g).store.cache, x.key ≠ e1.key) ∧
      (∀ x ∈ g.store.rows, x.key ≠ e1.key) ∧
      e1.key ∉ g.store.hardDeleted ∧
      (ObjectStoreWrapper.getById g1 e1.key).2 = some e1 ∧
      g1.store.WellFormed := by
  have hwf1 := wellFormed_getInstance g hwf
  obtain ⟨hins, hpos, hcf, hrf, hdf, hwf2⟩ := store_insert_fresh _ e hwf1 hkey
  refine ⟨⟨(getInstance g).initFlag, (getInstance g).loadAllCalls,
      ⟨(getInstance g).store.cache ++ [e.withKey ((getInstance g).store.lastId + 1)],
       (getInstance g).store.rows ++ [e.withKey ((getInstance g).store.lastId + 1)],
       (getInstance g).store.lastId + 1, (getInstance g).store.hardDeleted⟩⟩,
     e.withKey ((getInstance g).store.lastId + 1), ?_, rfl, hpos, hcf, ?_, ?_, ?_, hwf2⟩
  · simp only [ObjectStoreWrapper.insert, hins]
  · rw [← getInstance_rows g]; exact hrf
  · rw [← getInstance_hardDeleted g]; exact hdf
  · have hflag : (⟨(getInstance g).initFlag, (getInstance g).loadAllCalls,
        ⟨(getInstance g).store.cache ++ [e.withKey ((getInstance g).store.lastId + 1)],
         (getInstance g).store.rows ++ [e.withKey ((getInstance g).store.lastId + 1)],
         (getInstance g).store.lastId + 1, (getInstance g).store.hardDeleted⟩⟩ : Singleton).initFlag
          = true := getInstance_initFlag g
    simp only [ObjectStoreWrapper.getById, getInstance_of_initFlag _ hflag,
      ObjectStoreTyped.getById, List.find?_append]
    rw [show (e.withKey ((getInstance g).store.lastId + 1)).key
        = (getInstance g).store.lastId + 1 from rfl, find?_key_eq_none _ _ hcf]
    simp [Entity.withKey]

theorem insert_assigns_fresh_positive_id_witness :
    ∃ g1 e1, ObjectStoreWrapper.insert (Singleton.initial sampleStore) sampleNewEntity
        = (g1, Except.ok e1) ∧
      e1 = sampleNewEntity.withKey e1.key ∧ 0 < e1.key ∧
      (∀ x ∈ (getInstance (Singleton.initial sampleStore)).store.cache, x.key ≠ e1.key) ∧
      (∀ x ∈ (Singleton.initial sampleStore).store.rows, x.key ≠ e1.key) ∧
      e1.key ∉ (Singleton.initial sampleStore).store.hardDeleted ∧
      (ObjectStoreWrapper.getById g1 e1.key).2 = some e1 ∧
      g1.store.WellFormed :=
  insert_assigns_fresh_positive_id (Singleton.initial sampleStore) sampleNewEntity
    (by decide) (by decide)

theorem replaceByKey_keys (e : Entity) (l : List Entity) :
    (replaceByKey e l).map Entity.key = l.map Entity.key := by
  induction l with
  | nil => rfl
  | cons r rest ih =>
    simp only [replaceByKey, List.map_cons] at ih ⊢
    by_cases h : r.key = e.key
    · simp [h, ih]
    · simp [h, ih]

theorem mem_replaceByKey (e : Entity) (l : List Entity) (x : Entity) :
    x ∈ replaceByKey e l ↔
      (x = e ∧ ∃ r ∈ l, r.key = e.key) ∨ (x ∈ l ∧ x.key ≠ e.key) := by
  simp only [replaceByKey, List.mem_map]
  constructor
  · rintro ⟨r, hr, hx⟩
    by_cases h : r.key = e.key
    · rw [if_pos h] at hx
      exact Or.inl ⟨hx.symm, r, hr, h⟩
    · rw [if_neg h] at hx
      subst hx
      exact Or.inr ⟨hr, h⟩
  · rintro (⟨rfl, r, hr, h⟩ | ⟨hx, h⟩)
    · exact ⟨r, hr, by rw [if_pos h]⟩
    · exact ⟨x, hx, by rw [if_neg h]⟩

/-- C8: `insertOrUpdate` on a well-formed store.  When the entity's id is `<= 0` it does what
`insert` does: the entity is added as a new row under a new, positive id, and that id is the
value returned.  When the id is positive and a row with that id exists, every such row is
replaced by the entity (all columns), the other rows and the set of ids are unchanged, and
the value returned is the entity's unchanged id. -/
theorem insertOrUpdate_inserts_or_updates (g : Singleton) (e : Entity)
    (hwf : g.store.WellFormed) :
    (e.key ≤ 0 →
      ∃ g1 e1, ObjectStoreWrapper.insert g e = (g1, Except.ok e1) ∧
        ObjectStoreWrapper.insertOrUpdate g e = (g1, Except.ok e1.key) ∧
        0 < e1.key ∧ e1 = e.withKey e1.key ∧
        g1.store.rows = g.store.rows ++ [e1]) ∧
    (0 < e.key → (∃ r ∈ g.store.rows, r.key = e.key) →
      ∃ g1, ObjectStoreWrapper.insertOrUpdate g e = (g1, Except.ok e.key) ∧
        g1.store.rows = replaceByKey e g.store.rows ∧
        e ∈ g1.store.rows ∧
        (∀ r ∈ g1.store.rows, r.key = e.key → r = e) ∧
        (∀ r, r.key ≠ e.key → (r ∈ g1.store.rows ↔ r ∈ g.store.rows)) ∧
        g1.store.rows.map Entity.key = g.store.rows.map Entity.key) := by
  constructor
  · intro hkey
    have hwf1 := wellFormed_getInstance g hwf
    obtain ⟨hins, hpos, -, -, -, -⟩ := store_insert_fresh _ e hwf1 hkey
    refine ⟨⟨(getInstance g).initFlag, (getInstance g).loadAllCalls,
        ⟨(getInstance g).store.cache ++ [e.withKey ((getInstance g).store.lastId + 1)],
         (getInstance g).store.rows ++ [e.withKey ((getInstance g).store.lastId + 1)],
         (getInstance g).store.lastId + 1, (getInstance g).store.hardDeleted⟩⟩,
       e.withKey ((getInstance g).store.lastId + 1), ?_, ?_, hpos, rfl, ?_⟩
    · simp only [ObjectStoreWrapper.insert, hins]
    · simp only [ObjectStoreWrapper.insertOrUpdate, ObjectStoreTyped.insertOrUpdate, hkey,
        if_true, hins]
    · simp only [getInstance_rows]
  · intro hkey hex
    have hnot : ¬ e.key ≤ 0 := by omega
    have hany : (getInstance g).store.rows.any (fun r => decide (r.key = e.key)) = true := by
      rw [getInstance_rows, List.any_eq_true]
      obtain ⟨r, hr, hk⟩ := hex
      exact ⟨r, hr, by simpa using hk⟩
    refine ⟨⟨(getInstance g).initFlag, (getInstance g).loadAllCalls,
        ⟨replaceByKey e (getInstance g).store.cache, replaceByKey e (getInstance g).store.rows,
         (getInstance g).store.lastId, (getInstance g).store.hardDeleted⟩⟩, ?_, ?_, ?_, ?_, ?_, ?_⟩
    · simp only [ObjectStoreWrapper.insertOrUpdate, ObjectStoreTyped.insertOrUpdate, hnot,
        if_false, hany, if_true]
    · simp only [getInstance_rows]
    · simp only [getInstance_rows]
      exact (mem_replaceByKey e _ e).mpr (Or.inl ⟨rfl, hex⟩)
    · intro r hr hk
      simp only [getInstance_rows] at hr
      rcases (mem_replaceByKey e _ r).mp hr with ⟨h, -⟩ | ⟨-, h⟩
      · exact h
      · exact absurd hk h
    · intro r hk
      simp only [getInstance_rows]
      constructor
      · intro hr
        rcases (mem_replaceByKey e _ r).mp hr with ⟨h, -⟩ | ⟨h, -⟩
        · subst h; exact absurd rfl hk
        · exact h
      · intro hr
        exact (mem_replaceByKey e _ r).mpr (Or.inr ⟨hr, hk⟩)
    · simp only [getInstance_rows]
      exact replaceByKey_keys e _

theorem insertOrUpdate_inserts_or_updates_witness :
    (∃ g1 e1, ObjectStoreWrapper.insert (Singleton.initial sampleStore) sampleNewEntity
          = (g1, Except.ok e1) ∧
        ObjectStoreWrapper.insertOrUpdate (Singleton.initial sampleStore) sampleNewEntity
          = (g1, Except.ok e1.key) ∧
        0 < e1.key ∧ e1 = sampleNewEntity.withKey e1.key ∧
        g1.store.rows = (Singleton.initial sampleStore).store.rows ++ [e1]) ∧
    (∃ g1, ObjectStoreWrapper.insertOrUpdate (Singleton.initial sampleStore) sampleChangedEntity
          = (g1, Except.ok sampleChangedEntity.key) ∧
        g1.store.rows = replaceByKey sampleChangedEntity (Singleton.initial sampleStore).store.rows ∧
        sampleChangedEntity ∈ g1.store.rows ∧
        (∀ r ∈ g1.store.rows, r.key = sampleChangedEntity.key → r = sampleChangedEntity) ∧
        (∀ r, r.key ≠ sampleChangedEntity.key →
          (r ∈ g1.store.rows ↔ r ∈ (Singleton.initial sampleStore).store.rows)) ∧
        g1.store.rows.map Entity.key
          = (Singleton.initial sampleStore).store.rows.map Entity.key) :=
  ⟨(insertOrUpdate_inserts_or_updates (Singleton.initial sampleStore) sampleNewEntity
      (by decide)).1 (by decide),
   (insertOrUpdate_inserts_or_updates (Singleton.initial sampleStore) sampleChangedEntity
      (by decide)).2 (by decide) ⟨⟨2, false, true, [("color", 5)]⟩, by decide, by decide⟩⟩

theorem markDeleted_key (e : Entity) : e.markDeleted.key = e.key := rfl

theorem markDeleted_idem (e : Entity) : e.markDeleted.markDeleted = e.markDeleted := rfl

theorem markDeletedByKey_idem (id : Int) (l : List Entity) :
    markDeletedByKey id (markDeletedByKey id l) = markDeletedByKey id l := by
  induction l with
  | nil => rfl
  | cons r rest ih =>
    simp only [markDeletedByKey, List.map_cons] at ih ⊢
    rw [ih]
    by_cases h : r.key = id
    · simp [h, markDeleted_key, markDeleted_idem]
    · simp [h]

theorem find?_markDeletedByKey (id : Int) (l : List Entity) :
    (markDeletedByKey id l).find? (fun e => decide (e.key = id))
      = (l.find? (fun e => decide (e.key = id))).map Entity.markDeleted := by
  induction l with
  | nil => rfl
  | cons r rest ih =>
    simp only [markDeletedByKey, List.map_cons] at ih ⊢
    by_cases h : r.key = id
    · simp [h, markDeleted_key, List.find?_cons]
    · simp [h, List.find?_cons, ih]

theorem softDelete_idem (s : ObjectStoreTyped) (id : Int) :
    (s.softDelete id).softDelete id = s.softDelete id := by
  simp [ObjectStoreTyped.softDelete, markDeletedByKey_idem]

theorem wrapper_softDelete_of_initFlag (g : Singleton) (ne : Entity) (h : g.initFlag = true) :
    ObjectStoreWrapper.softDelete g ne
      = ⟨g.initFlag, g.loadAllCalls, g.store.softDelete ne.key⟩ := by
  simp only [ObjectStoreWrapper.softDelete, getInstance_of_initFlag g h]

theorem wrapper_hardDelete_of_initFlag (g : Singleton) (ne : Entity) (h : g.initFlag = true) :
    ObjectStoreWrapper.hardDelete g ne
      = ⟨g.initFlag, g.loadAllCalls, g.store.hardDelete ne.key⟩ := by
  simp only [ObjectStoreWrapper.hardDelete, getInstance_of_initFlag g h]

theorem wrapper_getById_of_initFlag (g : Singleton) (id : Int) (h : g.initFlag = true) :
    (ObjectStoreWrapper.getById g id).2 = g.store.getById id := by
  simp only [ObjectStoreWrapper.getById, getInstance_of_initFlag g h]

/-- C9: `softDelete` is idempotent.  For every entity, calling `softDelete` twice leaves the
singleton store in the same state as calling it once; after it, `getById` of the entity's id
returns what it returned before with the `deleted` field set (so a persisted entity is still
returned, with `deleted` true), and the same holds after the second call. -/
theorem softDelete_idempotent (g : Singleton) (ne : Entity) :
    ObjectStoreWrapper.softDelete (ObjectStoreWrapper.softDelete g ne) ne
      = ObjectStoreWrapper.softDelete g ne ∧
    (ObjectStoreWrapper.getById (ObjectStoreWrapper.softDelete g ne) ne.key).2
      = ((ObjectStoreWrapper.getById g ne.key).2).map Entity.markDeleted ∧
    (ObjectStoreWrapper.getById
        (ObjectStoreWrapper.softDelete (ObjectStoreWrapper.softDelete g ne) ne) ne.key).2
      = ((ObjectStoreWrapper.getById g ne.key).2).map Entity.markDeleted ∧
    (∀ e : Entity, e.markDeleted.deleted = true ∧ e.markDeleted.key = e.key ∧
        e.markDeleted.display = e.display ∧ e.markDeleted.fields = e.fields) := by
  have hflag : (ObjectStoreWrapper.softDelete g ne).initFlag = true := getInstance_initFlag g
  have h1 : ObjectStoreWrapper.softDelete (ObjectStoreWrapper.softDelete g ne) ne
      = ObjectStoreWrapper.softDelete g ne := by
    rw [wrapper_softDelete_of_initFlag _ ne hflag]
    simp only [ObjectStoreWrapper.softDelete, softDelete_idem]
  have h2 : (ObjectStoreWrapper.getById (ObjectStoreWrapper.softDelete g ne) ne.key).2
      = ((ObjectStoreWrapper.getById g ne.key).2).map Entity.markDeleted := by
    rw [wrapper_getById_of_initFlag _ _ hflag]
    simp only [ObjectStoreWrapper.getById, ObjectStoreWrapper.softDelete,
      ObjectStoreTyped.getById, ObjectStoreTyped.softDelete, find?_markDeletedByKey]
  refine ⟨h1, h2, ?_, fun e => ⟨rfl, rfl, rfl, rfl⟩⟩
  rw [h1]; exact h2

theorem find?_filter_key_ne (id other : Int) (l : List Entity) :
    (l.filter (fun e => decide (e.key ≠ id))).find? (fun e => decide (e.key = other))
      = if other = id then none else l.find? (fun e => decide (e.key = other)) := by
  by_cases ho : other = id
  · subst ho
    rw [if_pos rfl, List.find?_eq_none]
    intro x hx
    have := (List.mem_filter.mp hx).2
    simpa using this
  · rw [if_neg ho]
    induction l with
    | nil => rfl
    | cons r rest ih =>
      by_cases h : r.key = id
      · have hne : ¬ r.key = other := by rw [h]; exact fun hh => ho hh.symm
        rw [List.filter_cons_of_neg (by simpa using h), List.find?_cons_of_neg _ (by simpa using hne)]
        exact ih
      · rw [List.filter_cons_of_pos (by simpa using h)]
        by_cases hk : r.key = other
        · rw [List.find?_cons_of_pos _ (by simpa using hk),
            List.find?_cons_of_pos _ (by simpa using hk)]
        · rw [List.find?_cons_of_neg _ (by simpa using hk),
            List.find?_cons_of_neg _ (by simpa using hk)]
          exact ih

theorem store_getById_hardDelete (s : ObjectStoreTyped) (id other : Int) :
    (s.hardDelete id).getById other = if other = id then none else s.getById other := by
  unfold ObjectStoreTyped.hardDelete
  cases hfound : s.getById id with
  | none =>
    simp only [Option.isSome_none, Bool.false_eq_true, if_false]
    by_cases ho : other = id
    · rw [if_pos ho, ho]; exact hfound
    · rw [if_neg ho]
  | some e =>
    simp only [Option.isSome_some, if_true, ObjectStoreTyped.getById]
    exact find?_filter_key_ne id other s.cache

theorem store_hardDelete_of_not_found (s : ObjectStoreTyped) (id : Int)
    (h : s.getById id = none) : s.hardDelete id = s := by
  simp [ObjectStoreTyped.hardDelete, h]

theorem store_hardDelete_idem (s : ObjectStoreTyped) (id : Int) :
    (s.hardDelete id).hardDelete id = s.hardDelete id := by
  have h : (s.hardDelete id).getById id = none := by
    rw [store_getById_hardDelete]; simp
  exact store_hardDelete_of_not_found _ _ h

/-- C10: after `hardDelete` of an entity, `getById` of its id returns "not found"; a second
`hardDelete` of the same id is a no-op (the singleton store is exactly as the first call left
it); and `getById` of every other id returns, after one call and after two, what it returned
before. -/
theorem hardDelete_then_not_found (g : Singleton) (ne : Entity) :
    (ObjectStoreWrapper.getById (ObjectStoreWrapper.hardDelete g ne) ne.key).2 = none ∧
    ObjectStoreWrapper.hardDelete (ObjectStoreWrapper.hardDelete g ne) ne
      = ObjectStoreWrapper.hardDelete g ne ∧
    (∀ other : Int,
      (ObjectStoreWrapper.getById (ObjectStoreWrapper.hardDelete g ne) other).2
        = if other = ne.key then none else (ObjectStoreWrapper.getById g other).2) ∧
    (∀ other : Int,
      (ObjectStoreWrapper.getById
          (ObjectStoreWrapper.hardDelete (ObjectStoreWrapper.hardDelete g ne) ne) other).2
        = if other = ne.key then none else (ObjectStoreWrapper.getById g other).2) := by
  have hflag : (ObjectStoreWrapper.hardDelete g ne).initFlag = true := getInstance_initFlag g
  have h2 : ObjectStoreWrapper.hardDelete (ObjectStoreWrapper.hardDelete g ne) ne
      = ObjectStoreWrapper.hardDelete g ne := by
    rw [wrapper_hardDelete_of_initFlag _ ne hflag]
    simp only [ObjectStoreWrapper.hardDelete, store_hardDelete_idem]
  have h3 : ∀ other : Int,
      (ObjectStoreWrapper.getById (ObjectStoreWrapper.hardDelete g ne) other).2
        = if other = ne.key then none else (ObjectStoreWrapper.getById g other).2 := by
    intro other
    rw [wrapper_getById_of_initFlag _ _ hflag]
    simp only [ObjectStoreWrapper.getById, ObjectStoreWrapper.hardDelete,
      store_getById_hardDelete]
  refine ⟨?_, h2, h3, ?_⟩
  · rw [h3]; simp
  · intro other
    rw [h2]; exact h3 other

/-! ### The invariant is kept by every operation of the store -/

theorem markDeletedByKey_keys (id : Int) (l : List Entity) :
    (markDeletedByKey id l).map Entity.key = l.map Entity.key := by
  induction l with
  | nil => rfl
  | cons r rest ih =>
    simp only [markDeletedByKey, List.map_cons] at ih ⊢
    by_cases h : r.key = id
    · simp [h, ih, markDeleted_key]
    · simp [h, ih]

theorem key_mem_of_keys_eq {l1 l2 : List Entity} (h : l1.map Entity.key = l2.map Entity.key)
    {e : Entity} (he : e ∈ l1) : ∃ r ∈ l2, r.key = e.key := by
  have : e.key ∈ l2.map Entity.key := h ▸ List.mem_map_of_mem Entity.key he
  obtain ⟨r, hr, hk⟩ := List.mem_map.mp this
  exact ⟨r, hr, hk⟩

theorem wellFormed_of_same_keys (s t : ObjectStoreTyped) (h : s.WellFormed)
    (hc : t.cache.map Entity.key = s.cache.map Entity.key)
    (hr : t.rows.map Entity.key = s.rows.map Entity.key)
    (hl : t.lastId = s.lastId) (hd : t.hardDeleted = s.hardDeleted) : t.WellFormed := by
  obtain ⟨h0, h1, h2, h3, h4, h5, h6, h7⟩ := h
  refine ⟨hl ▸ h0, ?_, ?_, ?_, hc ▸ h4, hr ▸ h5, ?_, ?_⟩
  · intro e he
    obtain ⟨r, hr1, hk⟩ := key_mem_of_keys_eq hc he
    rw [hl, ← hk]; exact h1 r hr1
  · intro e he
    obtain ⟨r, hr1, hk⟩ := key_mem_of_keys_eq hr he
    rw [hl, ← hk]; exact h2 r hr1
  · intro id hid
    rw [hl]; exact h3 id (hd ▸ hid)
  · intro e he
    obtain ⟨r, hr1, hk⟩ := key_mem_of_keys_eq hc he
    rw [hd, ← hk]; exact h6 r hr1
  · intro e he
    obtain ⟨r, hr1, hk⟩ := key_mem_of_keys_eq hr he
    rw [hd, ← hk]; exact h7 r hr1

theorem wellFormed_softDelete (s : ObjectStoreTyped) (id : Int) (h : s.WellFormed) :
    (s.softDelete id).WellFormed :=
  wellFormed_of_same_keys s _ h (markDeletedByKey_keys id s.cache)
    (markDeletedByKey_keys id s.rows) rfl rfl

theorem wellFormed_insertOrUpdate (s s1 : ObjectStoreTyped) (e : Entity) (id : Int)
    (h : s.WellFormed) (hok : s.insertOrUpdate e = .ok (s1, id)) : s1.WellFormed := by
  unfold ObjectStoreTyped.insertOrUpdate at hok
  by_cases hkey : e.key ≤ 0
  · obtain ⟨hins, -, -, -, -, hwf⟩ := store_insert_fresh s e h hkey
    simp only [hkey, if_true, hins] at hok
    injection hok with hok
    injection hok with hs _
    rw [← hs]; exact hwf
  · simp only [hkey, if_false] at hok
    split at hok
    · injection hok with hok
      injection hok with hs _
      rw [← hs]
      exact wellFormed_of_same_keys s _ h (replaceByKey_keys e s.cache)
        (replaceByKey_keys e s.rows) rfl rfl
    · exact Except.noConfusion hok

theorem wellFormed_hardDelete (s : ObjectStoreTyped) (id : Int) (h : s.WellFormed) :
    (s.hardDelete id).WellFormed := by
  unfold ObjectStoreTyped.hardDelete
  cases hfound : s.getById id with
  | none => simpa using h
  | some x =>
    obtain ⟨h0, h1, h2, h3, h4, h5, h6, h7⟩ := h
    have hx : x ∈ s.cache ∧ x.key = id := by
      unfold ObjectStoreTyped.getById at hfound
      exact ⟨List.mem_of_find?_eq_some hfound, by simpa using List.find?_some hfound⟩
    simp only [Option.isSome_some, if_true]
    refine ⟨h0, ?_, ?_, ?_, ?_, ?_, ?_, ?_⟩
    · intro e he
      exact h1 e (List.mem_filter.mp he).1
    · intro e he
      exact h2 e (List.mem_filter.mp he).1
    · intro i hi
      simp only [List.mem_cons] at hi
      rcases hi with rfl | hi
      · rw [← hx.2]; exact h1 x hx.1
      · exact h3 i hi
    · exact (List.filter_sublist _).map Entity.key |>.nodup h4
    · exact (List.filter_sublist _).map Entity.key |>.nodup h5
    · intro e he hmem
      have hf := List.mem_filter.mp he
      simp only [List.mem_cons] at hmem
      rcases hmem with hk | hmem
      · simp [hk] at hf
      · exact h6 e hf.1 hmem
    · intro e he hmem
      have hf := List.mem_filter.mp he
      simp only [List.mem_cons] at hmem
      rcases hmem with hk | hmem
      · simp [hk] at hf
      · exact h7 e hf.1 hmem

/-! ### Searching the cache -/

theorem firstMatch_eq_find? (p : Entity → Bool) (l : List Entity) :
    firstMatch p l = l.find? p := by
  induction l with
  | nil => rfl
  | cons e rest ih =>
    by_cases h : p e = true
    · simp [firstMatch, h]
    · simp [firstMatch, h, ih]

theorem allMatches_eq_filter (p : Entity → Bool) (l : List Entity) :
    allMatches p l = l.filter p := by
  induction l with
  | nil => rfl
  | cons e rest ih =>
    by_cases h : p e = true
    · simp [allMatches, h, ih]
    · simp [allMatches, h, ih]

theorem firstMatch_eq_head?_allMatches (p : Entity → Bool) (l : List Entity) :
    firstMatch p l = (allMatches p l).head? := by
  induction l with
  | nil => rfl
  | cons e rest ih =>
    by_cases h : p e = true
    · simp [firstMatch, allMatches, h]
    · simp [firstMatch, allMatches, h, ih]

/-- C11: for every predicate `p`, `findFirstMatching(p)` returns nothing (`std::nullopt`, or
`nullptr` for the raw-pointer overload) exactly when `p` is false for every cached entity,
and returns `e` exactly when `e` is the first entity in cache iteration order for which `p`
is true: the cache is `pre ++ e :: post` with `p` true on `e` and false on all of `pre`.  The
two overloads return the same entity. -/
theorem findFirstMatching_first_in_cache_order (g : Singleton) (p : Entity → Bool) :
    ((ObjectStoreWrapper.findFirstMatching g p).2 = none
        ↔ ∀ e ∈ (getInstance g).store.cache, p e = false) ∧
    (∀ e : Entity, (ObjectStoreWrapper.findFirstMatching g p).2 = some e
        ↔ ∃ pre post, (getInstance g).store.cache = pre ++ e :: post ∧ p e = true ∧
            ∀ x ∈ pre, p x = false) ∧
    (ObjectStoreWrapper.findFirstMatchingRaw g p).2
      = (ObjectStoreWrapper.findFirstMatching g p).2 := by
  refine ⟨?_, ?_, rfl⟩
  · simp only [ObjectStoreWrapper.findFirstMatching, ObjectStoreTyped.findFirstMatching,
      firstMatch_eq_find?, List.find?_eq_none]
    simp
  · intro e
    simp only [ObjectStoreWrapper.findFirstMatching, ObjectStoreTyped.findFirstMatching,
      firstMatch_eq_find?, List.find?_eq_some]
    constructor
    · rintro ⟨hp, pre, post, hsplit, hpre⟩
      exact ⟨pre, post, hsplit, hp, fun x hx => by simpa using hpre x hx⟩
    · rintro ⟨pre, post, hsplit, hp, hpre⟩
      exact ⟨hp, pre, post, hsplit, fun x hx => by simpa using hpre x hx⟩

/-- C12: for every predicate `p`, `findAllMatching(p)` returns exactly the cached entities for
which `p` is true, each as often as it is in the cache, in cache iteration order (the result
is the cache with the entities on which `p` is false left out), and `findFirstMatching(p)` is
the first element of that list (nothing when the list is empty). -/
theorem findAllMatching_all_in_cache_order (g : Singleton) (p : Entity → Bool) :
    (ObjectStoreWrapper.findAllMatching g p).2 = (getInstance g).store.cache.filter p ∧
    ((ObjectStoreWrapper.findAllMatching g p).2).Sublist (getInstance g).store.cache ∧
    (∀ e : Entity, e ∈ (ObjectStoreWrapper.findAllMatching g p).2
        ↔ e ∈ (getInstance g).store.cache ∧ p e = true) ∧
    (∀ e : Entity, p e = true →
        ((ObjectStoreWrapper.findAllMatching g p).2).count e
          = (getInstance g).store.cache.count e) ∧
    (ObjectStoreWrapper.findFirstMatching g p).2
      = ((ObjectStoreWrapper.findAllMatching g p).2).head? := by
  have h : (ObjectStoreWrapper.findAllMatching g p).2 = (getInstance g).store.cache.filter p := by
    simp only [ObjectStoreWrapper.findAllMatching, ObjectStoreTyped.findAllMatching,
      allMatches_eq_filter]
  refine ⟨h, ?_, ?_, ?_, ?_⟩
  · rw [h]; exact List.filter_sublist _
  · intro e
    rw [h, List.mem_filter]
  · intro e he
    rw [h]
    exact List.count_filter (by simpa using he)
  · simp only [ObjectStoreWrapper.findFirstMatching, ObjectStoreWrapper.findAllMatching,
      ObjectStoreTyped.findFirstMatching, ObjectStoreTyped.findAllMatching]
    exact firstMatch_eq_head?_allMatches p _

/-! ### Comparing by id -/

theorem getInstance_idem (g : Singleton) : getInstance (getInstance g) = getInstance g :=
  getInstance_of_initFlag _ (getInstance_initFlag g)

/-- C13 (as stated, refuted): with entities stored under the ids 1 and 2 only,
`compareById(5, 7)` returns `true` although no object is stored under either id (so there are
no equal stored objects) and the ids are not both `<= 0`. -/
theorem compareById_true_when_neither_found :
    (ObjectStoreWrapper.compareById (fun a b => decide (a = b))
        (Singleton.initial sampleStore) 5 7).2 = true ∧
    (ObjectStoreWrapper.getById (Singleton.initial sampleStore) 5).2 = none ∧
    (ObjectStoreWrapper.getById (Singleton.initial sampleStore) 7).2 = none ∧
    ¬ ((5 : Int) ≤ 0 ∧ (7 : Int) ≤ 0) := by
  decide

/-- C13 (amended): for all ids `lhsId` and `rhsId`, `compareById<NE>(lhsId, rhsId)` returns
`true` if both ids are invalid (`<= 0`), or if neither id is found in the object store, or if
both are found and the objects stored under them are equal; it returns `false` in every other
case. -/
theorem compareById_true_iff (equal : Entity → Entity → Bool) (g : Singleton)
    (lhsId rhsId : Int) :
    (ObjectStoreWrapper.compareById equal g lhsId rhsId).2 = true ↔
      (lhsId ≤ 0 ∧ rhsId ≤ 0) ∨
      ((ObjectStoreWrapper.getById g lhsId).2 = none ∧
        (ObjectStoreWrapper.getById g rhsId).2 = none) ∨
      (∃ lhs rhs, (ObjectStoreWrapper.getById g lhsId).2 = some lhs ∧
        (ObjectStoreWrapper.getById g rhsId).2 = some rhs ∧ equal lhs rhs = true) := by
  unfold ObjectStoreWrapper.compareById
  by_cases hinv : lhsId ≤ 0 ∧ rhsId ≤ 0
  · simp [hinv]
  · rw [if_neg hinv]
    simp only [ObjectStoreWrapper.getByIdRaw, ObjectStoreWrapper.getById, getInstance_idem]
    cases hl : (getInstance g).store.getById lhsId <;>
      cases hr : (getInstance g).store.getById rhsId <;> simp [hinv]

/-! ### Enum string mappings -/

theorem enumToString_of_mem {α : Type} [DecidableEq α] (m : EnumStringMapping α)
    (hn : (m.map Prod.fst).Nodup) (p : α × String) (hp : p ∈ m) :
    m.enumToString p.1 = .ok p.2 := by
  induction m with
  | nil => cases hp
  | cons q rest ih =>
    unfold EnumStringMapping.enumToString
    simp only [List.map_cons, List.nodup_cons] at hn
    by_cases hq : q.1 = p.1
    · have hpq : p = q := by
        rcases List.mem_cons.mp hp with h | h
        · exact h
        · exact absurd (hq ▸ List.mem_map_of_mem Prod.fst h) hn.1
      simp [List.find?_cons, hq, hpq]
    · have hp1 : p ∈ rest := by
        rcases List.mem_cons.mp hp with h | h
        · exact absurd (h ▸ rfl) hq
        · exact h
      have := ih hn.2 hp1
      unfold EnumStringMapping.enumToString at this
      simpa [List.find?_cons, hq] using this

theorem stringToEnum_of_mem {α : Type} (m : EnumStringMapping α)
    (hn : (m.map Prod.snd).Nodup) (p : α × String) (hp : p ∈ m) :
    m.stringToEnum p.2 = .ok p.1 := by
  induction m with
  | nil => cases hp
  | cons q rest ih =>
    unfold EnumStringMapping.stringToEnum
    simp only [List.map_cons, List.nodup_cons] at hn
    by_cases hq : q.2 = p.2
    · have hpq : p = q := by
        rcases List.mem_cons.mp hp with h | h
        · exact h
        · exact absurd (hq ▸ List.mem_map_of_mem Prod.snd h) hn.1
      simp [List.find?_cons, hq, hpq]
    · have hp1 : p ∈ rest := by
        rcases List.mem_cons.mp hp with h | h
        · exact absurd (h ▸ rfl) hq
        · exact h
      have := ih hn.2 hp1
      unfold EnumStringMapping.stringToEnum at this
      simpa [List.find?_cons, hq] using this

theorem bidirectional_of_nodup {α : Type} [DecidableEq α] (m : EnumStringMapping α)
    (h1 : (m.map Prod.fst).Nodup) (h2 : (m.map Prod.snd).Nodup) : m.Bidirectional := by
  refine ⟨h1, h2, ?_, ?_⟩
  · intro v hv
    obtain ⟨p, hp, rfl⟩ := List.mem_map.mp hv
    rw [enumToString_of_mem m h1 p hp]
    exact stringToEnum_of_mem m h2 p hp
  · intro s hs
    obtain ⟨p, hp, rfl⟩ := List.mem_map.mp hs
    rw [stringToEnum_of_mem m h2 p hp]
    exact enumToString_of_mem m h1 p hp

/-- C14: each of `Hop::formStringMapping`, `Hop::typeStringMapping`,
`Water::typeStringMapping`, `Water::ionStringMapping` and `RECIPE_STEP_TYPE_ENUM` is
bidirectional: no two pairs share an enum value, no two pairs share a string, for every
listed enum value decoding its encoding gives the value back, and for every listed string
encoding its decoding gives the string back. -/
theorem enum_string_mappings_bidirectional :
    Hop.formStringMapping.Bidirectional ∧ Hop.typeStringMapping.Bidirectional ∧
    Water.typeStringMapping.Bidirectional ∧ Water.ionStringMapping.Bidirectional ∧
    RECIPE_STEP_TYPE_ENUM.Bidirectional :=
  ⟨bidirectional_of_nodup _ (by decide) (by decide),
   bidirectional_of_nodup _ (by decide) (by decide),
   bidirectional_of_nodup _ (by decide) (by decide),
   bidirectional_of_nodup _ (by decide) (by decide),
   bidirectional_of_nodup _ (by decide) (by decide)⟩

/-! ### The table definitions -/

/-- C15: in every primary table and every junction table definition, a column carries an enum
string mapping if and only if its field type is `Enum`. -/
theorem enum_mapping_iff_enum_column (T : EntityType) :
    (∀ f ∈ (PRIMARY_TABLE T).tableFields, f.mappingIffEnum) ∧
    (∀ j ∈ JUNCTION_TABLES T, ∀ f ∈ j.tableFields, f.mappingIffEnum) := by
  cases T <;> decide

/-- C16: the entity types with a parent/child junction table (a table named `..._children`)
are exactly Equipment, Fermentable, Hop, Misc, Style, Water and Yeast, and every such table is
named after the primary table of its type, has exactly the three `Int` columns `id`,
`child_id`, `parent_id` in that order, with `child_id` and `parent_id` both referencing the
primary table of that same type, and is declared `MAX_ONE_ENTRY`. -/
theorem children_junction_tables (T : EntityType) :
    ((∃ j ∈ JUNCTION_TABLES T, j.isChildrenTable = true) ↔ T ∈ parentChildTypes) ∧
    (∀ j ∈ JUNCTION_TABLES T, j.isChildrenTable = true →
      j.tableName = (PRIMARY_TABLE T).tableName ++ "_children" ∧
      j.tableFields.map TableField.shape
        = [(FieldType.Int, "id", none), (FieldType.Int, "child_id", some T),
           (FieldType.Int, "parent_id", some T)] ∧
      j.assumedNumEntries = AssumedNumEntries.MAX_ONE_ENTRY) := by
  cases T <;> decide

/-- C17: the recipe association junction tables (tables named `..._in_recipe`) are the seven
tables of `JUNCTION_TABLES<Recipe>`, one for each of fermentable, hop, instruction, misc,
salt, water and yeast in that order.  Each is named after the primary table of its type,
begins with the `Int` columns `id`, `recipe_id` referencing the recipe primary table, and
`{type}_id` referencing the primary table of that type; none is declared `MAX_ONE_ENTRY`; and
`instruction_in_recipe` is the only one with a further column, the `Int` column
`instruction_number`. -/
theorem recipe_association_junction_tables :
    (∀ T : EntityType, ∀ j ∈ JUNCTION_TABLES T, j.isInRecipeTable = true → T = EntityType.Recipe) ∧
    (∀ j ∈ JUNCTION_TABLES EntityType.Recipe, j.isInRecipeTable = true) ∧
    (JUNCTION_TABLES EntityType.Recipe).length = recipeAssociationTypes.length ∧
    (∀ p ∈ List.zip recipeAssociationTypes (JUNCTION_TABLES EntityType.Recipe),
      p.2.tableName = (PRIMARY_TABLE p.1).tableName ++ "_in_recipe" ∧
      (p.2.tableFields.take 3).map TableField.shape
        = [(FieldType.Int, "id", none), (FieldType.Int, "recipe_id", some EntityType.Recipe),
           (FieldType.Int, (PRIMARY_TABLE p.1).tableName ++ "_id", some p.1)] ∧
      p.2.assumedNumEntries ≠ AssumedNumEntries.MAX_ONE_ENTRY ∧
      (p.2.tableFields.drop 3).map TableField.shape
        = if p.1 = EntityType.Instruction
          then [(FieldType.Int, "instruction_number", none)] else []) := by
  refine ⟨?_, by decide, by decide, by decide⟩
  intro T
  cases T <;> decide

/-- C18 (as stated, refuted): the primary table of InventoryFermentable, a store of the
registry, has no column named `deleted` and no column named `display`. -/
theorem inventory_table_without_deleted_display :
    EntityType.InventoryFermentable ∈ AllObjectStores ∧
    (PRIMARY_TABLE EntityType.InventoryFermentable).hasColumnNamed "deleted" = false ∧
    (PRIMARY_TABLE EntityType.InventoryFermentable).hasColumnNamed "display" = false := by
  decide

/-- C18 (amended): the primary table of every entity type in the registry other than the four
inventory types contains a `Bool` column `deleted` and a `Bool` column `display`; the primary
tables of InventoryFermentable, InventoryHop, InventoryMisc and InventoryYeast have exactly
two columns, an `Int` column `id` and a `Double` column (`amount`, or `quanta` for yeast), and
so neither flag. -/
theorem deleted_display_columns (T : EntityType) :
    T ∈ AllObjectStores ∧
    (T ∉ inventoryTypes →
      (PRIMARY_TABLE T).hasColumn FieldType.Bool "deleted" = true ∧
      (PRIMARY_TABLE T).hasColumn FieldType.Bool "display" = true) ∧
    (T ∈ inventoryTypes →
      (PRIMARY_TABLE T).tableFields.map TableField.shape
        = [(FieldType.Int, "id", none),
           (FieldType.Double, if T = EntityType.InventoryYeast then "quanta" else "amount",
             none)]) := by
  cases T <;> decide

/-! ### Result and early exit of `CreateAllDatabaseTables` -/

theorem throughFirstFailure_dropLast (call : EntityType → Bool) (stores : List EntityType) :
    ∀ s ∈ (throughFirstFailure call stores).dropLast, call s = true := by
  intro s hs
  unfold throughFirstFailure at hs
  cases hd : (stores.dropWhile call).head? with
  | none =>
    rw [hd] at hs
    simp only [Option.toList_none, List.append_nil] at hs
    exact List.mem_takeWhile_imp ((List.dropLast_sublist _).subset hs)
  | some x =>
    rw [hd] at hs
    simp only [Option.toList_some] at hs
    rw [List.dropLast_concat] at hs
    exact List.mem_takeWhile_imp hs

theorem throughFirstFailure_getLast (call : EntityType → Bool) (stores : List EntityType)
    (h : ¬ ∀ s ∈ stores, call s = true) :
    ∃ c, (throughFirstFailure call stores).getLast? = some c ∧ call c = false := by
  induction stores with
  | nil => exact absurd (fun s hs => by cases hs) h
  | cons a rest ih =>
    by_cases ha : call a = true
    · have hrest : ¬ ∀ s ∈ rest, call s = true := by
        intro hall
        apply h
        intro s hs
        rcases List.mem_cons.mp hs with rfl | hs
        · exact ha
        · exact hall s hs
      obtain ⟨c, hc, hf⟩ := ih hrest
      refine ⟨c, ?_, hf⟩
      have hne : throughFirstFailure call rest ≠ [] := by
        intro hnil
        rw [hnil] at hc
        exact Option.noConfusion hc
      have hcons : throughFirstFailure call (a :: rest) = a :: throughFirstFailure call rest := by
        simp [throughFirstFailure, ha]
      rw [hcons]
      obtain ⟨b, l, hbl⟩ := List.exists_cons_of_ne_nil hne
      rw [hbl] at hc ⊢
      rw [List.getLast?_cons_cons]
      exact hc
    · refine ⟨a, ?_, by simpa using ha⟩
      simp [throughFirstFailure, ha]

theorem CreateAllDatabaseTables_result (createTables addTableConstraints : EntityType → Bool) :
    (CreateAllDatabaseTables createTables addTableConstraints).result = true ↔
      (∀ s ∈ AllObjectStores, createTables s = true) ∧
      (∀ s ∈ AllObjectStores, addTableConstraints s = true) := by
  have h1 := callUntilFailure_result createTables AllObjectStores
  have h2 := callUntilFailure_result addTableConstraints AllObjectStores
  by_cases hc : (callUntilFailure createTables AllObjectStores).1 = true
  · by_cases ha : (callUntilFailure addTableConstraints AllObjectStores).1 = true
    · have hr : (CreateAllDatabaseTables createTables addTableConstraints).result = true := by
        simp [CreateAllDatabaseTables, hc, ha]
      exact ⟨fun _ => ⟨h1.mp hc, h2.mp ha⟩, fun _ => hr⟩
    · have hr : (CreateAllDatabaseTables createTables addTableConstraints).result = false := by
        simp [CreateAllDatabaseTables, hc, ha]
      constructor
      · intro h; rw [hr] at h; exact Bool.noConfusion h
      · intro h; exact absurd (h2.mpr h.2) ha
  · have hr : (CreateAllDatabaseTables createTables addTableConstraints).result = false := by
      simp [CreateAllDatabaseTables, hc]
    constructor
    · intro h; rw [hr] at h; exact Bool.noConfusion h
    · intro h; exact absurd (h1.mpr h.1) hc

/-- C20: `CreateAllDatabaseTables` returns `true` if and only if `createTables` succeeds for
every store and `addTableConstraints` succeeds for every store, and then it has called
`createTables` on every store followed by `addTableConstraints` on every store.  Every call it
makes before its last one succeeded, and when it returns `false` its last call is one that
failed, so it returns at the first failing call and calls nothing after it.  When
`createTables` fails for some store, `addTableConstraints` is called on no store. -/
theorem CreateAllDatabaseTables_stops_at_first_failure
    (createTables addTableConstraints : EntityType → Bool) :
    ((CreateAllDatabaseTables createTables addTableConstraints).result = true ↔
      (∀ s ∈ AllObjectStores, createTables s = true) ∧
      (∀ s ∈ AllObjectStores, addTableConstraints s = true)) ∧
    ((CreateAllDatabaseTables createTables addTableConstraints).result = true →
      (CreateAllDatabaseTables createTables addTableConstraints).calls
        = AllObjectStores.map StoreCall.createTables
            ++ AllObjectStores.map StoreCall.addTableConstraints) ∧
    (∀ c ∈ (CreateAllDatabaseTables createTables addTableConstraints).calls.dropLast,
      c.succeeds createTables addTableConstraints = true) ∧
    ((CreateAllDatabaseTables createTables addTableConstraints).result = false →
      ∃ c, (CreateAllDatabaseTables createTables addTableConstraints).calls.getLast? = some c ∧
        c.succeeds createTables addTableConstraints = false) ∧
    ((∃ s ∈ AllObjectStores, createTables s = false) →
      ∀ t, StoreCall.addTableConstraints t
        ∉ (CreateAllDatabaseTables createTables addTableConstraints).calls) := by
  have hres := CreateAllDatabaseTables_result createTables addTableConstraints
  have hcalls := CreateAllDatabaseTables_calls createTables addTableConstraints
  refine ⟨hres, ?_, ?_, ?_, ?_⟩
  · intro h
    obtain ⟨hc, ha⟩ := hres.mp h
    rw [hcalls, if_pos hc, throughFirstFailure_of_all _ _ ha]
  · intro c hc
    rw [hcalls] at hc
    by_cases hall : ∀ s ∈ AllObjectStores, createTables s = true
    · rw [if_pos hall] at hc
      by_cases hnil : throughFirstFailure addTableConstraints AllObjectStores = []
      · rw [hnil, List.map_nil, List.append_nil] at hc
        obtain ⟨s, hs, rfl⟩ := List.mem_map.mp ((List.dropLast_sublist _).subset hc)
        exact hall s hs
      · have hne : (throughFirstFailure addTableConstraints AllObjectStores).map
            StoreCall.addTableConstraints ≠ [] := by simpa using hnil
        rw [List.dropLast_append_of_ne_nil _ hne] at hc
        rcases List.mem_append.mp hc with hc | hc
        · obtain ⟨s, hs, rfl⟩ := List.mem_map.mp hc
          exact hall s hs
        · rw [← List.map_dropLast] at hc
          obtain ⟨s, hs, rfl⟩ := List.mem_map.mp hc
          exact throughFirstFailure_dropLast addTableConstraints AllObjectStores s hs
    · rw [if_neg hall, ← List.map_dropLast] at hc
      obtain ⟨s, hs, rfl⟩ := List.mem_map.mp hc
      exact throughFirstFailure_dropLast createTables AllObjectStores s hs
  · intro h
    have hnot : ¬ ((∀ s ∈ AllObjectStores, createTables s = true) ∧
        (∀ s ∈ AllObjectStores, addTableConstraints s = true)) := by
      intro hboth
      rw [hres.mpr hboth] at h
      exact Bool.noConfusion h
    rw [hcalls]
    by_cases hall : ∀ s ∈ AllObjectStores, createTables s = true
    · rw [if_pos hall]
      have ha : ¬ ∀ s ∈ AllObjectStores, addTableConstraints s = true :=
        fun ha => hnot ⟨hall, ha⟩
      obtain ⟨s, hs, hf⟩ := throughFirstFailure_getLast addTableConstraints AllObjectStores ha
      refine ⟨StoreCall.addTableConstraints s, ?_, hf⟩
      have hne : throughFirstFailure addTableConstraints AllObjectStores ≠ [] := by
        intro hnil; rw [hnil] at hs; exact Option.noConfusion hs
      obtain ⟨b, l, hbl⟩ := List.exists_cons_of_ne_nil hne
      rw [List.getLast?_append, List.getLast?_map, hs]
      rfl
    · rw [if_neg hall]
      obtain ⟨s, hs, hf⟩ := throughFirstFailure_getLast createTables AllObjectStores hall
      refine ⟨StoreCall.createTables s, ?_, hf⟩
      rw [List.getLast?_map, hs]
      rfl
  · rintro ⟨s, hs, hf⟩ t ht
    have hall : ¬ ∀ s ∈ AllObjectStores, createTables s = true := by
      intro hall
      rw [hall s hs] at hf
      exact Bool.noConfusion hf
    rw [hcalls, if_neg hall] at ht
    obtain ⟨x, -, hx⟩ := List.mem_map.mp ht
    exact StoreCall.noConfusion hx

/-! ### `Hop`: set then get -/

theorem enforceMinAndMax_eq_clamp (v : ℚ) (name : String) :
    enforceMinAndMax v name 0 100 = max 0 (min 100 v) := by
  unfold enforceMinAndMax
  by_cases h1 : v < 0
  · rw [if_pos h1, max_eq_left]
    exact le_trans (min_le_right _ _) (le_of_lt h1)
  · rw [if_neg h1]
    push_neg at h1
    by_cases h2 : v > 100
    · rw [if_pos h2, min_eq_left (le_of_lt h2), max_eq_right (by norm_num)]
    · rw [if_neg h2]
      push_neg at h2
      rw [min_eq_right h2, max_eq_right h1]

theorem enforceMinAndMaxOpt_eq_clamp (v : Option ℚ) (name : String) :
    enforceMinAndMaxOpt v name 0 100 = v.map fun x => max 0 (min 100 x) := by
  cases v with
  | none => rfl
  | some x => simp [enforceMinAndMaxOpt, enforceMinAndMax_eq_clamp]

/-- C19: set-then-get round trip on `Hop`.  For every `Hop` and every value `v`: for each of
the fields `form`, `origin`, `notes`, `type`, `substitutes`, `producer`, `product_id` and
`year`, the getter after the setter with `v` returns `v`; for each field declared with the
bounds 0 and 100 (`alpha_pct`, `beta_pct`, `hsi_pct`, `humulene_pct`, `caryophyllene_pct`,
`cohumulone_pct`, `myrcene_pct`, `total_oil_ml_per_100g`, `farnesene_pct`, `geraniol_pct`,
`b_pinene_pct`, `linalool_pct`, `limonene_pct`, `nerol_pct`, `pinene_pct`, `polyphenols_pct`,
`xanthohumol_pct`) it returns `v` clamped into the interval from 0 to 100 (an absent optional
value stays absent), which is `v` itself whenever `v` lies within the bounds. -/
theorem Hop_set_then_get (h : Hop) :
    (∀ v : ℚ, (h.setAlpha_pct v).alpha_pct = max 0 (min 100 v)) ∧
    (∀ v : Option HopForm, (h.setForm v).form = v) ∧
    (∀ v : Option ℚ, (h.setBeta_pct v).beta_pct = v.map fun x => max 0 (min 100 x)) ∧
    (∀ v : String, (h.setOrigin v).origin = v) ∧
    (∀ v : String, (h.setNotes v).notes = v) ∧
    (∀ v : Option HopType, (h.setType v).type = v) ∧
    (∀ v : Option ℚ, (h.setHsi_pct v).hsi_pct = v.map fun x => max 0 (min 100 x)) ∧
    (∀ v : String, (h.setSubstitutes v).substitutes = v) ∧
    (∀ v : Option ℚ, (h.setHumulene_pct v).humulene_pct = v.map fun x => max 0 (min 100 x)) ∧
    (∀ v : Option ℚ, (h.setCaryophyllene_pct v).caryophyllene_pct = v.map fun x => max 0 (min 100 x)) ∧
    (∀ v : Option ℚ, (h.setCohumulone_pct v).cohumulone_pct = v.map fun x => max 0 (min 100 x)) ∧
    (∀ v : Option ℚ, (h.setMyrcene_pct v).myrcene_pct = v.map fun x => max 0 (min 100 x)) ∧
    (∀ v : Option ℚ, (h.setTotal_oil_ml_per_100g v).total_oil_ml_per_100g = v.map fun x => max 0 (min 100 x)) ∧
    (∀ v : Option ℚ, (h.setFarnesene_pct v).farnesene_pct = v.map fun x => max 0 (min 100 x)) ∧
    (∀ v : Option ℚ, (h.setGeraniol_pct v).geraniol_pct = v.map fun x => max 0 (min 100 x)) ∧
    (∀ v : Option ℚ, (h.setB_pinene_pct v).b_pinene_pct = v.map fun x => max 0 (min 100 x)) ∧
    (∀ v : Option ℚ, (h.setLinalool_pct v).linalool_pct = v.map fun x => max 0 (min 100 x)) ∧
    (∀ v : Option ℚ, (h.setLimonene_pct v).limonene_pct = v.map fun x => max 0 (min 100 x)) ∧
    (∀ v : Option ℚ, (h.setNerol_pct v).nerol_pct = v.map fun x => max 0 (min 100 x)) ∧
    (∀ v : Option ℚ, (h.setPinene_pct v).pinene_pct = v.map fun x => max 0 (min 100 x)) ∧
    (∀ v : Option ℚ, (h.setPolyphenols_pct v).polyphenols_pct = v.map fun x => max 0 (min 100 x)) ∧
    (∀ v : Option ℚ, (h.setXanthohumol_pct v).xanthohumol_pct = v.map fun x => max 0 (min 100 x)) ∧
    (∀ v : String, (h.setProducer v).producer = v) ∧
    (∀ v : String, (h.setProduct_id v).product_id = v) ∧
    (∀ v : String, (h.setYear v).year = v) ∧
    (∀ x : ℚ, 0 ≤ x → x ≤ 100 → max 0 (min 100 x) = x) := by
  refine ⟨?_, ?_, ?_, ?_, ?_, ?_, ?_, ?_, ?_, ?_, ?_, ?_, ?_, ?_, ?_, ?_, ?_, ?_, ?_, ?_, ?_, ?_, ?_, ?_, ?_, ?_⟩
  · intro v; exact enforceMinAndMax_eq_clamp v "alpha"
  · intro v; rfl
  · intro v; exact enforceMinAndMaxOpt_eq_clamp v "beta"
  · intro v; rfl
  · intro v; rfl
  · intro v; rfl
  · intro v; exact enforceMinAndMaxOpt_eq_clamp v "hsi"
  · intro v; rfl
  · intro v; exact enforceMinAndMaxOpt_eq_clamp v "humulene"
  · intro v; exact enforceMinAndMaxOpt_eq_clamp v "caryophyllene"
  · intro v; exact enforceMinAndMaxOpt_eq_clamp v "cohumulone"
  · intro v; exact enforceMinAndMaxOpt_eq_clamp v "myrcene"
  · intro v; exact enforceMinAndMaxOpt_eq_clamp v "total_oil_ml_per_100g"
  · intro v; exact enforceMinAndMaxOpt_eq_clamp v "farnesene_pct"
  · intro v; exact enforceMinAndMaxOpt_eq_clamp v "geraniol_pct"
  · intro v; exact enforceMinAndMaxOpt_eq_clamp v "b_pinene_pct"
  · intro v; exact enforceMinAndMaxOpt_eq_clamp v "linalool_pct"
  · intro v; exact enforceMinAndMaxOpt_eq_clamp v "limonene_pct"
  · intro v; exact enforceMinAndMaxOpt_eq_clamp v "nerol_pct"
  · intro v; exact enforceMinAndMaxOpt_eq_clamp v "pinene_pct"
  · intro v; exact enforceMinAndMaxOpt_eq_clamp v "polyphenols_pct"
  · intro v; exact enforceMinAndMaxOpt_eq_clamp v "xanthohumol_pct"
  · intro v; rfl
  · intro v; rfl
  · intro v; rfl
  · intro x h0 h1
    rw [min_eq_right h1, max_eq_right h0]

/-! ### Order of the definitions, declared properties and names -/

/-- C24: the order of the table definitions in the file works for every foreign key.  For
every foreign-key column of `PRIMARY_TABLE<T>` the referenced `PRIMARY_TABLE<U>` starts no
later in the file than `PRIMARY_TABLE<T>` (on the same line only when `U` is `T` itself), and
for every foreign-key column of `JUNCTION_TABLES<T>` the referenced `PRIMARY_TABLE<U>` starts
earlier in the file than `JUNCTION_TABLES<T>`; in particular `PRIMARY_TABLE<BrewNote>`, which
references `PRIMARY_TABLE<Recipe>`, appears after it. -/
theorem definition_order_works_for_foreign_keys (T : EntityType) :
    (∀ U ∈ primaryForeignKeys T,
      primaryTableLine U ≤ primaryTableLine T ∧
      (primaryTableLine U = primaryTableLine T → U = T)) ∧
    (∀ U ∈ junctionForeignKeys T, primaryTableLine U < junctionTablesLine T) ∧
    (EntityType.Recipe ∈ primaryForeignKeys EntityType.BrewNote ∧
      primaryTableLine EntityType.Recipe < primaryTableLine EntityType.BrewNote) := by
  cases T <;> decide

/-- C25 (the code at the failing input): the hop primary table maps the columns `amount`,
`time` and `use` to `PropertyNames::Hop::amount_kg`, `PropertyNames::Hop::time_min` and
`PropertyNames::Hop::use`, and the water primary table maps the column `amount` to
`PropertyNames::Water::amount`; `Hop::typeLookup` and `Water::typeLookup` have no entry for
any of these.  Every other column of the two tables that maps to a property of its own class
maps to one with an entry. -/
theorem hop_water_columns_without_declared_property :
    (columnsWithoutDeclaredProperty (PRIMARY_TABLE EntityType.Hop) "PropertyNames::Hop::"
        Hop.typeLookup).map (fun f => (f.columnName, f.propertyName))
      = [("amount", some "PropertyNames::Hop::amount_kg"),
         ("time", some "PropertyNames::Hop::time_min"),
         ("use", some "PropertyNames::Hop::use")] ∧
    (columnsWithoutDeclaredProperty (PRIMARY_TABLE EntityType.Water) "PropertyNames::Water::"
        Water.typeLookup).map (fun f => (f.columnName, f.propertyName))
      = [("amount", some "PropertyNames::Water::amount")] ∧
    "PropertyNames::Hop::amount_kg" ∉ Hop.typeLookup ∧
    "PropertyNames::Water::amount" ∉ Water.typeLookup := by
  decide

set_option maxHeartbeats 4000000 in
/-- C26: within every primary table and every junction table definition no two columns share
a column name and no two columns share a mapped property name, and across all seventeen
stores no two tables, primary or junction, share a table name (there are 31 tables). -/
theorem column_and_table_names_unique :
    (∀ T : EntityType,
      (columnNames (PRIMARY_TABLE T).tableFields).Nodup ∧
      (mappedPropertyNames (PRIMARY_TABLE T).tableFields).Nodup ∧
      (∀ j ∈ JUNCTION_TABLES T,
        (columnNames j.tableFields).Nodup ∧ (mappedPropertyNames j.tableFields).Nodup)) ∧
    allTableNames.Nodup ∧ allTableNames.length = 31 := by
  refine ⟨?_, by decide!, by decide!⟩
  intro T
  cases T <;> decide!

/-! ### `PropertySchema::addProperty` with `ALLDB` -/

theorem addPropertyLoop_slot (tmp ALLDB : Nat) (n i : Nat) (props : List (Option Nat))
    (j : Nat) :
    (addPropertyLoop tmp ALLDB n i props)[j]? =
      if i ≤ j ∧ j < i + n ∧ j < ALLDB ∧ props[j]? = some none then some (some tmp)
      else props[j]? := by
  induction n generalizing i props with
  | zero =>
    have : ¬ (i ≤ j ∧ j < i + 0 ∧ j < ALLDB ∧ props[j]? = some none) := by
      rintro ⟨h1, h2, -, -⟩; omega
    rw [if_neg this]
    rfl
  | succ n ih =>
    unfold addPropertyLoop
    by_cases hi : i < ALLDB
    · rw [if_pos hi, ih]
      by_cases hnull : props[i]? = some none
      · rw [if_pos hnull]
        by_cases hji : j = i
        · subst hji
          have hlt : j < props.length := by
            by_contra hge
            rw [List.getElem?_eq_none (by omega)] at hnull
            exact Option.noConfusion hnull
          have hset : (props.set j (some tmp))[j]? = some (some tmp) := by
            rw [List.getElem?_set_self hlt]
          have h1 : ¬ (j + 1 ≤ j ∧ j < j + 1 + n ∧ j < ALLDB ∧
              (props.set j (some tmp))[j]? = some none) := by
            rintro ⟨h, -⟩; omega
          have h2 : j ≤ j ∧ j < j + (n + 1) ∧ j < ALLDB ∧ props[j]? = some none :=
            ⟨le_refl _, by omega, hi, hnull⟩
          rw [if_neg h1, if_pos h2, hset]
        · have hset : (props.set i (some tmp))[j]? = props[j]? :=
            List.getElem?_set_ne (fun h => hji h.symm)
          rw [hset]
          by_cases hc : i ≤ j ∧ j < i + (n + 1) ∧ j < ALLDB ∧ props[j]? = some none
          · have hc1 : i + 1 ≤ j ∧ j < i + 1 + n ∧ j < ALLDB ∧ props[j]? = some none :=
              ⟨by omega, by omega, hc.2.2.1, hc.2.2.2⟩
            rw [if_pos hc, if_pos hc1]
          · have hc1 : ¬ (i + 1 ≤ j ∧ j < i + 1 + n ∧ j < ALLDB ∧ props[j]? = some none) := by
              rintro ⟨h1, h2, h3, h4⟩
              exact hc ⟨by omega, by omega, h3, h4⟩
            rw [if_neg hc, if_neg hc1]
      · rw [if_neg hnull]
        by_cases hc : i ≤ j ∧ j < i + (n + 1) ∧ j < ALLDB ∧ props[j]? = some none
        · have hji : j ≠ i := by
            rintro rfl
            exact hnull hc.2.2.2
          have hc1 : i + 1 ≤ j ∧ j < i + 1 + n ∧ j < ALLDB ∧ props[j]? = some none :=
            ⟨by omega, by omega, hc.2.2.1, hc.2.2.2⟩
          rw [if_pos hc, if_pos hc1]
        · have hc1 : ¬ (i + 1 ≤ j ∧ j < i + 1 + n ∧ j < ALLDB ∧ props[j]? = some none) := by
            rintro ⟨h1, h2, h3, h4⟩
            exact hc ⟨by omega, by omega, h3, h4⟩
          rw [if_neg hc, if_neg hc1]
    · rw [if_neg hi]
      have hc : ¬ (i ≤ j ∧ j < i + (n + 1) ∧ j < ALLDB ∧ props[j]? = some none) := by
        rintro ⟨h1, -, h3, -⟩; omega
      rw [if_neg hc]

theorem addProperty_ALLDB_slot (db : DbTypeValues) (s : PropertySchema)
    (propName colName xmlName colType : String) (defaultValue : Option String) (colSize : Int)
    (constraint : String) (j : Nat) :
    (s.addProperty db propName db.ALLDB colName xmlName colType defaultValue colSize
        constraint).m_properties[j]? =
      if db.SQLITE ≤ j ∧ j < db.ALLDB ∧ s.m_properties[j]? = some none
      then some (some s.objects.length) else s.m_properties[j]? := by
  unfold PropertySchema.addProperty
  rw [if_pos rfl]
  show (addPropertyLoop s.objects.length db.ALLDB (db.ALLDB - db.SQLITE) db.SQLITE
    s.m_properties)[j]? = _
  rw [addPropertyLoop_slot]
  by_cases hc : db.SQLITE ≤ j ∧ j < db.ALLDB ∧ s.m_properties[j]? = some none
  · have hc1 : db.SQLITE ≤ j ∧ j < db.SQLITE + (db.ALLDB - db.SQLITE) ∧ j < db.ALLDB ∧
        s.m_properties[j]? = some none := ⟨hc.1, by omega, hc.2.1, hc.2.2⟩
    rw [if_pos hc, if_pos hc1]
  · have hc1 : ¬ (db.SQLITE ≤ j ∧ j < db.SQLITE + (db.ALLDB - db.SQLITE) ∧ j < db.ALLDB ∧
        s.m_properties[j]? = some none) := by
      rintro ⟨h1, -, h3, h4⟩
      exact hc ⟨h1, h3, h4⟩
    rw [if_neg hc, if_neg hc1]

/-- C21 (the code at the failing input): whatever the values of the enumerators, after
`addProperty` with `dbType == ALLDB` a slot holds the new definition exactly when it lies from
`SQLITE` up to but not including `ALLDB` and was null before, and every other slot is
unchanged.  The slot `ALLDB` itself is never set: on a default-constructed `PropertySchema`
it is null before the call and still null after it, so there is no definition for the getters
`colName(ALLDB)`, `colType(ALLDB)`, `defaultValue(ALLDB)` and `fTable(ALLDB)` to read. -/
theorem addProperty_ALLDB_leaves_slot_ALLDB_unset (db : DbTypeValues) (s : PropertySchema)
    (propName colName xmlName colType : String) (defaultValue : Option String) (colSize : Int)
    (constraint : String) :
    (∀ j : Nat,
      (s.addProperty db propName db.ALLDB colName xmlName colType defaultValue colSize
          constraint).m_properties[j]? =
        if db.SQLITE ≤ j ∧ j < db.ALLDB ∧ s.m_properties[j]? = some none
        then some (some s.objects.length) else s.m_properties[j]?) ∧
    (s.addProperty db propName db.ALLDB colName xmlName colType defaultValue colSize
        constraint).objects[s.objects.length]?
      = some ⟨propName, colName, xmlName, constraint, colType, defaultValue, colSize,
          DbTableId.NOTABLE⟩ ∧
    (PropertySchema.default db).m_properties[db.ALLDB]? = some none ∧
    ((PropertySchema.default db).addProperty db propName db.ALLDB colName xmlName colType
        defaultValue colSize constraint).m_properties[db.ALLDB]? = some none ∧
    ((PropertySchema.default db).addProperty db propName db.ALLDB colName xmlName colType
        defaultValue colSize constraint).colName db.ALLDB = none ∧
    ((PropertySchema.default db).addProperty db propName db.ALLDB colName xmlName colType
        defaultValue colSize constraint).colType db.ALLDB = none ∧
    ((PropertySchema.default db).addProperty db propName db.ALLDB colName xmlName colType
        defaultValue colSize constraint).defaultValue db.ALLDB = none ∧
    ((PropertySchema.default db).addProperty db propName db.ALLDB colName xmlName colType
        defaultValue colSize constraint).fTable db.ALLDB = none := by
  have hdef : (PropertySchema.default db).m_properties[db.ALLDB]? = some none := by
    simp [PropertySchema.default, List.getElem?_replicate]
  have hafter : ((PropertySchema.default db).addProperty db propName db.ALLDB colName xmlName
      colType defaultValue colSize constraint).m_properties[db.ALLDB]? = some none := by
    rw [addProperty_ALLDB_slot, if_neg (by rintro ⟨-, h, -⟩; omega), hdef]
  have hnone : ((PropertySchema.default db).addProperty db propName db.ALLDB colName xmlName
      colType defaultValue colSize constraint).definition db.ALLDB = none := by
    unfold PropertySchema.definition
    rw [hafter]
  refine ⟨fun j => addProperty_ALLDB_slot db s _ _ _ _ _ _ _ j, ?_, hdef, hafter, ?_, ?_, ?_, ?_⟩
  · simp [PropertySchema.addProperty]
  · simp [PropertySchema.colName, hnone]
  · simp [PropertySchema.colType, hnone]
  · simp [PropertySchema.defaultValue, hnone]
  · simp [PropertySchema.fTable, hnone]

theorem constructor_and_addProperty_example (propName colName xmlName colType : String)
    (defaultValue : Option String) (colSize : Int) (constraint : String) :
    (PropertySchema.withProperty ⟨1, 3⟩ propName colName xmlName colType defaultValue
        constraint colSize).m_properties = [none, some 0, some 0, some 0] ∧
    ((PropertySchema.default ⟨1, 3⟩).addProperty ⟨1, 3⟩ propName 3 colName xmlName colType
        defaultValue colSize constraint).m_properties = [none, some 0, some 0, none] :=
  ⟨rfl, rfl⟩

/-! ### `Water::isEqualTo` -/

theorem Water_isEqualTo_iff (a b : Water) :
    a.isEqualTo b = true ↔
      a.ions = b.ions ∧
      (a.base.m_outline = true ∨ b.base.m_outline = true ∨
        (a.m_ph = b.m_ph ∧ a.m_notes = b.m_notes)) := by
  unfold Water.isEqualTo Water.ions
  by_cases ha : a.base.m_outline = true
  · simp [ha, and_assoc]
  · by_cases hb : b.base.m_outline = true
    · simp [ha, hb, and_assoc]
    · simp [ha, hb, and_assoc]

/-- C22: `Water::isEqualTo` returns `true` exactly when the twelve ion concentration fields
(calcium, bicarbonate, carbonate, potassium, iron, nitrate, nitrite, flouride, sulfate,
chloride, sodium, magnesium) are equal and, unless one of the two objects is an outline, `ph`
and `notes` are equal too.  No other field influences the result: two pairs of objects that
agree on the ion fields, the outline flags, `ph` and `notes` give the same result, and when
one object of each pair is an outline agreement on the ion fields and the outline flags is
enough. -/
theorem Water_isEqualTo_compares (a b : Water) :
    (a.isEqualTo b = true ↔
      a.ions = b.ions ∧
      (a.base.m_outline = true ∨ b.base.m_outline = true ∨
        (a.m_ph = b.m_ph ∧ a.m_notes = b.m_notes))) ∧
    ((a.base.m_outline = true ∨ b.base.m_outline = true) →
      (a.isEqualTo b = true ↔ a.ions = b.ions)) ∧
    ((a.base.m_outline = false ∧ b.base.m_outline = false) →
      (a.isEqualTo b = true ↔ a.ions = b.ions ∧ a.m_ph = b.m_ph ∧ a.m_notes = b.m_notes)) ∧
    (∀ a1 b1 : Water, a1.ions = a.ions → b1.ions = b.ions →
      a1.base.m_outline = a.base.m_outline → b1.base.m_outline = b.base.m_outline →
      a1.m_ph = a.m_ph → b1.m_ph = b.m_ph → a1.m_notes = a.m_notes → b1.m_notes = b.m_notes →
      a1.isEqualTo b1 = a.isEqualTo b) ∧
    (∀ a1 b1 : Water, a1.ions = a.ions → b1.ions = b.ions →
      a1.base.m_outline = a.base.m_outline → b1.base.m_outline = b.base.m_outline →
      (a.base.m_outline = true ∨ b.base.m_outline = true) →
      a1.isEqualTo b1 = a.isEqualTo b) := by
  have h := Water_isEqualTo_iff a b
  refine ⟨h, ?_, ?_, ?_, ?_⟩
  · intro ho
    rw [h]
    constructor
    · exact fun hh => hh.1
    · intro hi
      rcases ho with ho | ho
      · exact ⟨hi, Or.inl ho⟩
      · exact ⟨hi, Or.inr (Or.inl ho)⟩
  · rintro ⟨ha, hb⟩
    rw [h]
    constructor
    · rintro ⟨hi, ho | ho | hp⟩
      · rw [ha] at ho; exact Bool.noConfusion ho
      · rw [hb] at ho; exact Bool.noConfusion ho
      · exact ⟨hi, hp⟩
    · rintro ⟨hi, hp⟩
      exact ⟨hi, Or.inr (Or.inr hp)⟩
  · intro a1 b1 hia hib hoa hob hpa hpb hna hnb
    rw [Bool.eq_iff_iff, Water_isEqualTo_iff a1 b1, h, hia, hib, hoa, hob, hpa, hpb, hna, hnb]
  · intro a1 b1 hia hib hoa hob ho
    rw [Bool.eq_iff_iff, Water_isEqualTo_iff a1 b1, h, hia, hib, hoa, hob]
    constructor
    · rintro ⟨hi, -⟩
      rcases ho with ho | ho
      · exact ⟨hi, Or.inl ho⟩
      · exact ⟨hi, Or.inr (Or.inl ho)⟩
    · rintro ⟨hi, -⟩
      rcases ho with ho | ho
      · exact ⟨hi, Or.inl ho⟩
      · exact ⟨hi, Or.inr (Or.inl ho)⟩

/-- C27 (as stated, refuted): `sampleWaterA` and `sampleWaterC` are not outlines and differ in
`ph`, `sampleWaterB` is an outline with the same ion concentrations; then
`a.isEqualTo(b)` and `b.isEqualTo(c)` hold but `a.isEqualTo(c)` does not. -/
theorem Water_isEqualTo_not_transitive :
    sampleWaterA.isEqualTo sampleWaterB = true ∧
    sampleWaterB.isEqualTo sampleWaterC = true ∧
    sampleWaterA.isEqualTo sampleWaterC = false := by
  decide

/-- C27 (amended): `Water::isEqualTo` is transitive through an object that is not an outline,
and towards an outline: for all `Water` objects `a`, `b` and `c` such that `b` is not an
outline or at least one of `a` and `c` is an outline, if `a.isEqualTo(b)` and
`b.isEqualTo(c)` then `a.isEqualTo(c)`. -/
theorem Water_isEqualTo_transitive_unless_outline_between (a b c : Water)
    (ho : b.base.m_outline = false ∨ a.base.m_outline = true ∨ c.base.m_outline = true)
    (hab : a.isEqualTo b = true) (hbc : b.isEqualTo c = true) :
    a.isEqualTo c = true := by
  rw [Water_isEqualTo_iff] at hab hbc ⊢
  obtain ⟨hi1, h1⟩ := hab
  obtain ⟨hi2, h2⟩ := hbc
  refine ⟨hi1.trans hi2, ?_⟩
  rcases ho with hb | ha | hc
  · rcases h1 with h1 | h1 | h1
    · exact Or.inl h1
    · rw [hb] at h1; exact Bool.noConfusion h1
    · rcases h2 with h2 | h2 | h2
      · rw [hb] at h2; exact Bool.noConfusion h2
      · exact Or.inr (Or.inl h2)
      · exact Or.inr (Or.inr ⟨h1.1.trans h2.1, h1.2.trans h2.2⟩)
  · exact Or.inl ha
  · exact Or.inr (Or.inl hc)

theorem Water_isEqualTo_transitive_unless_outline_between_witness :
    sampleWaterA.isEqualTo sampleWaterB = true :=
  Water_isEqualTo_transitive_unless_outline_between sampleWaterA sampleWaterA sampleWaterB
    (Or.inl (by decide)) (by decide) (by decide)


/-! ### `Water::operator=` -/

theorem notifyIf_sublist (changed : Bool) (name : String) :
    (notifyIf changed name).Sublist [name] := by
  unfold notifyIf
  cases changed
  · exact List.nil_sublist _
  · exact List.Sublist.refl _

theorem mem_notifyIf (p : String) (changed : Bool) (name : String) :
    p ∈ notifyIf changed name ↔ changed = true ∧ p = name := by
  unfold notifyIf
  cases changed <;> simp

set_option maxHeartbeats 3200000 in
/-- C23: for every pair of `Water` objects, after `a = b` each of the nineteen Water-specific
fields of `a` holds the value of `b`; `propagatePropertyChange` is called for one of the
nineteen properties exactly when the value `a` had for it before the assignment differed from
that of `b`, for no other property, and for none twice; and the database update is issued
exactly when the key of `a`, read after the swap as the code does, is greater than 0. -/
theorem Water_assign_effects (copyBase : WaterBase → WaterBase)
    (swapBase : WaterBase → WaterBase → WaterBase × WaterBase) (a b : Water) :
    (Water.assign copyBase swapBase a b).1.m_calcium_ppm = b.m_calcium_ppm ∧
    (Water.assign copyBase swapBase a b).1.m_bicarbonate_ppm = b.m_bicarbonate_ppm ∧
    (Water.assign copyBase swapBase a b).1.m_sulfate_ppm = b.m_sulfate_ppm ∧
    (Water.assign copyBase swapBase a b).1.m_chloride_ppm = b.m_chloride_ppm ∧
    (Water.assign copyBase swapBase a b).1.m_sodium_ppm = b.m_sodium_ppm ∧
    (Water.assign copyBase swapBase a b).1.m_magnesium_ppm = b.m_magnesium_ppm ∧
    (Water.assign copyBase swapBase a b).1.m_ph = b.m_ph ∧
    (Water.assign copyBase swapBase a b).1.m_alkalinity_ppm = b.m_alkalinity_ppm ∧
    (Water.assign copyBase swapBase a b).1.m_notes = b.m_notes ∧
    (Water.assign copyBase swapBase a b).1.m_type = b.m_type ∧
    (Water.assign copyBase swapBase a b).1.m_mashRo_pct = b.m_mashRo_pct ∧
    (Water.assign copyBase swapBase a b).1.m_spargeRo_pct = b.m_spargeRo_pct ∧
    (Water.assign copyBase swapBase a b).1.m_alkalinity_as_hco3 = b.m_alkalinity_as_hco3 ∧
    (Water.assign copyBase swapBase a b).1.m_carbonate_ppm = b.m_carbonate_ppm ∧
    (Water.assign copyBase swapBase a b).1.m_potassium_ppm = b.m_potassium_ppm ∧
    (Water.assign copyBase swapBase a b).1.m_iron_ppm = b.m_iron_ppm ∧
    (Water.assign copyBase swapBase a b).1.m_nitrate_ppm = b.m_nitrate_ppm ∧
    (Water.assign copyBase swapBase a b).1.m_nitrite_ppm = b.m_nitrite_ppm ∧
    (Water.assign copyBase swapBase a b).1.m_flouride_ppm = b.m_flouride_ppm ∧
    ("PropertyNames::Water::calcium_ppm" ∈ (Water.assign copyBase swapBase a b).2.notifications
        ↔ a.m_calcium_ppm ≠ b.m_calcium_ppm) ∧
    ("PropertyNames::Water::bicarbonate_ppm" ∈ (Water.assign copyBase swapBase a b).2.notifications
        ↔ a.m_bicarbonate_ppm ≠ b.m_bicarbonate_ppm) ∧
    ("PropertyNames::Water::sulfate_ppm" ∈ (Water.assign copyBase swapBase a b).2.notifications
        ↔ a.m_sulfate_ppm ≠ b.m_sulfate_ppm) ∧
    ("PropertyNames::Water::chloride_ppm" ∈ (Water.assign copyBase swapBase a b).2.notifications
        ↔ a.m_chloride_ppm ≠ b.m_chloride_ppm) ∧
    ("PropertyNames::Water::sodium_ppm" ∈ (Water.assign copyBase swapBase a b).2.notifications
        ↔ a.m_sodium_ppm ≠ b.m_sodium_ppm) ∧
    ("PropertyNames::Water::magnesium_ppm" ∈ (Water.assign copyBase swapBase a b).2.notifications
        ↔ a.m_magnesium_ppm ≠ b.m_magnesium_ppm) ∧
    ("PropertyNames::Water::ph" ∈ (Water.assign copyBase swapBase a b).2.notifications
        ↔ a.m_ph ≠ b.m_ph) ∧
    ("PropertyNames::Water::alkalinity_ppm" ∈ (Water.assign copyBase swapBase a b).2.notifications
        ↔ a.m_alkalinity_ppm ≠ b.m_alkalinity_ppm) ∧
    ("PropertyNames::Water::notes" ∈ (Water.assign copyBase swapBase a b).2.notifications
        ↔ a.m_notes ≠ b.m_notes) ∧
    ("PropertyNames::Water::type" ∈ (Water.assign copyBase swapBase a b).2.notifications
        ↔ a.m_type ≠ b.m_type) ∧
    ("PropertyNames::Water::mashRo_pct" ∈ (Water.assign copyBase swapBase a b).2.notifications
        ↔ a.m_mashRo_pct ≠ b.m_mashRo_pct) ∧
    ("PropertyNames::Water::spargeRo_pct" ∈ (Water.assign copyBase swapBase a b).2.notifications
        ↔ a.m_spargeRo_pct ≠ b.m_spargeRo_pct) ∧
    ("PropertyNames::Water::alkalinityAsHCO3" ∈ (Water.assign copyBase swapBase a b).2.notifications
        ↔ a.m_alkalinity_as_hco3 ≠ b.m_alkalinity_as_hco3) ∧
    ("PropertyNames::Water::carbonate_ppm" ∈ (Water.assign copyBase swapBase a b).2.notifications
        ↔ a.m_carbonate_ppm ≠ b.m_carbonate_ppm) ∧
    ("PropertyNames::Water::potassium_ppm" ∈ (Water.assign copyBase swapBase a b).2.notifications
        ↔ a.m_potassium_ppm ≠ b.m_potassium_ppm) ∧
    ("PropertyNames::Water::iron_ppm" ∈ (Water.assign copyBase swapBase a b).2.notifications
        ↔ a.m_iron_ppm ≠ b.m_iron_ppm) ∧
    ("PropertyNames::Water::nitrate_ppm" ∈ (Water.assign copyBase swapBase a b).2.notifications
        ↔ a.m_nitrate_ppm ≠ b.m_nitrate_ppm) ∧
    ("PropertyNames::Water::nitrite_ppm" ∈ (Water.assign copyBase swapBase a b).2.notifications
        ↔ a.m_nitrite_ppm ≠ b.m_nitrite_ppm) ∧
    ("PropertyNames::Water::flouride_ppm" ∈ (Water.assign copyBase swapBase a b).2.notifications
        ↔ a.m_flouride_ppm ≠ b.m_flouride_ppm) ∧
    (∀ p ∈ (Water.assign copyBase swapBase a b).2.notifications, p ∈ Water.assignedProperties) ∧
    (Water.assign copyBase swapBase a b).2.notifications.Nodup ∧
    ((Water.assign copyBase swapBase a b).2.dbUpdate = true
        ↔ 0 < (Water.assign copyBase swapBase a b).1.base.key) ∧
    (Water.assign copyBase swapBase a b).1.base = (swapBase a.base (copyBase b.base)).1 := by
  have hsub : (Water.assign copyBase swapBase a b).2.notifications.Sublist
      Water.assignedProperties := by
    have hlist : Water.assignedProperties =
        ["PropertyNames::Water::calcium_ppm"] ++
        ["PropertyNames::Water::bicarbonate_ppm"] ++
        ["PropertyNames::Water::sulfate_ppm"] ++
        ["PropertyNames::Water::chloride_ppm"] ++
        ["PropertyNames::Water::sodium_ppm"] ++
        ["PropertyNames::Water::magnesium_ppm"] ++
        ["PropertyNames::Water::ph"] ++
        ["PropertyNames::Water::alkalinity_ppm"] ++
        ["PropertyNames::Water::notes"] ++
        ["PropertyNames::Water::type"] ++
        ["PropertyNames::Water::mashRo_pct"] ++
        ["PropertyNames::Water::spargeRo_pct"] ++
        ["PropertyNames::Water::alkalinityAsHCO3"] ++
        ["PropertyNames::Water::carbonate_ppm"] ++
        ["PropertyNames::Water::potassium_ppm"] ++
        ["PropertyNames::Water::iron_ppm"] ++
        ["PropertyNames::Water::nitrate_ppm"] ++
        ["PropertyNames::Water::nitrite_ppm"] ++
        ["PropertyNames::Water::flouride_ppm"] := rfl
    rw [hlist]
    simp only [Water.assign]
    repeat' (first | apply List.Sublist.append | apply notifyIf_sublist)
  have hnodup : Water.assignedProperties.Nodup := by decide
  refine ⟨?_, ?_, ?_, ?_, ?_, ?_, ?_, ?_, ?_, ?_, ?_, ?_, ?_, ?_, ?_, ?_, ?_, ?_, ?_, ?_, ?_, ?_, ?_, ?_, ?_, ?_, ?_, ?_, ?_, ?_, ?_, ?_, ?_, ?_, ?_, ?_, ?_, ?_,
    hsub.subset, hsub.nodup hnodup, ?_, ?_⟩
  · rfl
  · rfl
  · rfl
  · rfl
  · rfl
  · rfl
  · rfl
  · rfl
  · rfl
  · rfl
  · rfl
  · rfl
  · rfl
  · rfl
  · rfl
  · rfl
  · rfl
  · rfl
  · rfl
  · simp only [Water.assign, Water.swap, Water.copy, List.mem_append, mem_notifyIf,
      decide_eq_true_eq]
    simp [eq_comm]
  · simp only [Water.assign, Water.swap, Water.copy, List.mem_append, mem_notifyIf,
      decide_eq_true_eq]
    simp [eq_comm]
  · simp only [Water.assign, Water.swap, Water.copy, List.mem_append, mem_notifyIf,
      decide_eq_true_eq]
    simp [eq_comm]
  · simp only [Water.assign, Water.swap, Water.copy, List.mem_append, mem_notifyIf,
      decide_eq_true_eq]
    simp [eq_comm]
  · simp only [Water.assign, Water.swap, Water.copy, List.mem_append, mem_notifyIf,
      decide_eq_true_eq]
    simp [eq_comm]
  · simp only [Water.assign, Water.swap, Water.copy, List.mem_append, mem_notifyIf,
      decide_eq_true_eq]
    simp [eq_comm]
  · simp only [Water.assign, Water.swap, Water.copy, List.mem_append, mem_notifyIf,
      decide_eq_true_eq]
    simp [eq_comm]
  · simp only [Water.assign, Water.swap, Water.copy, List.mem_append, mem_notifyIf,
      decide_eq_true_eq]
    simp [eq_comm]
  · simp only [Water.assign, Water.swap, Water.copy, List.mem_append, mem_notifyIf,
      decide_eq_true_eq]
    simp [eq_comm]
  · simp only [Water.assign, Water.swap, Water.copy, List.mem_append, mem_notifyIf,
      decide_eq_true_eq]
    simp [eq_comm]
  · simp only [Water.assign, Water.swap, Water.copy, List.mem_append, mem_notifyIf,
      decide_eq_true_eq]
    simp [eq_comm]
  · simp only [Water.assign, Water.swap, Water.copy, List.mem_append, mem_notifyIf,
      decide_eq_true_eq]
    simp [eq_comm]
  · simp only [Water.assign, Water.swap, Water.copy, List.mem_append, mem_notifyIf,
      decide_eq_true_eq]
    simp [eq_comm]
  · simp only [Water.assign, Water.swap, Water.copy, List.mem_append, mem_notifyIf,
      decide_eq_true_eq]
    simp [eq_comm]
  · simp only [Water.assign, Water.swap, Water.copy, List.mem_append, mem_notifyIf,
      decide_eq_true_eq]
    simp [eq_comm]
  · simp only [Water.assign, Water.swap, Water.copy, List.mem_append, mem_notifyIf,
      decide_eq_true_eq]
    simp [eq_comm]
  · simp only [Water.assign, Water.swap, Water.copy, List.mem_append, mem_notifyIf,
      decide_eq_true_eq]
    simp [eq_comm]
  · simp only [Water.assign, Water.swap, Water.copy, List.mem_append, mem_notifyIf,
      decide_eq_true_eq]
    simp [eq_comm]
  · simp only [Water.assign, Water.swap, Water.copy, List.mem_append, mem_notifyIf,
      decide_eq_true_eq]
    simp [eq_comm]
  · simp [Water.assign]
  · rfl

end Brewken
